import Mathlib

/-!
Session and authorization core of the admin panel front end.

Shallow embedding of `src/store/modules/usuarios.js` (the Pinia user store),
`src/services/api.js` (the axios gateway with its interceptors and the helper
`apiRequest`), `src/services/authService.js`, `src/services/rolesService.js`
(cache, reads, mutations and the role predicates), the method `create` of
`src/services/userService.js` and the navigation guard of
`src/router/index.js`.

Conventions of the embedding.

* A JavaScript value that is only tested for truthiness and copied around is an
  `Option`: `none` is `null`/`undefined`; for strings the empty string is falsy
  as well (`truthy`).
* An `async` method is the function from the state before the call, and the
  replies of the backend, to the settled result and the state after it.  A
  rejected promise is `Except.error`, the state is kept through a rejection.
* `localStorage` is the pair of entries the store reads and writes.  The Web
  Storage calls are total here, so the `catch` blocks around them, which only
  log, have no counterpart.
* `jwtDecode` (package `jwt-decode`) and the clock `Date.now()` are parameters.
* A Pinia getter is a Vue `computed`: its value is computed when it is read
  for the first time, kept, and computed again at the next read only after a
  state field that the computation read has changed.  `Date.now()` is no such
  field.  `UserStore.isTokenExpired dec now s` and
  `UserStore.tokenExpiresIn dec now s` are the values the two getters compute
  when they are evaluated at the clock reading `now`; `GetterCache` holds the
  values kept between evaluations, and `UserStore.readIsTokenExpired`,
  `UserStore.readTokenExpiresIn` and `AuthService.isAuthenticatedAt` are reads
  at a current time.  In `UserStore.initializeAuth`,
  `AuthService.isAuthenticated` and `AuthService.initAuth` the parameter `now`
  is the clock reading of the evaluation that produced the getter value the
  method reads.
* Numbers are exact.  The code's double arithmetic agrees with it on
  `decoded.exp < Date.now() / 1000` and on
  `Math.floor((decoded.exp - Date.now() / 1000) / 60)` while the clock is below
  `2 ^ 42` ms and `exp` below `2 ^ 32` s in absolute value
  (`getters_follow_doubles`); for an `exp` far beyond that range the doubles
  can be off by one.
* Role and user ids are natural numbers; string lengths, `trim` and `\s` follow
  JavaScript (UTF-16 code units, ECMAScript white space).
-/

namespace Jey2

/-! ## Data model -/

/-- JavaScript values held in the fields of a user or role object. -/
inductive JsVal where
  | null
  | num (n : Int)
  | str (s : String)
  | arr (xs : List String)
  deriving DecidableEq, Repr

/-- JavaScript truthiness of a field value. -/
def JsVal.truthy : JsVal → Bool
  | .null => false
  | .num n => n != 0
  | .str s => s != ""
  | .arr _ => true

/-- A plain JavaScript object: its own properties in insertion order. -/
abbrev JsObject := List (String × JsVal)

/-- Property read `o.k`; a missing property reads as `undefined` (`null` here). -/
def JsObject.get (o : JsObject) (k : String) : JsVal :=
  (o.lookup k).getD .null

/-- Object spread `{ ...a, ...b }`. -/
def spread (a b : JsObject) : JsObject :=
  a.map (fun kv => (kv.1, (b.lookup kv.1).getD kv.2)) ++
    b.filter (fun kv => (a.lookup kv.1).isNone)

/-- The principal: the user object the backend returns. -/
abbrev User := JsObject

/-- Truthiness of a string-or-null value: `!!s`. -/
def truthy : Option String → Bool
  | some s => s != ""
  | none => false

/-- String conversion applied by `localStorage.setItem` to its value. -/
def toJsString : Option String → String
  | some s => s
  | none => "null"

/-- Decoded token payload; `exp` is the expiry claim in seconds, when present. -/
structure JwtPayload where
  exp : Option Int
  deriving DecidableEq, Repr

/-- The decoder `jwtDecode`; `none` stands for a thrown decoding error. -/
abbrev Decoder := String → Option JwtPayload

/-- Body of an error response, as far as the client reads it: its `message`. -/
structure ErrorBody where
  message : Option String
  deriving DecidableEq, Repr

/-- Values thrown by the modelled code: `new Error(message)`, a runtime
`TypeError`, the object literal `{ message, status }`, or the object literal
`{ message, status, details }`. -/
inductive JsError where
  | error (message : String)
  | typeError
  | object (message : String) (status : Option Nat)
  | structured (message : String) (status : Option Nat) (details : Option ErrorBody)
  deriving DecidableEq, Repr

/-- State of `useUserStore` (`state: () => ({...})`). -/
structure UserStore where
  user : Option User
  token : Option String
  refreshToken : Option String
  isAuthenticated : Bool
  loading : Bool
  error : Option String
  deriving DecidableEq, Repr

/-- The two string entries of `localStorage` used by the store. -/
structure LocalStorage where
  token : Option String
  refreshToken : Option String
  deriving DecidableEq, Repr

/-- HTTP request as it leaves the gateway. -/
structure Request where
  method : String
  url : String
  body : List (String × String)
  authorization : Option String
  deriving DecidableEq, Repr

/-- Everything the client code reads or writes: the store, durable storage, the
gateway's module variable `isRedirecting`, the last value assigned to
`window.location.href`, and the requests sent to the backend, oldest first. -/
structure World where
  store : UserStore
  localStorage : LocalStorage
  isRedirecting : Bool
  location : Option String
  requests : List Request
  deriving DecidableEq, Repr

/-- Initial store state. -/
def UserStore.initial : UserStore :=
  { user := none, token := none, refreshToken := none,
    isAuthenticated := false, loading := false, error := none }

/-- A freshly loaded page: initial store, given durable storage, nothing sent. -/
def World.fresh (ls : LocalStorage) : World :=
  { store := UserStore.initial, localStorage := ls, isRedirecting := false,
    location := none, requests := [] }

/-! ## Store getters (`usuarios.js`, `getters`) -/

/-- Getter `isLoggedIn`: `!!state.token && !!state.user`. -/
def UserStore.isLoggedIn (s : UserStore) : Bool :=
  truthy s.token && s.user.isSome

/-- The computation of the getter `isTokenExpired`, run at the clock reading
`now`.  `decoded.exp < Date.now() / 1000` is evaluated on the millisecond clock
as `exp * 1000 < now`; with no `exp` claim the comparison `undefined < t` is
false.  The getter keeps the value computed here until `state.token` changes
(`UserStore.readIsTokenExpired`). -/
def UserStore.isTokenExpired (dec : Decoder) (now : Nat) (s : UserStore) : Bool :=
  match s.token with
  | none => true
  | some t =>
    if t = "" then true
    else
      match dec t with
      | none => true
      | some p =>
        match p.exp with
        | none => false
        | some e => decide (e * 1000 < (now : Int))

/-! ## Store actions (`usuarios.js`, `actions`) -/

/-- Action `setUser(userData)`. -/
def UserStore.setUser (userData : Option User) (w : World) : World :=
  { w with store := { w.store with
      user := userData, isAuthenticated := userData.isSome, error := none } }

/-- Action `setToken(token)`: an empty token is ignored with a warning. -/
def UserStore.setToken (token : Option String) (w : World) : World :=
  if !truthy token then w
  else
    { w with
      store := { w.store with token := token, isAuthenticated := true, error := none }
      localStorage := { w.localStorage with token := some (toJsString token) } }

/-- Action `setRefreshToken(refreshToken)`. -/
def UserStore.setRefreshToken (refreshToken : Option String) (w : World) : World :=
  { w with
    store := { w.store with refreshToken := refreshToken }
    localStorage := { w.localStorage with refreshToken := some (toJsString refreshToken) } }

/-- Action `login(userData, token, refreshToken = null)`.  The closing
`console.log(userData.email || userData.username)` throws a `TypeError` on a
null `userData`, after the state has been written. -/
def UserStore.login (userData : Option User) (token refreshToken : Option String)
    (w : World) : Except JsError Unit × World :=
  let w1 := UserStore.setUser userData w
  let w2 := UserStore.setToken token w1
  let w3 := if truthy refreshToken then UserStore.setRefreshToken refreshToken w2 else w2
  (if userData.isSome then .ok () else .error .typeError, w3)

/-- Action `logout()`: clears the state and removes both storage entries. -/
def UserStore.logout (w : World) : World :=
  { w with
    store := { user := none, token := none, refreshToken := none,
               isAuthenticated := false, error := none, loading := false }
    localStorage := { token := none, refreshToken := none } }

/-- Action `updateUser(updates)`. -/
def UserStore.updateUser (updates : JsObject) (w : World) : World :=
  match w.store.user with
  | none => w
  | some u => { w with store := { w.store with user := some (spread u updates) } }

/-- Action `setLoading(loading)`. -/
def UserStore.setLoading (loading : Bool) (w : World) : World :=
  { w with store := { w.store with loading := loading } }

/-- Action `setError(error)`. -/
def UserStore.setError (error : Option String) (w : World) : World :=
  { w with store := { w.store with error := error } }

/-- Action `clearError()`. -/
def UserStore.clearError (w : World) : World :=
  { w with store := { w.store with error := none } }

/-- Action `initializeAuth()`: the expiry test reads the getter, that is the
token currently in the store, before the stored token is adopted.  `now` is
the clock reading at which the getter value read here was computed. -/
def UserStore.initializeAuth (dec : Decoder) (now : Nat) (w : World) : Bool × World :=
  let token := w.localStorage.token
  let refreshToken := w.localStorage.refreshToken
  if !truthy token then (false, w)
  else if w.store.isTokenExpired dec now then (false, UserStore.logout w)
  else
    let w1 := { w with store := { w.store with token := token } }
    let w2 := if truthy refreshToken then
        { w1 with store := { w1.store with refreshToken := refreshToken } }
      else w1
    (true, { w2 with store := { w2.store with isAuthenticated := true } })

/-! ## The gateway (`api.js`) -/

/-- Answer of the backend to one request: a 2xx response with its body, an
error response with its status and the `message` field of its body, or no
response at all (timeout, no connectivity) with the transport error's message. -/
inductive Reply (α : Type) where
  | ok (data : α)
  | failed (status : Nat) (message : Option String)
  | noResponse (message : String)
  deriving Repr

/-- The rejection value of an axios call, as far as the client reads it:
`error.response?.status`, `error.response?.data?.message`, `error.message`. -/
structure AxiosError where
  status : Option Nat
  dataMessage : Option String
  message : String
  deriving DecidableEq, Repr

/-- Body of a successful `POST /auth/refresh`. -/
structure RefreshData where
  access_token : Option String
  refresh_token : Option String
  deriving DecidableEq, Repr

/-- Body of a successful `POST /auth/login`; each field may be missing.  A body
that is not an object at all behaves like one without `user`. -/
structure LoginData where
  user : Option User
  access_token : Option String
  refresh_token : Option String
  deriving DecidableEq, Repr

/-- A response body of the role, permission and user endpoints: `null`, one
object, or a list of objects. -/
inductive JsData where
  | null
  | object (o : JsObject)
  | list (xs : List JsObject)
  deriving DecidableEq, Repr

/-- The backend, one answer function per endpoint the modelled code calls.
The roles endpoint may answer with a body that is not a list (`none`).
`resource` answers the requests to `/roles...`, `/usuarios...` and
`/permisos...` other than the two endpoints about one user's roles and
effective permissions. -/
structure Backend where
  authLogout : Request → Reply Unit
  authMe : Request → Reply (Option User)
  authRefresh : Request → Reply RefreshData
  userRoles : Request → Reply (Option (List JsObject))
  authLogin : Request → Reply LoginData := fun _ => .noResponse "Network Error"
  resource : Request → Reply JsData := fun _ => .noResponse "Network Error"
  effectivePermissions : Request → Reply (Option (List JsObject)) :=
    fun _ => .noResponse "Network Error"

/-- The field `error.response?.data` of a rejection: the body of the error
response, absent when there was no response. -/
def AxiosError.data (e : AxiosError) : Option ErrorBody :=
  match e.status with
  | some _ => some { message := e.dataMessage }
  | none => none

/-- `a || b` on a string-or-undefined left operand. -/
def orElse (a : Option String) (b : String) : String :=
  match a with
  | some s => if s = "" then b else s
  | none => b

/-- Request interceptor: adds `Authorization: Bearer <token>` when the store
holds a token. -/
def Api.requestInterceptor (w : World) (req : Request) : Request :=
  if truthy w.store.token then
    { req with authorization := some ("Bearer " ++ toJsString w.store.token) }
  else req

/-- Response interceptor, error branch: on a 401, unless a redirect is under
way, set `isRedirecting`, log the store out and point the window at `/login`.
Every other branch only logs.  The error is rejected again in all cases. -/
def Api.responseInterceptor (e : AxiosError) (w : World) : World :=
  if e.status = some 401 && !w.isRedirecting then
    let w1 := { w with isRedirecting := true }
    let w2 := UserStore.logout w1
    { w2 with location := some "/login" }
  else w

/-- Sending: the request passes the request interceptor and goes out. -/
def Api.dispatch (method url : String) (body : List (String × String)) (w : World) :
    Request × World :=
  let req := Api.requestInterceptor w
    { method := method, url := url, body := body, authorization := none }
  (req, { w with requests := w.requests ++ [req] })

/-- Receiving: a 2xx reply resolves with its body, anything else passes the
response interceptor and rejects. -/
def Api.receive {α : Type} (r : Reply α) (w : World) : Except AxiosError α × World :=
  match r with
  | .ok data => (.ok data, w)
  | .failed status message =>
    let e : AxiosError := { status := some status, dataMessage := message,
                            message := "Request failed with status code " ++ toString status }
    (.error e, Api.responseInterceptor e w)
  | .noResponse message =>
    let e : AxiosError := { status := none, dataMessage := none, message := message }
    (.error e, Api.responseInterceptor e w)

/-- One call through the axios instance: `api.get(url)` / `api.post(url, body)`. -/
def Api.call {α : Type} (backend : Request → Reply α) (method url : String)
    (body : List (String × String)) (w : World) : Except AxiosError α × World :=
  let (req, w1) := Api.dispatch method url body w
  Api.receive (backend req) w1

/-! ## The session controller (`authService.js`) -/

/-- Message of the error `_performRefresh` throws from its `catch` block. -/
def sessionExpiredMessage : String :=
  "Sesión expirada. Por favor, inicia sesión nuevamente."

/-- Message of the error `_performRefresh` throws when no refresh token is stored. -/
def noRefreshTokenMessage : String := "No hay refresh token disponible"

/-- Method `logout(callApi = true)`.  The failure of the backend notification
is caught and logged inside; the outer `catch` repeats the local logout. -/
def AuthService.logout (be : Backend) (callApi : Bool) (w : World) :
    Except JsError Unit × World :=
  let w1 :=
    if callApi && truthy w.store.token then
      match Api.call be.authLogout "post" "/auth/logout" [] w with
      | (.ok _, w1) => w1
      | (.error _, w1) => w1
    else w
  (.ok (), UserStore.logout w1)

/-- Method `getCurrentUser()`. -/
def AuthService.getCurrentUser (be : Backend) (w : World) :
    Except JsError (Option User) × World :=
  if !truthy w.store.token then
    (.error (.object "Error al obtener datos del usuario" none), w)
  else
    match Api.call be.authMe "get" "/auth/me" [] w with
    | (.ok user, w1) => (.ok user, UserStore.setUser user w1)
    | (.error e, w1) =>
      let w2 := if e.status = some 401 then (AuthService.logout be false w1).2 else w1
      (.error (.object (orElse e.dataMessage "Error al obtener datos del usuario") e.status), w2)

/-- Method `_performRefresh()`, run to completion.  The error thrown for a
missing refresh token is thrown inside the `try`, so the method's own `catch`
handles it like a failed backend call. -/
def AuthService._performRefresh (be : Backend) (w : World) :
    Except JsError (Option String) × World :=
  if !truthy w.store.refreshToken then
    let w1 := (AuthService.logout be false w).2
    (.error (.error sessionExpiredMessage), w1)
  else
    match Api.call be.authRefresh "post" "/auth/refresh"
        [("refresh_token", toJsString w.store.refreshToken)] w with
    | (.ok data, w1) =>
      let w2 := UserStore.setToken data.access_token w1
      let w3 := if truthy data.refresh_token then
          UserStore.setRefreshToken data.refresh_token w2 else w2
      (.ok data.access_token, w3)
    | (.error _, w1) =>
      let w2 := (AuthService.logout be false w1).2
      (.error (.error sessionExpiredMessage), w2)

/-- Method `refreshToken()` called with no refresh pending
(`refreshTokenPromise` null) and run to completion: it starts
`_performRefresh`, awaits it and clears the slot again. -/
def AuthService.refreshToken (be : Backend) (w : World) :
    Except JsError (Option String) × World :=
  AuthService._performRefresh be w

/-- Method `isAuthenticated()`; it reads two getters and writes no state field.
`now` is the clock reading at which the value of `isTokenExpired` read here was
computed; `AuthService.isAuthenticatedAt` is the call at a current time. -/
def AuthService.isAuthenticated (dec : Decoder) (now : Nat) (w : World) : Bool × World :=
  (w.store.isLoggedIn && !w.store.isTokenExpired dec now, w)

/-- Method `initAuth()`. -/
def AuthService.initAuth (be : Backend) (dec : Decoder) (now : Nat) (w : World) :
    Bool × World :=
  match UserStore.initializeAuth dec now w with
  | (false, w1) => (false, w1)
  | (true, w1) =>
    match AuthService.getCurrentUser be w1 with
    | (.ok _, w2) => (true, w2)
    | (.error _, w2) => (false, (AuthService.logout be false w2).2)

/-! ## Role predicates (`rolesService.js`) and the navigation guard (`router/index.js`) -/

/-- Template-literal conversion of a field value. -/
def JsVal.toJsString : JsVal → String
  | .null => "undefined"
  | .num n => toString n
  | .str s => s
  | .arr xs => ",".intercalate xs

/-- Test `roleNames.includes(v)` for a list of names and a field value. -/
def includes (roleNames : List String) (v : JsVal) : Bool :=
  match v with
  | .str s => roleNames.contains s
  | _ => false

/-- Method `_handleError(error, defaultMsg)` applied to a gateway rejection. -/
def RolesService._handleError (e : AxiosError) (defaultMsg : String) : JsError :=
  .object (orElse e.dataMessage (orElse (some e.message) defaultMsg)) e.status

/-- Method `getCurrentUserRoles()`. -/
def RolesService.getCurrentUserRoles (be : Backend) (w : World) :
    Except JsError (Option (List JsObject)) × World :=
  match w.store.user with
  | none => (.error (.object "Usuario no autenticado" none), w)
  | some u =>
    if !(u.get "id").truthy then (.error (.object "Usuario no autenticado" none), w)
    else
      match Api.call be.userRoles "get"
          ("/usuarios/" ++ (u.get "id").toJsString ++ "/roles") [] w with
      | (.ok data, w1) => (.ok data, w1)
      | (.error e, w1) =>
        (.error (RolesService._handleError e "Error al obtener roles del usuario actual"), w1)

/-- Method `currentUserHasAnyRole(roleNames)`: any failure, also `roles.some`
on a body that is not a list, is caught and answers `false`. -/
def RolesService.currentUserHasAnyRole (be : Backend) (roleNames : List String) (w : World) :
    Bool × World :=
  match RolesService.getCurrentUserRoles be w with
  | (.ok (some roles), w1) =>
    (roles.any (fun role =>
      includes roleNames (role.get "nombre") || includes roleNames (role.get "slug")), w1)
  | (.ok none, w1) => (false, w1)
  | (.error _, w1) => (false, w1)

/-- The `meta` field of a route record. -/
structure RouteMeta where
  requiresAuth : Bool
  roles : Option (List String)
  deriving DecidableEq, Repr

/-- A route record of the route table, without its component. -/
structure Route where
  path : String
  name : String
  routeMeta : RouteMeta
  deriving DecidableEq, Repr

/-- The named routes of `routes`. -/
def routes : List Route :=
  [ { path := "/", name := "Home", routeMeta := { requiresAuth := true, roles := none } },
    { path := "/usuarios", name := "Usuarios",
      routeMeta := { requiresAuth := true, roles := some ["admin"] } },
    { path := "/productos", name := "Productos",
      routeMeta := { requiresAuth := true, roles := none } },
    { path := "/proveedores", name := "Proveedores",
      routeMeta := { requiresAuth := true, roles := none } },
    { path := "/ventas", name := "Ventas",
      routeMeta := { requiresAuth := true, roles := none } },
    { path := "/login", name := "Login",
      routeMeta := { requiresAuth := false, roles := none } } ]

/-- What the guard tells the router: `next()` or `next(path)`. -/
inductive Navigation where
  | next
  | redirect (path : String)
  deriving DecidableEq, Repr

/-- The global guard `router.beforeEach`.  Nothing inside its `try` throws, so
the `catch` branch `next('/login')` is never taken. -/
def Router.beforeEach (be : Backend) (target : RouteMeta) (w : World) :
    Navigation × World :=
  let allowedRoles := target.roles.getD []
  if !target.requiresAuth then (.next, w)
  else
    let (hasRole, w1) :=
      if allowedRoles.length != 0 then RolesService.currentUserHasAnyRole be allowedRoles w
      else (true, w)
    if !hasRole then (.redirect "/", w1) else (.next, w1)

/-! ## Overlapping calls of `refreshToken()`

JavaScript runs each call up to its first suspension without interruption.
`_performRefresh` suspends either at `await api.post('/auth/refresh', ...)` or,
when no refresh token is stored, at `await this.logout(false)` in its `catch`
block; `refreshToken()` stores the promise in `refreshTokenPromise` before it
suspends.  The steps below are a call of `refreshToken()` and the settling of
the pending promise, after which the `finally` of the call that started it
clears the slot. -/

/-- Where a started `_performRefresh` is suspended. -/
inductive Suspended where
  | onReply (req : Request)
  | onLogout
  deriving DecidableEq, Repr

/-- The part of `_performRefresh` that runs when it is called. -/
def AuthService.performRefreshStart (be : Backend) (w : World) : Suspended × World :=
  if !truthy w.store.refreshToken then
    (.onLogout, (AuthService.logout be false w).2)
  else
    let (req, w1) := Api.dispatch "post" "/auth/refresh"
      [("refresh_token", toJsString w.store.refreshToken)] w
    (.onReply req, w1)

/-- The part of `_performRefresh` that runs when it is resumed. -/
def AuthService.performRefreshFinish (be : Backend) (k : Suspended) (w : World) :
    Except JsError (Option String) × World :=
  match k with
  | .onLogout => (.error (.error sessionExpiredMessage), w)
  | .onReply req =>
    match Api.receive (be.authRefresh req) w with
    | (.ok data, w1) =>
      let w2 := UserStore.setToken data.access_token w1
      let w3 := if truthy data.refresh_token then
          UserStore.setRefreshToken data.refresh_token w2 else w2
      (.ok data.access_token, w3)
    | (.error _, w1) =>
      let w2 := (AuthService.logout be false w1).2
      (.error (.error sessionExpiredMessage), w2)

/-- One `AuthService` instance with the calls made on it.  Promises are
numbered; `returned` lists, per call of `refreshToken()` in call order, the
promise whose outcome that caller gets; `settled` holds the outcomes. -/
structure Sys where
  world : World
  refreshTokenPromise : Option Nat
  suspended : Option Suspended
  nextPromise : Nat
  returned : List Nat
  settled : List (Nat × Except JsError (Option String))

/-- A new `AuthService` (`refreshTokenPromise = null`) over a given state. -/
def Sys.start (w : World) : Sys :=
  { world := w, refreshTokenPromise := none, suspended := none, nextPromise := 0,
    returned := [], settled := [] }

/-- A call of `refreshToken()`, up to its suspension. -/
def Sys.call (be : Backend) (s : Sys) : Sys :=
  match s.refreshTokenPromise with
  | some p => { s with returned := s.returned ++ [p] }
  | none =>
    let (k, w1) := AuthService.performRefreshStart be s.world
    { s with
      world := w1, refreshTokenPromise := some s.nextPromise, suspended := some k,
      nextPromise := s.nextPromise + 1, returned := s.returned ++ [s.nextPromise] }

/-- The pending refresh settles and the call that started it clears the slot. -/
def Sys.settle (be : Backend) (s : Sys) : Sys :=
  match s.refreshTokenPromise, s.suspended with
  | some p, some k =>
    let (r, w1) := AuthService.performRefreshFinish be k s.world
    { s with
      world := w1, refreshTokenPromise := none, suspended := none,
      settled := s.settled ++ [(p, r)] }
  | _, _ => s

/-- The outcome observed by the `i`-th call of `refreshToken()`, once settled. -/
def Sys.observed (s : Sys) (i : Nat) : Option (Except JsError (Option String)) :=
  (s.returned.get? i).bind (fun p => s.settled.lookup p)

/-- Test for a `POST /auth/refresh` request. -/
def Request.isRefresh (r : Request) : Bool :=
  r.method == "post" && r.url == "/auth/refresh"

/-- Test for a `POST /auth/logout` request. -/
def Request.isLogout (r : Request) : Bool :=
  r.method == "post" && r.url == "/auth/logout"

/-- Number of `POST /auth/refresh` requests in a request log. -/
def refreshCount (log : List Request) : Nat :=
  (log.filter Request.isRefresh).length

/-! ## Sequences of store actions -/

/-- The store actions that change the session. -/
inductive StoreAction where
  | setUser (userData : Option User)
  | setToken (token : Option String)
  | setRefreshToken (refreshToken : Option String)
  | login (userData : Option User) (token refreshToken : Option String)
  | logout
  | updateUser (updates : JsObject)
  | initializeAuth (now : Nat)
  deriving Repr

/-- Effect of one store action on the state. -/
def StoreAction.apply (dec : Decoder) (a : StoreAction) (w : World) : World :=
  match a with
  | .setUser userData => UserStore.setUser userData w
  | .setToken token => UserStore.setToken token w
  | .setRefreshToken refreshToken => UserStore.setRefreshToken refreshToken w
  | .login userData token refreshToken => (UserStore.login userData token refreshToken w).2
  | .logout => UserStore.logout w
  | .updateUser updates => UserStore.updateUser updates w
  | .initializeAuth now => (UserStore.initializeAuth dec now w).2

/-- State after a sequence of store actions, first action first. -/
def runActions (dec : Decoder) (actions : List StoreAction) (w : World) : World :=
  actions.foldl (fun acc a => a.apply dec acc) w

/-- Repeated calls of `refreshToken()` with nothing settling in between. -/
def Sys.calls (be : Backend) : Nat → Sys → Sys
  | 0, s => s
  | n + 1, s => Sys.calls be n (Sys.call be s)

/-- The request `_performRefresh` sends from state `w`. -/
def AuthService.refreshRequest (w : World) : Request :=
  (Api.dispatch "post" "/auth/refresh"
    [("refresh_token", toJsString w.store.refreshToken)] w).1

/-- The anonymous session: nothing in the store, nothing in durable storage. -/
def World.anonymous (w : World) : Prop :=
  w.store.user = none ∧ w.store.token = none ∧ w.store.refreshToken = none ∧
  w.store.isAuthenticated = false ∧
  w.localStorage.token = none ∧ w.localStorage.refreshToken = none

instance (w : World) : Decidable w.anonymous := by
  unfold World.anonymous; infer_instance

/-- Whether a reply is a 2xx response. -/
def Reply.isOk {α : Type} : Reply α → Bool
  | .ok _ => true
  | _ => false

/-! ## Sample data for the concrete instances -/

/-- A decoder that knows one token, `"T1"`, expiring at second 2000. -/
def sampleDecoder : Decoder :=
  fun t => if t = "T1" then some { exp := some 2000 } else none

/-- A backend that is unreachable: no endpoint answers. -/
def backendDown : Backend :=
  { authLogout := fun _ => .noResponse "Network Error"
    authMe := fun _ => .noResponse "Network Error"
    authRefresh := fun _ => .noResponse "Network Error"
    userRoles := fun _ => .noResponse "Network Error" }

/-- A backend that rejects every request with status 401. -/
def backendUnauthorized : Backend :=
  { authLogout := fun _ => .failed 401 none
    authMe := fun _ => .failed 401 none
    authRefresh := fun _ => .failed 401 none
    userRoles := fun _ => .failed 401 none }

/-- A backend whose refresh endpoint answers 2xx with the given body. -/
def backendRefreshing (data : RefreshData) : Backend :=
  { authLogout := fun _ => .ok ()
    authMe := fun _ => .ok (some [("id", .num 1), ("email", .str "a@b.com")])
    authRefresh := fun _ => .ok data
    userRoles := fun _ => .ok (some []) }

/-- A signed-in session: user 1 with access token `"T1"` and refresh token `"R1"`. -/
def sampleSession : World :=
  { store := { user := some [("id", .num 1), ("email", .str "a@b.com")],
               token := some "T1", refreshToken := some "R1",
               isAuthenticated := true, loading := false, error := none }
    localStorage := { token := some "T1", refreshToken := some "R1" }
    isRedirecting := false, location := none, requests := [] }

/-! ## Further getters and methods -/

/-- The computation of the getter `tokenExpiresIn`, the minutes left on the
token, run at the clock reading `now`.  With `exp` in seconds and the clock in
milliseconds, `Math.floor((exp - now / 1000) / 60)` is the integer quotient of
`exp * 1000 - now` by `60000`, rounded down (exact arithmetic, which the
doubles of the code follow while the clock is below `2 ^ 42` ms and `exp` below
`2 ^ 32` s in absolute value).  Without an `exp` claim the
arithmetic yields `NaN`, which is `none` here.  The getter keeps the value
computed here until `state.token` changes (`UserStore.readTokenExpiresIn`). -/
def UserStore.tokenExpiresIn (dec : Decoder) (now : Nat) (s : UserStore) : Option Int :=
  match s.token with
  | none => some 0
  | some t =>
    if t = "" then some 0
    else
      match dec t with
      | none => some 0
      | some p =>
        match p.exp with
        | none => none
        | some e => some (max 0 ((e * 1000 - (now : Int)) / 60000))

/-- A call of the action `setToken(token)` together with how it completes.  The
action has no `throw`: the guard for an empty token warns and returns. -/
def UserStore.setTokenCall (token : Option String) (w : World) :
    Except JsError Unit × World :=
  if !truthy token then (.ok (), w)
  else (.ok (), UserStore.setToken token w)

/-- The `catch` and `finally` blocks of `AuthService.login` for a caught error
whose `response` carries the given status and body (both absent for an error
without a response, such as the one thrown for an invalid login answer). -/
def AuthService.loginFailed (status : Option Nat) (details : Option ErrorBody) (w : World) :
    Except JsError User × World :=
  let errorMessage :=
    orElse (details.bind (fun body => body.message)) "Error al iniciar sesión"
  let w1 := UserStore.setError (some errorMessage) w
  (.error (.structured errorMessage status details), UserStore.setLoading false w1)

/-- Method `login(credentials)`. -/
def AuthService.login (be : Backend) (credentials : List (String × String)) (w : World) :
    Except JsError User × World :=
  let w1 := UserStore.clearError (UserStore.setLoading true w)
  match Api.call be.authLogin "post" "/auth/login" credentials w1 with
  | (.ok data, w2) =>
    match data.user with
    | none => AuthService.loginFailed none none w2
    | some user =>
      if !truthy data.access_token then AuthService.loginFailed none none w2
      else
        match UserStore.login (some user) data.access_token data.refresh_token w2 with
        | (.ok _, w3) => (.ok user, UserStore.setLoading false w3)
        | (.error _, w3) => AuthService.loginFailed none none w3
  | (.error e, w2) => AuthService.loginFailed e.status e.data w2

/-! ## The gateway over time -/

/-- What happens on a page between its load and its unload, as far as the
redirect flag is concerned: the response interceptor handles a rejection, or a
store action runs. -/
inductive GatewayEvent where
  | rejected (e : AxiosError)
  | action (a : StoreAction)
  deriving Repr

/-- Effect of one event. -/
def GatewayEvent.apply (dec : Decoder) (ev : GatewayEvent) (w : World) : World :=
  match ev with
  | .rejected e => Api.responseInterceptor e w
  | .action a => a.apply dec w

/-- State after a sequence of events, first event first. -/
def runEvents (dec : Decoder) (events : List GatewayEvent) (w : World) : World :=
  events.foldl (fun acc ev => ev.apply dec acc) w

/-- The response interceptor applied to a sequence of rejections in turn. -/
def Api.handleErrors (errors : List AxiosError) (w : World) : World :=
  errors.foldl (fun acc e => Api.responseInterceptor e acc) w

/-- Test for a rejection with status 401. -/
def AxiosError.is401 (e : AxiosError) : Bool :=
  e.status == some 401

/-- A backend whose login endpoint answers 2xx with the given body. -/
def backendLogin (data : LoginData) : Backend :=
  { authLogout := fun _ => .ok ()
    authMe := fun _ => .ok data.user
    authRefresh := fun _ => .noResponse "Network Error"
    userRoles := fun _ => .ok (some [])
    authLogin := fun _ => .ok data }

/-- A backend that rejects the login with status 401 and a message. -/
def backendBadCredentials : Backend :=
  { authLogout := fun _ => .ok ()
    authMe := fun _ => .failed 401 none
    authRefresh := fun _ => .failed 401 none
    userRoles := fun _ => .failed 401 none
    authLogin := fun _ => .failed 401 (some "Credenciales inválidas") }

/-- The request `login` sends from state `w`. -/
def AuthService.loginRequest (credentials : List (String × String)) (w : World) : Request :=
  (Api.dispatch "post" "/auth/login" credentials
    (UserStore.clearError (UserStore.setLoading true w))).1

/-- Status of an error response, absent for any other reply. -/
def Reply.errorStatus {α : Type} : Reply α → Option Nat
  | .failed status _ => some status
  | _ => none

/-- Body of an error response, absent for any other reply. -/
def Reply.errorBody {α : Type} : Reply α → Option ErrorBody
  | .failed _ message => some { message := message }
  | _ => none

/-- The `message` field of the body of an error response, absent otherwise. -/
def Reply.errorMessage {α : Type} : Reply α → Option String
  | .failed _ message => message
  | _ => none

/-- The decoder on strings that are not JSON Web Tokens, such as `"T1"`:
`jwtDecode` throws on a string without three dot-separated segments. -/
def opaqueTokenDecoder : Decoder := fun _ => none

/-- The store actions among a sequence of events, in order. -/
def storeActions (events : List GatewayEvent) : List StoreAction :=
  events.filterMap (fun ev =>
    match ev with
    | .rejected _ => none
    | .action a => some a)

/-- The login answer of the scenario: user 1 with tokens `"T1"` and `"R1"`. -/
def sampleLoginData : LoginData :=
  { user := some [("id", .num 1), ("email", .str "a@b.com")],
    access_token := some "T1", refresh_token := some "R1" }

/-! ## Strings as JavaScript sees them -/

/-- The characters `String.prototype.trim` removes and `\s` matches: the
ECMAScript white space and line terminator code points. -/
def jsWhitespace (c : Char) : Bool :=
  c.val == 0x9 || c.val == 0xA || c.val == 0xB || c.val == 0xC || c.val == 0xD ||
  c.val == 0x20 || c.val == 0xA0 || c.val == 0x1680 ||
  (0x2000 ≤ c.val && c.val ≤ 0x200A) ||
  c.val == 0x2028 || c.val == 0x2029 || c.val == 0x202F || c.val == 0x205F ||
  c.val == 0x3000 || c.val == 0xFEFF

/-- The property `length` of a string: its number of UTF-16 code units. -/
def jsLength (s : String) : Nat :=
  s.toList.foldl (fun n c => n + (if c.val < 0x10000 then 1 else 2)) 0

/-- The test `s.trim() === ''`. -/
def trimIsEmpty (s : String) : Bool :=
  s.toList.all jsWhitespace

/-- Whether the character list `pat` occurs in `cs` as a contiguous run. -/
def charsInclude (cs pat : List Char) : Bool :=
  match cs with
  | [] => pat.isEmpty
  | c :: rest => pat.isPrefixOf (c :: rest) || charsInclude rest pat

/-- The method `key.includes(pat)` on strings. -/
def strIncludes (key pat : String) : Bool :=
  charsInclude key.toList pat.toList

/-- Two lowercase hexadecimal digits of a number below 256. -/
def hex2 (n : Nat) : List Char :=
  let digit (d : Nat) : Char := if d < 10 then Char.ofNat (48 + d) else Char.ofNat (87 + d)
  [digit (n / 16), digit (n % 16)]

/-- The escape `JSON.stringify` writes for one character of a string. -/
def jsonEscapeChar (c : Char) : List Char :=
  if c = '"' then ['\\', '"']
  else if c = '\\' then ['\\', '\\']
  else if c.val = 0x8 then ['\\', 'b']
  else if c.val = 0xC then ['\\', 'f']
  else if c.val = 0xA then ['\\', 'n']
  else if c.val = 0xD then ['\\', 'r']
  else if c.val = 0x9 then ['\\', 't']
  else if c.val < 0x20 then ['\\', 'u', '0', '0'] ++ hex2 c.val.toNat
  else [c]

/-- The text `JSON.stringify(v)` for a string or `null`. -/
def jsonStringify (v : Option String) : String :=
  match v with
  | none => "null"
  | some s => String.mk (['"'] ++ s.toList.flatMap jsonEscapeChar ++ ['"'])

/-- Value of a lowercase hexadecimal digit. -/
def hexValue (c : Char) : Nat :=
  if c.toNat < 58 then c.toNat - 48 else c.toNat - 87

/-- Reading back the first escape of the body of a JSON string: the character
it stands for and the rest of the text.  It undoes `jsonEscapeChar`. -/
def jsonUnescapeHead : List Char → Option (Char × List Char)
  | [] => none
  | [c] => some (c, [])
  | c :: e :: r =>
    if c = '\\' then
      if e = '"' then some ('"', r)
      else if e = '\\' then some ('\\', r)
      else if e = 'b' then some (Char.ofNat 0x8, r)
      else if e = 'f' then some (Char.ofNat 0xC, r)
      else if e = 'n' then some (Char.ofNat 0xA, r)
      else if e = 'r' then some (Char.ofNat 0xD, r)
      else if e = 't' then some (Char.ofNat 0x9, r)
      else
        match r with
        | _ :: _ :: a :: b :: r2 => some (Char.ofNat (hexValue a * 16 + hexValue b), r2)
        | _ => none
    else some (c, e :: r)

/-- Value of a decimal digit. -/
def digitValue (c : Char) : Nat := c.toNat - 48

/-- Value of a decimal numeral read from the left, continuing from `acc`.  It
undoes the conversion of a natural number to its text. -/
def decimalValue (acc : Nat) (cs : List Char) : Nat :=
  cs.foldl (fun a c => 10 * a + digitValue c) acc

/-- The UTF-8 bytes of a character. -/
def utf8Bytes (c : Char) : List Nat :=
  if c.toNat < 0x80 then [c.toNat]
  else if c.toNat < 0x800 then [0xC0 + c.toNat / 64, 0x80 + c.toNat % 64]
  else if c.toNat < 0x10000 then
    [0xE0 + c.toNat / 4096, 0x80 + c.toNat / 64 % 64, 0x80 + c.toNat % 64]
  else
    [0xF0 + c.toNat / 262144, 0x80 + c.toNat / 4096 % 64, 0x80 + c.toNat / 64 % 64,
      0x80 + c.toNat % 64]

/-- Two uppercase hexadecimal digits of a number below 256. -/
def hexUpper2 (n : Nat) : List Char :=
  let digit (d : Nat) : Char := if d < 10 then Char.ofNat (48 + d) else Char.ofNat (55 + d)
  [digit (n / 16), digit (n % 16)]

/-- What the serializer of `URLSearchParams` writes for one character: a space
becomes `+`, ASCII letters and digits and `*`, `-`, `.`, `_` stay, every other
character becomes the percent escapes of its UTF-8 bytes. -/
def formEncodeChar (c : Char) : List Char :=
  if c = ' ' then ['+']
  else if c.isAlphanum || c = '*' || c = '-' || c = '.' || c = '_' then [c]
  else (utf8Bytes c).flatMap (fun b => '%' :: hexUpper2 b)

/-- The serialization of one name or value of `URLSearchParams`. -/
def formEncode (s : String) : String :=
  String.mk (s.toList.flatMap formEncodeChar)

/-- The text `URLSearchParams.prototype.toString` gives, as the template
literal of the request URL takes it: `name=value` pairs joined by `&`. -/
def urlSearchParams (params : List (String × String)) : String :=
  "&".intercalate (params.map (fun kv => formEncode kv.1 ++ "=" ++ formEncode kv.2))

/-! ## The roles service: cache and reads (`rolesService.js`) -/

/-- A cache record `{ data, timestamp }`. -/
structure CacheEntry where
  data : JsData
  timestamp : Nat
  deriving DecidableEq, Repr

/-- The `Map` held in `this.cache`: keys in insertion order, each key once. -/
abbrev Cache := List (String × CacheEntry)

/-- The method `Map.prototype.set`: an existing key keeps its place. -/
def Cache.set (c : Cache) (key : String) (entry : CacheEntry) : Cache :=
  if (c.lookup key).isSome then
    c.map (fun kv => if kv.1 = key then (key, entry) else kv)
  else c ++ [(key, entry)]

/-- State of the `RolesService` instance. -/
structure RolesService where
  cache : Cache
  deriving DecidableEq, Repr

/-- The field `cacheDuration`: ten minutes in milliseconds. -/
def RolesService.cacheDuration : Nat := 1000 * 60 * 10

/-- The options of `getAll` and `getById` after their defaults are applied. -/
structure ReadOptions where
  forceRefresh : Bool
  includePermissions : Bool
  includeUsers : Bool
  status : Option String
  deriving DecidableEq, Repr

/-- The cache key of `getAll`: `roles_` followed by the JSON text of
`{ includePermissions, includeUsers, status }`. -/
def RolesService.getAllKey (o : ReadOptions) : String :=
  "roles_\x7b\"includePermissions\":" ++ toString o.includePermissions ++
  ",\"includeUsers\":" ++ toString o.includeUsers ++
  ",\"status\":" ++ jsonStringify o.status ++ "\x7d"

/-- The cache key of `getById`: `role_<id>_<includePermissions>_<includeUsers>`. -/
def RolesService.getByIdKey (id : Nat) (o : ReadOptions) : String :=
  "role_" ++ toString id ++ "_" ++ toString o.includePermissions ++ "_" ++
  toString o.includeUsers

/-- The query parameters of `getAll`, as appended to `URLSearchParams`. -/
def RolesService.getAllParams (o : ReadOptions) : List (String × String) :=
  (if o.includePermissions then [("include_permissions", "true")] else []) ++
  (if o.includeUsers then [("include_users", "true")] else []) ++
  (if truthy o.status then [("status", toJsString o.status)] else [])

/-- The query parameters of `getById`. -/
def RolesService.getByIdParams (o : ReadOptions) : List (String × String) :=
  (if o.includePermissions then [("include_permissions", "true")] else []) ++
  (if o.includeUsers then [("include_users", "true")] else [])

/-- The URL of the request of `getAll`: the template literal
`/roles?<params>`. -/
def RolesService.getAllUrl (o : ReadOptions) : String :=
  "/roles?" ++ urlSearchParams (RolesService.getAllParams o)

/-- The URL of the request of `getById`: `/roles/<id>?<params>`. -/
def RolesService.getByIdUrl (id : Nat) (o : ReadOptions) : String :=
  "/roles/" ++ toString id ++ "?" ++ urlSearchParams (RolesService.getByIdParams o)

/-- The cache check shared by `getAll` and `getById`: the entry under `key`
when `forceRefresh` is not set and `Date.now() - timestamp < cacheDuration`. -/
def RolesService.cached (svc : RolesService) (now : Nat) (forceRefresh : Bool)
    (key : String) : Option CacheEntry :=
  if forceRefresh then none
  else
    match svc.cache.lookup key with
    | none => none
    | some entry =>
      if (now : Int) - (entry.timestamp : Int) < (RolesService.cacheDuration : Int) then
        some entry
      else none

/-- Text of the `TypeError` a property read on `null` throws; the wording
depends on the engine. -/
def typeErrorMessage : String := "Cannot read properties of null"

/-- Method `_handleError` applied to an error thrown locally, which has a
message and no response. -/
def RolesService.handleLocalError (message : String) : JsError :=
  .object message none

/-- The fetch shared by `getAll` and `getById`: the request, the `cache.set`
at the time `later` the answer arrives, and the log line that reads a property
of the body and so throws on a `null` body, after the entry is written.  The
query parameters are part of `url`; `getAll` and `getById` send no body. -/
def RolesService.fetch (be : Backend) (later : Nat) (url : String)
    (body : List (String × String)) (key defaultMsg : String)
    (svc : RolesService) (w : World) : Except JsError JsData × RolesService × World :=
  match Api.call be.resource "get" url body w with
  | (.ok data, w1) =>
    let svc1 : RolesService := { svc with cache := svc.cache.set key ⟨data, later⟩ }
    match data with
    | .null => (.error (RolesService.handleLocalError typeErrorMessage), svc1, w1)
    | _ => (.ok data, svc1, w1)
  | (.error e, w1) => (.error (RolesService._handleError e defaultMsg), svc, w1)

/-- Method `getAll(options)`, called at time `now`, answered at time `later`. -/
def RolesService.getAll (be : Backend) (now later : Nat) (o : ReadOptions)
    (svc : RolesService) (w : World) : Except JsError JsData × RolesService × World :=
  match svc.cached now o.forceRefresh (RolesService.getAllKey o) with
  | some entry => (.ok entry.data, svc, w)
  | none =>
    RolesService.fetch be later (RolesService.getAllUrl o) []
      (RolesService.getAllKey o) "Error al obtener roles" svc w

/-- Method `getById(id, options)`. -/
def RolesService.getById (be : Backend) (now later : Nat) (id : Nat) (o : ReadOptions)
    (svc : RolesService) (w : World) : Except JsError JsData × RolesService × World :=
  match svc.cached now o.forceRefresh (RolesService.getByIdKey id o) with
  | some entry => (.ok entry.data, svc, w)
  | none =>
    RolesService.fetch be later (RolesService.getByIdUrl id o) []
      (RolesService.getByIdKey id o) "Error al obtener el rol" svc w

/-- Method `clearCache()`. -/
def RolesService.clearCache (_svc : RolesService) : RolesService :=
  { cache := [] }

/-- Method `clearRoleCache(roleId)`: deletes every key that contains the text
`role_<roleId>`. -/
def RolesService.clearRoleCache (roleId : Nat) (svc : RolesService) : RolesService :=
  { cache := svc.cache.filter (fun kv => !strIncludes kv.1 ("role_" ++ toString roleId)) }

/-- Method `getCacheSize()`. -/
def RolesService.getCacheSize (svc : RolesService) : Nat :=
  svc.cache.length

/-! ## The roles service: mutations -/

/-- Method `_validateRoleData(data)`, on the field `data.nombre`: the message
of the error it throws, if any. -/
def RolesService._validateRoleData (nombre : Option String) : Except String Unit :=
  match nombre with
  | none => .error "El nombre del rol es requerido"
  | some n =>
    if n = "" || trimIsEmpty n then .error "El nombre del rol es requerido"
    else if jsLength n < 3 then .error "El nombre del rol debe tener al menos 3 caracteres"
    else if jsLength n > 50 then .error "El nombre del rol no puede exceder 50 caracteres"
    else .ok ()

/-- A call of one of the twelve mutating methods with its arguments.  A list
argument may be `null` (`none`). -/
inductive Mutation where
  | create (nombre : Option String) (fields : List (String × String))
  | update (id : Nat) (updates : List (String × String))
  | delete (id : Nat)
  | restore (id : Nat)
  | duplicate (id : Nat) (newName : String)
  | assignToUser (userId roleId : Nat)
  | assignMultipleToUser (userId : Nat) (roleIds : Option (List Nat))
  | removeFromUser (userId roleId : Nat)
  | syncUserRoles (userId : Nat) (roleIds : Option (List Nat))
  | setPermissions (roleId : Nat) (permissions : Option (List String))
  | addPermissions (roleId : Nat) (permissions : Option (List String))
  | removePermissions (roleId : Nat) (permissions : Option (List String))
  deriving DecidableEq, Repr

/-- Text of a list argument inside a request body. -/
def listText {α : Type} [ToString α] (xs : Option (List α)) : String :=
  match xs with
  | none => "null"
  | some l => ",".intercalate (l.map toString)

/-- The client-side check that precedes the request: only `create` has one. -/
def Mutation.validate : Mutation → Except String Unit
  | .create nombre _ => RolesService._validateRoleData nombre
  | _ => .ok ()

/-- The HTTP method of the request. -/
def Mutation.method : Mutation → String
  | .create _ _ => "post"
  | .update _ _ => "patch"
  | .delete _ => "delete"
  | .restore _ => "post"
  | .duplicate _ _ => "post"
  | .assignToUser _ _ => "post"
  | .assignMultipleToUser _ _ => "post"
  | .removeFromUser _ _ => "delete"
  | .syncUserRoles _ _ => "put"
  | .setPermissions _ _ => "put"
  | .addPermissions _ _ => "post"
  | .removePermissions _ _ => "delete"

/-- The URL of the request. -/
def Mutation.url : Mutation → String
  | .create _ _ => "/roles"
  | .update id _ => "/roles/" ++ toString id
  | .delete id => "/roles/" ++ toString id
  | .restore id => "/roles/" ++ toString id ++ "/restore"
  | .duplicate id _ => "/roles/" ++ toString id ++ "/duplicate"
  | .assignToUser userId _ => "/usuarios/" ++ toString userId ++ "/roles"
  | .assignMultipleToUser userId _ => "/usuarios/" ++ toString userId ++ "/roles/bulk"
  | .removeFromUser userId roleId =>
    "/usuarios/" ++ toString userId ++ "/roles/" ++ toString roleId
  | .syncUserRoles userId _ => "/usuarios/" ++ toString userId ++ "/roles/sync"
  | .setPermissions roleId _ => "/roles/" ++ toString roleId ++ "/permisos"
  | .addPermissions roleId _ => "/roles/" ++ toString roleId ++ "/permisos"
  | .removePermissions roleId _ => "/roles/" ++ toString roleId ++ "/permisos"

/-- The fields of the request body. -/
def Mutation.body : Mutation → List (String × String)
  | .create nombre fields =>
    (match nombre with
      | some n => [("nombre", n)]
      | none => []) ++ fields
  | .update _ updates => updates
  | .delete _ => []
  | .restore _ => []
  | .duplicate _ newName => [("nombre", newName)]
  | .assignToUser _ roleId => [("role_id", toString roleId)]
  | .assignMultipleToUser _ roleIds => [("role_ids", listText roleIds)]
  | .removeFromUser _ _ => []
  | .syncUserRoles _ roleIds => [("role_ids", listText roleIds)]
  | .setPermissions _ permissions => [("permisos", listText permissions)]
  | .addPermissions _ permissions => [("permisos", listText permissions)]
  | .removePermissions _ permissions => [("permisos", listText permissions)]

/-- The default message handed to `_handleError`. -/
def Mutation.defaultMsg : Mutation → String
  | .create _ _ => "Error al crear el rol"
  | .update _ _ => "Error al actualizar el rol"
  | .delete _ => "Error al eliminar el rol"
  | .restore _ => "Error al restaurar el rol"
  | .duplicate _ _ => "Error al duplicar el rol"
  | .assignToUser _ _ => "Error al asignar rol al usuario"
  | .assignMultipleToUser _ _ => "Error al asignar roles al usuario"
  | .removeFromUser _ _ => "Error al remover rol del usuario"
  | .syncUserRoles _ _ => "Error al sincronizar roles"
  | .setPermissions _ _ => "Error al asignar permisos al rol"
  | .addPermissions _ _ => "Error al añadir permisos"
  | .removePermissions _ _ => "Error al remover permisos"

/-- Whether the log line written after the answer, and before `clearCache()`,
throws a `TypeError`: `create` and `update` read `nombre` of the answer's body,
`assignMultipleToUser`, `addPermissions` and `removePermissions` read `length`
of their list argument. -/
def Mutation.logThrows (m : Mutation) (data : JsData) : Bool :=
  match m with
  | .create _ _ => data == .null
  | .update _ _ => data == .null
  | .assignMultipleToUser _ roleIds => roleIds.isNone
  | .addPermissions _ permissions => permissions.isNone
  | .removePermissions _ permissions => permissions.isNone
  | _ => false

/-- The user whose roles the method changes, for the three methods that then
refresh the current user's roles. -/
def Mutation.userId : Mutation → Option Nat
  | .assignToUser userId _ => some userId
  | .assignMultipleToUser userId _ => some userId
  | .removeFromUser userId _ => some userId
  | _ => none

/-- Whether the method returns the answer's body (`delete` and
`removeFromUser` return nothing). -/
def Mutation.returnsData : Mutation → Bool
  | .delete _ => false
  | .removeFromUser _ _ => false
  | _ => true

/-- Method `refreshCurrentUserRoles()`.  The role objects written into the
user are kept by their `nombre` in the embedding. -/
def RolesService.refreshCurrentUserRoles (be : Backend) (w : World) : World :=
  match RolesService.getCurrentUserRoles be w with
  | (.ok (some roles), w1) =>
    UserStore.updateUser
      [("roles", .arr (roles.map (fun role => (role.get "nombre").toJsString)))] w1
  | (.ok none, w1) => UserStore.updateUser [("roles", .null)] w1
  | (.error _, w1) => w1

/-- The shape the twelve mutating methods share: validate (`create` only),
send the request, write the log line, `clearCache()`, refresh the current
user's roles when they were the ones changed, return; any error goes through
`_handleError`. -/
def RolesService.mutate (be : Backend) (m : Mutation) (svc : RolesService) (w : World) :
    Except JsError JsData × RolesService × World :=
  match m.validate with
  | .error message => (.error (RolesService.handleLocalError message), svc, w)
  | .ok () =>
    match Api.call be.resource m.method m.url m.body w with
    | (.ok data, w1) =>
      if m.logThrows data then
        (.error (RolesService.handleLocalError typeErrorMessage), svc, w1)
      else
        let svc1 := svc.clearCache
        let w2 :=
          match m.userId with
          | some userId =>
            if (w1.store.user.map (fun u => u.get "id")) = some (.num (userId : Int)) then
              RolesService.refreshCurrentUserRoles be w1
            else w1
          | none => w1
        (.ok (if m.returnsData then data else .null), svc1, w2)
    | (.error e, w1) => (.error (RolesService._handleError e m.defaultMsg), svc, w1)

/-- Method `create(data)`. -/
def RolesService.create (be : Backend) (nombre : Option String)
    (fields : List (String × String)) (svc : RolesService) (w : World) :
    Except JsError JsData × RolesService × World :=
  RolesService.mutate be (.create nombre fields) svc w

/-- Method `update(id, updates)`. -/
def RolesService.update (be : Backend) (id : Nat) (updates : List (String × String))
    (svc : RolesService) (w : World) : Except JsError JsData × RolesService × World :=
  RolesService.mutate be (.update id updates) svc w

/-- Method `delete(id)`. -/
def RolesService.delete (be : Backend) (id : Nat) (svc : RolesService) (w : World) :
    Except JsError JsData × RolesService × World :=
  RolesService.mutate be (.delete id) svc w

/-- Method `restore(id)`. -/
def RolesService.restore (be : Backend) (id : Nat) (svc : RolesService) (w : World) :
    Except JsError JsData × RolesService × World :=
  RolesService.mutate be (.restore id) svc w

/-- Method `duplicate(id, newName)`. -/
def RolesService.duplicate (be : Backend) (id : Nat) (newName : String)
    (svc : RolesService) (w : World) : Except JsError JsData × RolesService × World :=
  RolesService.mutate be (.duplicate id newName) svc w

/-- Method `assignToUser(userId, roleId)`. -/
def RolesService.assignToUser (be : Backend) (userId roleId : Nat)
    (svc : RolesService) (w : World) : Except JsError JsData × RolesService × World :=
  RolesService.mutate be (.assignToUser userId roleId) svc w

/-- Method `assignMultipleToUser(userId, roleIds)`. -/
def RolesService.assignMultipleToUser (be : Backend) (userId : Nat)
    (roleIds : Option (List Nat)) (svc : RolesService) (w : World) :
    Except JsError JsData × RolesService × World :=
  RolesService.mutate be (.assignMultipleToUser userId roleIds) svc w

/-- Method `removeFromUser(userId, roleId)`. -/
def RolesService.removeFromUser (be : Backend) (userId roleId : Nat)
    (svc : RolesService) (w : World) : Except JsError JsData × RolesService × World :=
  RolesService.mutate be (.removeFromUser userId roleId) svc w

/-- Method `syncUserRoles(userId, roleIds)`. -/
def RolesService.syncUserRoles (be : Backend) (userId : Nat) (roleIds : Option (List Nat))
    (svc : RolesService) (w : World) : Except JsError JsData × RolesService × World :=
  RolesService.mutate be (.syncUserRoles userId roleIds) svc w

/-- Method `setPermissions(roleId, permissions)`. -/
def RolesService.setPermissions (be : Backend) (roleId : Nat)
    (permissions : Option (List String)) (svc : RolesService) (w : World) :
    Except JsError JsData × RolesService × World :=
  RolesService.mutate be (.setPermissions roleId permissions) svc w

/-- Method `addPermissions(roleId, permissions)`. -/
def RolesService.addPermissions (be : Backend) (roleId : Nat)
    (permissions : Option (List String)) (svc : RolesService) (w : World) :
    Except JsError JsData × RolesService × World :=
  RolesService.mutate be (.addPermissions roleId permissions) svc w

/-- Method `removePermissions(roleId, permissions)`. -/
def RolesService.removePermissions (be : Backend) (roleId : Nat)
    (permissions : Option (List String)) (svc : RolesService) (w : World) :
    Except JsError JsData × RolesService × World :=
  RolesService.mutate be (.removePermissions roleId permissions) svc w

/-! ## The roles service: predicates on the current user -/

/-- Method `currentUserHasRole(roleName)`. -/
def RolesService.currentUserHasRole (be : Backend) (roleName : String) (w : World) :
    Bool × World :=
  match RolesService.getCurrentUserRoles be w with
  | (.ok (some roles), w1) =>
    (roles.any (fun role =>
      role.get "nombre" == .str roleName || role.get "slug" == .str roleName), w1)
  | (.ok none, w1) => (false, w1)
  | (.error _, w1) => (false, w1)

/-- Method `currentUserHasAllRoles(roleNames)`: each role is represented by
`r.nombre || r.slug`, one name per role. -/
def RolesService.currentUserHasAllRoles (be : Backend) (roleNames : List String) (w : World) :
    Bool × World :=
  match RolesService.getCurrentUserRoles be w with
  | (.ok (some roles), w1) =>
    let userRoleNames := roles.map (fun r =>
      if (r.get "nombre").truthy then r.get "nombre" else r.get "slug")
    (roleNames.all (fun name => userRoleNames.contains (.str name)), w1)
  | (.ok none, w1) => (false, w1)
  | (.error _, w1) => (false, w1)

/-- Method `getUserEffectivePermissions(userId)`. -/
def RolesService.getUserEffectivePermissions (be : Backend) (userId : JsVal) (w : World) :
    Except JsError (Option (List JsObject)) × World :=
  match Api.call be.effectivePermissions "get"
      ("/usuarios/" ++ userId.toJsString ++ "/permisos/efectivos") [] w with
  | (.ok data, w1) => (.ok data, w1)
  | (.error e, w1) =>
    (.error (RolesService._handleError e "Error al obtener permisos efectivos"), w1)

/-- Method `currentUserHasPermission(permission)`: without a user the read
`userStore.user.id` throws inside the `try`. -/
def RolesService.currentUserHasPermission (be : Backend) (permission : String) (w : World) :
    Bool × World :=
  match w.store.user with
  | none => (false, w)
  | some u =>
    match RolesService.getUserEffectivePermissions be (u.get "id") w with
    | (.ok (some permissions), w1) =>
      (permissions.any (fun p =>
        p.get "nombre" == .str permission || p.get "slug" == .str permission), w1)
    | (.ok none, w1) => (false, w1)
    | (.error _, w1) => (false, w1)

/-! ## The user service: creating a user (`userService.js`) -/

/-- One item of the regular expressions used: `[class]+` or a literal. -/
inductive RegexItem where
  | plus (p : Char → Bool)
  | lit (c : Char)

/-- Whether the whole character list matches the items in sequence. -/
def regexMatch : List RegexItem → List Char → Bool
  | [], [] => true
  | [], _ :: _ => false
  | _ :: _, [] => false
  | .lit c :: items, d :: cs => c == d && regexMatch items cs
  | .plus p :: items, d :: cs =>
    p d && (regexMatch items cs || regexMatch (.plus p :: items) cs)

/-- The expression `/^[^\s@]+@[^\s@]+\.[^\s@]+$/`. -/
def emailRegex : List RegexItem :=
  [ .plus (fun c => !(jsWhitespace c || c == '@')), .lit '@',
    .plus (fun c => !(jsWhitespace c || c == '@')), .lit '.',
    .plus (fun c => !(jsWhitespace c || c == '@')) ]

/-- Method `_validateUserData(userData)`: the message of the error it throws,
if any. -/
def UserService._validateUserData (userData : JsObject) : Except String Unit :=
  let missing := ["email", "nombre"].filter (fun field => !(userData.get field).truthy)
  if missing.length > 0 then
    .error ("Campos requeridos faltantes: " ++ ", ".intercalate missing)
  else if !regexMatch emailRegex (userData.get "email").toJsString.toList then
    .error "Email inválido"
  else .ok ()

/-- State of the `UserService` instance: the keys of its cache. -/
structure UserService where
  cacheKeys : List String
  deriving DecidableEq, Repr

/-- Method `_invalidateListCache()`. -/
def UserService._invalidateListCache (usvc : UserService) : UserService :=
  { cacheKeys := usvc.cacheKeys.filter (fun key =>
      !("list_".isPrefixOf key || key == "all_users")) }

/-- Method `_formatError(error)` on a gateway rejection. -/
def UserService._formatError (e : AxiosError) : JsError :=
  .structured (orElse e.dataMessage (orElse (some e.message) "Error en operación de usuario"))
    (some (e.status.getD 500)) e.data

/-- Method `_formatError(error)` on an error thrown locally. -/
def UserService.formatLocalError (message : String) : JsError :=
  .structured (orElse (some message) "Error en operación de usuario") (some 500) none

/-- Method `create(userData)` of the user service. -/
def UserService.create (be : Backend) (userData : JsObject) (usvc : UserService)
    (w : World) : Except JsError JsData × UserService × World :=
  match UserService._validateUserData userData with
  | .error message => (.error (UserService.formatLocalError message), usvc, w)
  | .ok () =>
    match Api.call be.resource "post" "/usuarios"
        (userData.map (fun kv => (kv.1, kv.2.toJsString))) w with
    | (.ok data, w1) =>
      match data with
      | .null => (.error (UserService.formatLocalError typeErrorMessage), usvc, w1)
      | _ => (.ok data, UserService._invalidateListCache usvc, w1)
    | (.error e, w1) => (.error (UserService._formatError e), usvc, w1)

/-! ## The helper `apiRequest` (`api.js`) -/

/-- The object `apiRequest` throws: `{ message, status, details, url }`. -/
structure NormalizedError where
  message : String
  status : Option Nat
  details : Option ErrorBody
  url : Option String
  deriving DecidableEq, Repr

/-- Helper `apiRequest(method, url, data, config)`.  The `config` of a rejected
request is the request that was sent, so `error.config?.url` is its URL. -/
def Api.apiRequest {α : Type} (backend : Request → Reply α) (method url : String)
    (data : List (String × String)) (w : World) : Except NormalizedError α × World :=
  match Api.call backend method url data w with
  | (.ok body, w1) => (.ok body, w1)
  | (.error e, w1) =>
    (.error { message := orElse e.dataMessage (orElse (some e.message) "Error desconocido")
              status := e.status
              details := e.data
              url := some url }, w1)

/-- Helper `get(url, config)`. -/
def Api.get {α : Type} (backend : Request → Reply α) (url : String) (w : World) :
    Except NormalizedError α × World :=
  Api.apiRequest backend "get" url [] w

/-- Helper `post(url, data, config)`. -/
def Api.post {α : Type} (backend : Request → Reply α) (url : String)
    (data : List (String × String)) (w : World) : Except NormalizedError α × World :=
  Api.apiRequest backend "post" url data w

/-- Helper `put(url, data, config)`. -/
def Api.put {α : Type} (backend : Request → Reply α) (url : String)
    (data : List (String × String)) (w : World) : Except NormalizedError α × World :=
  Api.apiRequest backend "put" url data w

/-- Helper `patch(url, data, config)`. -/
def Api.patch {α : Type} (backend : Request → Reply α) (url : String)
    (data : List (String × String)) (w : World) : Except NormalizedError α × World :=
  Api.apiRequest backend "patch" url data w

/-- Helper `del(url, config)`. -/
def Api.del {α : Type} (backend : Request → Reply α) (url : String) (w : World) :
    Except NormalizedError α × World :=
  Api.apiRequest backend "delete" url [] w

/-! ## Further sample data -/

/-- The `message` of the axios error for a reply that is not 2xx. -/
def Reply.transportMessage {α : Type} : Reply α → String
  | .failed status _ => "Request failed with status code " ++ toString status
  | .noResponse message => message
  | .ok _ => ""

/-- A backend whose resource endpoints answer 404 with a message. -/
def backendNotFound : Backend :=
  { authLogout := fun _ => .ok ()
    authMe := fun _ => .failed 401 none
    authRefresh := fun _ => .failed 401 none
    userRoles := fun _ => .failed 404 (some "No existe")
    resource := fun _ => .failed 404 (some "No existe")
    effectivePermissions := fun _ => .failed 404 (some "No existe") }

/-- A backend whose resource endpoints answer 2xx with the given body and whose
roles endpoint for one user answers with the given list. -/
def backendServing (data : JsData) (roles : Option (List JsObject)) : Backend :=
  { authLogout := fun _ => .ok ()
    authMe := fun _ => .failed 401 none
    authRefresh := fun _ => .failed 401 none
    userRoles := fun _ => .ok roles
    resource := fun _ => .ok data
    effectivePermissions := fun _ => .ok roles }

/-- The default options of `getById`, without a status filter. -/
def sampleOptions : ReadOptions :=
  { forceRefresh := false, includePermissions := true, includeUsers := false, status := none }

/-- A cache filled at time 0 with role 1, role 10 and one role listing. -/
def sampleCache : Cache :=
  [ (RolesService.getByIdKey 1 sampleOptions, ⟨.object [("id", .num 1)], 0⟩),
    (RolesService.getByIdKey 10 sampleOptions, ⟨.object [("id", .num 10)], 0⟩),
    (RolesService.getAllKey sampleOptions, ⟨.list [[("id", .num 1)], [("id", .num 10)]], 0⟩) ]

/-- The role of an administrator: display name and machine slug differ. -/
def adminRole : JsObject :=
  [("id", .num 1), ("nombre", .str "Administrador"), ("slug", .str "admin")]

/-- A decoder for tokens whose payload has no `exp` claim. -/
def noExpiryDecoder : Decoder := fun _ => some { exp := none }

/-- What the arithmetic of the getters uses of the rounding `rd` of a real
number to a double (IEEE 754 binary64, round to nearest): below the overflow
threshold the result is within half a unit in the last place of the number,
which is at most `|x| / 2 ^ 53` for a normal result and `1 / 2 ^ 1075` for a
subnormal one, and an integer of absolute value up to `2 ^ 53` is a double. -/
structure DoubleRounding (rd : ℚ → ℚ) : Prop where
  error : ∀ x : ℚ, |x| ≤ 2 ^ 1023 → |rd x - x| ≤ |x| / 2 ^ 53 + 1 / 2 ^ 1075
  exact : ∀ n : Int, |n| ≤ 2 ^ 53 → rd (n : ℚ) = (n : ℚ)

/-! ## The clock-reading getters as cached values -/

/-- The values the getters `isTokenExpired` and `tokenExpiresIn` keep between
evaluations.  `none` is a getter that is computed at its next read: it was
never read, or `state.token` has changed since its last evaluation. -/
structure GetterCache where
  isTokenExpired : Option Bool
  tokenExpiresIn : Option (Option Int)
  deriving DecidableEq, Repr

/-- Both getters are computed at their next read: the cache of a new store and
of a store whose `token` has just changed. -/
def GetterCache.dirty : GetterCache :=
  { isTokenExpired := none, tokenExpiresIn := none }

/-- The cache after a write to the store.  Both computations read `state.token`
and no other state field, so the kept values are dropped when the token differs
from the one before the write and stay otherwise. -/
def GetterCache.afterWrite (before after : UserStore) (c : GetterCache) : GetterCache :=
  if before.token = after.token then c else GetterCache.dirty

/-- Read of `store.isTokenExpired` at the time `now`: the kept value when there
is one, else the computation run at `now`, whose value is kept. -/
def UserStore.readIsTokenExpired (dec : Decoder) (now : Nat) (s : UserStore)
    (c : GetterCache) : Bool × GetterCache :=
  match c.isTokenExpired with
  | some v => (v, c)
  | none => (s.isTokenExpired dec now, { c with isTokenExpired := some (s.isTokenExpired dec now) })

/-- Read of `store.tokenExpiresIn` at the time `now`. -/
def UserStore.readTokenExpiresIn (dec : Decoder) (now : Nat) (s : UserStore)
    (c : GetterCache) : Option Int × GetterCache :=
  match c.tokenExpiresIn with
  | some v => (v, c)
  | none => (s.tokenExpiresIn dec now, { c with tokenExpiresIn := some (s.tokenExpiresIn dec now) })

/-- Method `isAuthenticated()` called at the time `now`:
`userStore.isLoggedIn && !userStore.isTokenExpired`, the second getter being
read only when the first is true.  No state field is written; the call can
leave a computed value in the cache. -/
def AuthService.isAuthenticatedAt (dec : Decoder) (now : Nat) (w : World)
    (c : GetterCache) : Bool × GetterCache :=
  if w.store.isLoggedIn then
    (!(w.store.readIsTokenExpired dec now c).1, (w.store.readIsTokenExpired dec now c).2)
  else (false, c)

/-- The link between the flag and the session data that every store action
keeps: a set flag is backed by a user or by a token. -/
def UserStore.flagJustified (s : UserStore) : Prop :=
  s.isAuthenticated = true → s.user.isSome = true ∨ truthy s.token = true

/-! ## Basic facts about the store and the gateway -/

theorem logout_eq (be : Backend) (w : World) :
    AuthService.logout be false w = (.ok (), UserStore.logout w) := by
  simp [AuthService.logout]

theorem logout_anonymous (w : World) : (UserStore.logout w).anonymous := by
  simp [World.anonymous, UserStore.logout]

theorem logout_requests (w : World) : (UserStore.logout w).requests = w.requests := rfl

theorem responseInterceptor_requests (e : AxiosError) (w : World) :
    (Api.responseInterceptor e w).requests = w.requests := by
  unfold Api.responseInterceptor
  split <;> rfl

theorem setToken_requests (t : Option String) (w : World) :
    (UserStore.setToken t w).requests = w.requests := by
  unfold UserStore.setToken
  split <;> rfl

theorem truthy_some_toJsString (t : Option String) (h : truthy t = true) :
    some (toJsString t) = t := by
  cases t with
  | none => simp [truthy] at h
  | some s => rfl

theorem refreshRequest_isRefresh (w : World) :
    (AuthService.refreshRequest w).isRefresh = true := by
  unfold AuthService.refreshRequest Api.dispatch Api.requestInterceptor
  by_cases h : truthy w.store.token = true <;> simp [h, Request.isRefresh]

theorem refreshCount_append (a b : List Request) :
    refreshCount (a ++ b) = refreshCount a + refreshCount b := by
  simp [refreshCount]

/-- The requests `_performRefresh` adds to the log: the refresh request when a
refresh token is stored, nothing otherwise. -/
theorem performRefresh_requests (be : Backend) (w : World) :
    (AuthService._performRefresh be w).2.requests =
      if truthy w.store.refreshToken then w.requests ++ [AuthService.refreshRequest w]
      else w.requests := by
  unfold AuthService._performRefresh
  by_cases h : truthy w.store.refreshToken = true
  · simp only [h, Bool.not_true, Bool.false_eq_true, if_false, if_true, Api.call]
    cases hr : be.authRefresh (Api.dispatch "post" "/auth/refresh"
        [("refresh_token", toJsString w.store.refreshToken)] w).1 with
    | ok data =>
      by_cases h2 : truthy data.refresh_token = true <;>
        simp [Api.receive, h2, UserStore.setRefreshToken, setToken_requests,
          AuthService.refreshRequest, Api.dispatch]
    | failed status message =>
      simp [Api.receive, logout_eq, logout_requests, responseInterceptor_requests,
        AuthService.refreshRequest, Api.dispatch]
    | noResponse message =>
      simp [Api.receive, logout_eq, logout_requests, responseInterceptor_requests,
        AuthService.refreshRequest, Api.dispatch]
  · simp [h, logout_eq, logout_requests]

/-! ## Single flight of the token refresh -/

/-- Running `_performRefresh` to completion is starting it and resuming it. -/
theorem performRefresh_split (be : Backend) (w : World) :
    AuthService.performRefreshFinish be (AuthService.performRefreshStart be w).1
      (AuthService.performRefreshStart be w).2 = AuthService._performRefresh be w := by
  unfold AuthService.performRefreshStart AuthService._performRefresh
  by_cases h : truthy w.store.refreshToken = true
  · simp [h, AuthService.performRefreshFinish, Api.call]
  · simp [h, AuthService.performRefreshFinish]

/-- Calls made while a refresh is pending only record the pending promise. -/
theorem calls_joined (be : Backend) (n : Nat) (s : Sys) (p : Nat)
    (h : s.refreshTokenPromise = some p) :
    Sys.calls be n s = { s with returned := s.returned ++ List.replicate n p } := by
  induction n generalizing s with
  | zero => simp [Sys.calls]
  | succ n ih =>
    have hc : Sys.call be s = { s with returned := s.returned ++ [p] } := by
      simp [Sys.call, h]
    rw [Sys.calls, hc, ih _ (by simpa using h)]
    simp [List.replicate_succ]

theorem calls_from_start (be : Backend) (w : World) (n : Nat) :
    Sys.calls be (n + 1) (Sys.start w) =
      { world := (AuthService.performRefreshStart be w).2
        refreshTokenPromise := some 0
        suspended := some (AuthService.performRefreshStart be w).1
        nextPromise := 1
        returned := List.replicate (n + 1) 0
        settled := [] } := by
  have hc : Sys.call be (Sys.start w) =
      { world := (AuthService.performRefreshStart be w).2
        refreshTokenPromise := some 0
        suspended := some (AuthService.performRefreshStart be w).1
        nextPromise := 1
        returned := [0]
        settled := [] } := by
    simp [Sys.call, Sys.start]
  rw [Sys.calls, hc, calls_joined be n _ 0 rfl]
  simp [List.replicate_succ]

theorem settle_calls (be : Backend) (w : World) (n : Nat) :
    Sys.settle be (Sys.calls be (n + 1) (Sys.start w)) =
      { world := (AuthService._performRefresh be w).2
        refreshTokenPromise := none
        suspended := none
        nextPromise := 1
        returned := List.replicate (n + 1) 0
        settled := [(0, (AuthService._performRefresh be w).1)] } := by
  rw [calls_from_start]
  simp [Sys.settle, performRefresh_split]

/-- Claim C1, as amended: for every backend, every state and every number
`n + 1` of `refreshToken()` calls made before the refresh they share settles,
at most one `POST /auth/refresh` is issued (exactly one when a refresh token is
stored as the first call starts, none otherwise), the state ends as after a
single call, and each of the `n + 1` callers observes the outcome of that
single call. -/
theorem refreshToken_single_flight (be : Backend) (w : World) (n : Nat) :
    refreshCount (Sys.settle be (Sys.calls be (n + 1) (Sys.start w))).world.requests
      = refreshCount w.requests + (if truthy w.store.refreshToken then 1 else 0) ∧
    (Sys.settle be (Sys.calls be (n + 1) (Sys.start w))).world
      = (AuthService.refreshToken be w).2 ∧
    (List.range (n + 1)).map (Sys.settle be (Sys.calls be (n + 1) (Sys.start w))).observed
      = List.replicate (n + 1) (some (AuthService.refreshToken be w).1) := by
  rw [settle_calls]
  refine ⟨?_, rfl, ?_⟩
  · simp only [performRefresh_requests]
    by_cases h : truthy w.store.refreshToken = true
    · simp [h, refreshCount_append, refreshCount, refreshRequest_isRefresh]
    · simp [h]
  · apply List.ext_getElem
    · simp
    · intro i h1 h2
      simp at h1
      simp [Sys.observed, AuthService.refreshToken, List.getElem?_replicate, h1]

/-- Claim C1 fails as stated: with no refresh token stored, two calls of
`refreshToken()` share one pending promise (the second is made while the slot
holds the first one's promise) and no `POST /auth/refresh` is issued at all. -/
theorem refreshToken_single_flight_counterexample :
    (Sys.calls backendDown 1 (Sys.start (World.fresh ⟨none, none⟩))).refreshTokenPromise
      = some 0 ∧
    (Sys.calls backendDown 2 (Sys.start (World.fresh ⟨none, none⟩))).returned = [0, 0] ∧
    refreshCount (Sys.settle backendDown
        (Sys.calls backendDown 2 (Sys.start (World.fresh ⟨none, none⟩)))).world.requests
      = 0 := by
  decide

/-! ## Logout -/

/-- Claim C2: for every state, every `callApi` and every answer of the backend
to `POST /auth/logout`, `authService.logout(callApi)` completes without raising
and leaves the anonymous session: user, token and refresh token absent, the
flag false, both storage entries removed, and `isAuthenticated()` false at
every time. -/
theorem logout_always_clears (be : Backend) (callApi : Bool) (w : World) (dec : Decoder)
    (now : Nat) :
    (AuthService.logout be callApi w).1 = .ok () ∧
    (AuthService.logout be callApi w).2.anonymous ∧
    (AuthService.logout be callApi w).2.store.isAuthenticated = false ∧
    (AuthService.isAuthenticated dec now (AuthService.logout be callApi w).2).1 = false := by
  simp [AuthService.logout, UserStore.logout, AuthService.isAuthenticated,
    UserStore.isLoggedIn, truthy, World.anonymous]

/-! ## The authentication flag -/

theorem apply_flagJustified (dec : Decoder) (a : StoreAction) (w : World)
    (h : w.store.flagJustified) : (a.apply dec w).store.flagJustified := by
  unfold UserStore.flagJustified at *
  cases a with
  | setUser userData =>
    simp only [StoreAction.apply, UserStore.setUser]
    exact fun hu => Or.inl hu
  | setToken token =>
    by_cases ht : truthy token = true
    · simp [StoreAction.apply, UserStore.setToken, ht]
    · simpa [StoreAction.apply, UserStore.setToken, ht] using h
  | setRefreshToken refreshToken =>
    simpa [StoreAction.apply, UserStore.setRefreshToken] using h
  | login userData token refreshToken =>
    by_cases ht : truthy token = true <;> by_cases hr : truthy refreshToken = true <;>
      simp [StoreAction.apply, UserStore.login, UserStore.setToken, UserStore.setUser,
        UserStore.setRefreshToken, ht, hr] <;>
      exact fun hu => Or.inl hu
  | logout => simp [StoreAction.apply, UserStore.logout]
  | updateUser updates =>
    cases hu : w.store.user with
    | none => simpa [StoreAction.apply, UserStore.updateUser, hu] using h
    | some u => simp [StoreAction.apply, UserStore.updateUser, hu]
  | initializeAuth now =>
    by_cases ht : truthy w.localStorage.token = true
    · by_cases he : w.store.isTokenExpired dec now = true
      · simp [StoreAction.apply, UserStore.initializeAuth, ht, he, UserStore.logout]
      · by_cases hr : truthy w.localStorage.refreshToken = true <;>
          simp [StoreAction.apply, UserStore.initializeAuth, ht, he, hr]
    · simpa [StoreAction.apply, UserStore.initializeAuth, ht] using h

theorem runActions_flagJustified (dec : Decoder) (actions : List StoreAction) (w : World)
    (h : w.store.flagJustified) : (runActions dec actions w).store.flagJustified := by
  induction actions generalizing w with
  | nil => simpa [runActions] using h
  | cons a rest ih =>
    have := ih (a.apply dec w) (apply_flagJustified dec a w h)
    simpa [runActions] using this

/-- Claim C3, as amended: in every state reached from the initial store, over
any content of durable storage, by the actions `setUser`, `setToken`,
`setRefreshToken`, `login`, `logout`, `updateUser` and `initializeAuth`, a true
`isAuthenticated` flag implies that the user or the token is present. -/
theorem isAuthenticated_implies_user_or_token (dec : Decoder) (ls : LocalStorage)
    (actions : List StoreAction)
    (h : (runActions dec actions (World.fresh ls)).store.isAuthenticated = true) :
    (runActions dec actions (World.fresh ls)).store.user.isSome = true ∨
    truthy (runActions dec actions (World.fresh ls)).store.token = true :=
  runActions_flagJustified dec actions (World.fresh ls)
    (by simp [UserStore.flagJustified, World.fresh, UserStore.initial]) h

/-- Instance of C3 as amended: after `login(user, "T1", "R1")` the flag is set
and the user is present. -/
theorem isAuthenticated_implies_user_or_token_witness :
    (runActions sampleDecoder
      [.login (some [("id", .num 1)]) (some "T1") (some "R1")]
      (World.fresh ⟨none, none⟩)).store.isAuthenticated = true ∧
    ((runActions sampleDecoder
      [.login (some [("id", .num 1)]) (some "T1") (some "R1")]
      (World.fresh ⟨none, none⟩)).store.user.isSome = true ∨
    truthy (runActions sampleDecoder
      [.login (some [("id", .num 1)]) (some "T1") (some "R1")]
      (World.fresh ⟨none, none⟩)).store.token = true) :=
  ⟨by decide, isAuthenticated_implies_user_or_token sampleDecoder ⟨none, none⟩
    [.login (some [("id", .num 1)]) (some "T1") (some "R1")] (by decide)⟩

/-- Claim C3 fails as stated: `setToken("T1")` on the initial store sets the
flag while no user is loaded. -/
theorem isAuthenticated_without_user_counterexample :
    (runActions sampleDecoder [.setToken (some "T1")]
      (World.fresh ⟨none, none⟩)).store.isAuthenticated = true ∧
    (runActions sampleDecoder [.setToken (some "T1")]
      (World.fresh ⟨none, none⟩)).store.user = none := by
  decide

/-- A read of `isTokenExpired` after an earlier read, with writes to the store
in between that left the token as it was, returns the value of the earlier
read, whatever the two times are. -/
theorem readIsTokenExpired_kept (dec : Decoder) (t1 t2 : Nat) (s s2 : UserStore)
    (c : GetterCache) (h : s.token = s2.token) :
    (s2.readIsTokenExpired dec t2
      (GetterCache.afterWrite s s2 (s.readIsTokenExpired dec t1 c).2)).1 =
    (s.readIsTokenExpired dec t1 c).1 := by
  unfold UserStore.readIsTokenExpired GetterCache.afterWrite
  cases hc : c.isTokenExpired <;> simp [h, hc]

/-- A read of `tokenExpiresIn` after an earlier read, the token being the same,
returns the value of the earlier read. -/
theorem readTokenExpiresIn_kept (dec : Decoder) (t1 t2 : Nat) (s s2 : UserStore)
    (c : GetterCache) (h : s.token = s2.token) :
    (s2.readTokenExpiresIn dec t2
      (GetterCache.afterWrite s s2 (s.readTokenExpiresIn dec t1 c).2)).1 =
    (s.readTokenExpiresIn dec t1 c).1 := by
  unfold UserStore.readTokenExpiresIn GetterCache.afterWrite
  cases hc : c.tokenExpiresIn <;> simp [h, hc]

/-- A getter read for the first time after the token changed is computed at the
time of that read. -/
theorem read_dirty (dec : Decoder) (now : Nat) (s : UserStore) :
    (s.readIsTokenExpired dec now GetterCache.dirty).1 = s.isTokenExpired dec now ∧
    (s.readTokenExpiresIn dec now GetterCache.dirty).1 = s.tokenExpiresIn dec now :=
  ⟨rfl, rfl⟩

/-- Claim C4 fails on the code: `isAuthenticated()` goes on answering true after
the token has expired.  The sample session holds a user and the token `T1`,
whose expiry is second 2000.  Called at millisecond 1000 the method is true;
called again at millisecond 5000000, nothing having been written to the store,
it is still true, because the getter `isTokenExpired` returns the value it
computed at the first call, while the expiry lies 3000 s in the past. -/
theorem isAuthenticated_stale_after_expiry :
    sampleSession.store.token = some "T1" ∧
    sampleSession.store.user.isSome = true ∧
    sampleDecoder "T1" = some { exp := some 2000 } ∧
    (2000 : Int) * 1000 < ((5000000 : Nat) : Int) ∧
    (AuthService.isAuthenticatedAt sampleDecoder 1000 sampleSession GetterCache.dirty).1
      = true ∧
    (AuthService.isAuthenticatedAt sampleDecoder 5000000 sampleSession
      (GetterCache.afterWrite sampleSession.store sampleSession.store
        (AuthService.isAuthenticatedAt sampleDecoder 1000 sampleSession
          GetterCache.dirty).2)).1 = true ∧
    (AuthService.isAuthenticatedAt sampleDecoder 5000000 sampleSession GetterCache.dirty).1
      = false := by
  decide

/-! ## The navigation guard -/

/-- Claim C5 fails on the code: on a freshly loaded page, where the session is
not authenticated by the flag or by `isAuthenticated()`, the guard answers
`next()` for the route `Home`, whose meta is `requiresAuth: true`. -/
theorem guard_admits_anonymous (be : Backend) (ls : LocalStorage) (dec : Decoder) (now : Nat) :
    (AuthService.isAuthenticated dec now (World.fresh ls)).1 = false ∧
    (World.fresh ls).store.isAuthenticated = false ∧
    { path := "/", name := "Home", routeMeta := { requiresAuth := true, roles := none } }
      ∈ routes ∧
    (Router.beforeEach be { requiresAuth := true, roles := none } (World.fresh ls)).1
      = Navigation.next := by
  simp [AuthService.isAuthenticated, UserStore.isLoggedIn, World.fresh, UserStore.initial,
    truthy, Router.beforeEach, routes]

/-! ## Restoring the session at startup -/

/-- Claim C6 fails on the code: from the initial store state `initAuth()`
answers false whatever durable storage holds and whatever the backend would
answer; no token is adopted and `GET /auth/me` is not even sent. -/
theorem initAuth_fresh_store_never_restores (be : Backend) (dec : Decoder) (now : Nat)
    (ls : LocalStorage) :
    (AuthService.initAuth be dec now (World.fresh ls)).1 = false ∧
    (AuthService.initAuth be dec now (World.fresh ls)).2.store.token = none ∧
    (AuthService.initAuth be dec now (World.fresh ls)).2.requests = [] := by
  by_cases ht : truthy ls.token = true <;>
    simp [AuthService.initAuth, UserStore.initializeAuth, World.fresh, UserStore.initial,
      UserStore.isTokenExpired, UserStore.logout, ht]

/-- The restoring path of `initAuth()`: when the token already in the store is
not expired, the token in durable storage is adopted, with the stored refresh
token if there is one, and a successful `GET /auth/me` makes the answer true. -/
theorem initAuth_restores_of_store_token_valid (be : Backend) (dec : Decoder) (now : Nat)
    (w : World) (user : Option User)
    (hls : truthy w.localStorage.token = true)
    (hvalid : w.store.isTokenExpired dec now = false)
    (hme : ∀ req, be.authMe req = .ok user) :
    (AuthService.initAuth be dec now w).1 = true ∧
    (AuthService.initAuth be dec now w).2.store.token = w.localStorage.token ∧
    (AuthService.initAuth be dec now w).2.store.refreshToken =
      (if truthy w.localStorage.refreshToken then w.localStorage.refreshToken
       else w.store.refreshToken) := by
  by_cases hr : truthy w.localStorage.refreshToken = true <;>
    simp [AuthService.initAuth, UserStore.initializeAuth, hls, hvalid, hr,
      AuthService.getCurrentUser, Api.call, Api.receive, Api.dispatch, hme, UserStore.setUser]

/-- Claim C7: when durable storage holds a token and `GET /auth/me` is answered
with status 401, `initAuth()` answers false and leaves the anonymous session,
from every store state and whether or not the token is expired. -/
theorem initAuth_unauthorized_ends_anonymous (be : Backend) (dec : Decoder) (now : Nat)
    (w : World) (msg : Option String)
    (hls : truthy w.localStorage.token = true)
    (h401 : ∀ req, be.authMe req = .failed 401 msg) :
    (AuthService.initAuth be dec now w).1 = false ∧
    (AuthService.initAuth be dec now w).2.anonymous := by
  by_cases he : w.store.isTokenExpired dec now = true
  · simp [AuthService.initAuth, UserStore.initializeAuth, hls, he, logout_anonymous]
  · by_cases hr : truthy w.localStorage.refreshToken = true <;>
      simp [AuthService.initAuth, UserStore.initializeAuth, hls, he, hr,
        AuthService.getCurrentUser, Api.call, Api.receive, h401, logout_eq, logout_anonymous]

/-- Instance of C7: the signed-in sample session, whose token `"T1"` is not
expired at millisecond 1000, against a backend answering 401. -/
theorem initAuth_unauthorized_ends_anonymous_witness :
    sampleSession.store.isTokenExpired sampleDecoder 1000 = false ∧
    (AuthService.initAuth backendUnauthorized sampleDecoder 1000 sampleSession).1 = false ∧
    (AuthService.initAuth backendUnauthorized sampleDecoder 1000 sampleSession).2.anonymous :=
  ⟨by decide,
    initAuth_unauthorized_ends_anonymous backendUnauthorized sampleDecoder 1000 sampleSession
      none (by decide) (fun _ => rfl)⟩

/-! ## Outcomes of the token refresh -/

/-- Claim C8: when a refresh token is stored and `POST /auth/refresh` does not
answer 2xx, `refreshToken()` raises the session-expired error and leaves the
anonymous session; the refresh request is the only request it sends, so no
`POST /auth/logout` is issued. -/
theorem refreshToken_failure_forces_logout (be : Backend) (w : World)
    (hrt : truthy w.store.refreshToken = true)
    (hfail : (be.authRefresh (AuthService.refreshRequest w)).isOk = false) :
    (AuthService.refreshToken be w).1 = .error (.error sessionExpiredMessage) ∧
    (AuthService.refreshToken be w).2.anonymous ∧
    (AuthService.refreshToken be w).2.requests = w.requests ++ [AuthService.refreshRequest w] ∧
    (AuthService.refreshRequest w).isLogout = false := by
  have hreq := performRefresh_requests be w
  simp only [hrt, if_true] at hreq
  refine ⟨?_, ?_, hreq, ?_⟩
  · unfold AuthService.refreshToken AuthService._performRefresh
    simp only [hrt, Bool.not_true, Bool.false_eq_true, if_false, Api.call]
    unfold AuthService.refreshRequest at hfail
    cases hr : be.authRefresh (Api.dispatch "post" "/auth/refresh"
        [("refresh_token", toJsString w.store.refreshToken)] w).1 with
    | ok data => simp [hr, Reply.isOk] at hfail
    | failed status message => simp [Api.receive]
    | noResponse message => simp [Api.receive]
  · unfold AuthService.refreshToken AuthService._performRefresh
    simp only [hrt, Bool.not_true, Bool.false_eq_true, if_false, Api.call]
    unfold AuthService.refreshRequest at hfail
    cases hr : be.authRefresh (Api.dispatch "post" "/auth/refresh"
        [("refresh_token", toJsString w.store.refreshToken)] w).1 with
    | ok data => simp [hr, Reply.isOk] at hfail
    | failed status message => simp [Api.receive, logout_eq, logout_anonymous]
    | noResponse message => simp [Api.receive, logout_eq, logout_anonymous]
  · unfold AuthService.refreshRequest Api.dispatch Api.requestInterceptor
    by_cases h : truthy w.store.token = true <;> simp [h, Request.isLogout]

/-- Instance of C8: the signed-in sample session against an unreachable backend. -/
theorem refreshToken_failure_forces_logout_witness :
    (AuthService.refreshToken backendDown sampleSession).1
      = .error (.error sessionExpiredMessage) ∧
    (AuthService.refreshToken backendDown sampleSession).2.anonymous ∧
    (AuthService.refreshToken backendDown sampleSession).2.requests
      = sampleSession.requests ++ [AuthService.refreshRequest sampleSession] ∧
    (AuthService.refreshRequest sampleSession).isLogout = false :=
  refreshToken_failure_forces_logout backendDown sampleSession (by decide) rfl

/-- Claim C9, as amended: when no refresh token is stored, `refreshToken()`
issues no backend request, leaves the anonymous session, and the error the
caller receives is the session-expired error. -/
theorem refreshToken_without_refresh_token (be : Backend) (w : World)
    (h : truthy w.store.refreshToken = false) :
    (AuthService.refreshToken be w).1 = .error (.error sessionExpiredMessage) ∧
    (AuthService.refreshToken be w).2.requests = w.requests ∧
    (AuthService.refreshToken be w).2.anonymous := by
  simp [AuthService.refreshToken, AuthService._performRefresh, h, logout_eq,
    logout_anonymous, logout_requests]

/-- Instance of C9 as amended: a freshly loaded page with empty storage. -/
theorem refreshToken_without_refresh_token_witness :
    (AuthService.refreshToken backendDown (World.fresh ⟨none, none⟩)).1
      = .error (.error sessionExpiredMessage) ∧
    (AuthService.refreshToken backendDown (World.fresh ⟨none, none⟩)).2.requests
      = (World.fresh ⟨none, none⟩).requests ∧
    (AuthService.refreshToken backendDown (World.fresh ⟨none, none⟩)).2.anonymous :=
  refreshToken_without_refresh_token backendDown (World.fresh ⟨none, none⟩) (by decide)

/-- Claim C9 fails as stated: with no refresh token stored, the error the
caller of `refreshToken()` receives is not the no-refresh-token error. -/
theorem refreshToken_no_refresh_token_error_counterexample :
    truthy (World.fresh ⟨none, none⟩).store.refreshToken = false ∧
    (AuthService.refreshToken backendDown (World.fresh ⟨none, none⟩)).1
      ≠ .error (.error noRefreshTokenMessage) := by
  refine ⟨by decide, ?_⟩
  intro h
  have e : (AuthService.refreshToken backendDown (World.fresh ⟨none, none⟩)).1
      = .error (.error sessionExpiredMessage) := rfl
  rw [e] at h
  have hm : sessionExpiredMessage = noRefreshTokenMessage := by
    injection h with h
    injection h
  exact absurd hm (by decide)

/-- Claim C10, as amended: for every 2xx answer to `POST /auth/refresh` that
carries a non-empty access token, `refreshToken()` sends the refresh token
stored when it was called, resolves to the answer's access token, leaves that
token in the store and under `token` in durable storage, and sets the refresh
token, in the store and in durable storage, to the answer's one when it
carries one and leaves it unchanged otherwise. -/
theorem refreshToken_success_stores_tokens (be : Backend) (w : World) (data : RefreshData)
    (hrt : truthy w.store.refreshToken = true)
    (hok : be.authRefresh (AuthService.refreshRequest w) = .ok data)
    (hat : truthy data.access_token = true) :
    (AuthService.refreshRequest w).body = [("refresh_token", toJsString w.store.refreshToken)] ∧
    some (toJsString w.store.refreshToken) = w.store.refreshToken ∧
    (AuthService.refreshToken be w).2.requests = w.requests ++ [AuthService.refreshRequest w] ∧
    (AuthService.refreshToken be w).1 = .ok data.access_token ∧
    (AuthService.refreshToken be w).2.store.token = data.access_token ∧
    (AuthService.refreshToken be w).2.localStorage.token = data.access_token ∧
    (AuthService.refreshToken be w).2.store.refreshToken =
      (if truthy data.refresh_token then data.refresh_token else w.store.refreshToken) ∧
    (AuthService.refreshToken be w).2.localStorage.refreshToken =
      (if truthy data.refresh_token then data.refresh_token
       else w.localStorage.refreshToken) := by
  have hreq := performRefresh_requests be w
  simp only [hrt, if_true] at hreq
  have hbody : (AuthService.refreshRequest w).body
      = [("refresh_token", toJsString w.store.refreshToken)] := by
    unfold AuthService.refreshRequest Api.dispatch Api.requestInterceptor
    by_cases h : truthy w.store.token = true <;> simp [h]
  refine ⟨hbody, truthy_some_toJsString _ hrt, hreq, ?_⟩
  unfold AuthService.refreshRequest at hok
  unfold AuthService.refreshToken AuthService._performRefresh
  simp only [hrt, Bool.not_true, Bool.false_eq_true, if_false, Api.call, hok, Api.receive]
  by_cases h2 : truthy data.refresh_token = true
  · simp [h2, UserStore.setToken, UserStore.setRefreshToken, hat, Api.dispatch,
      truthy_some_toJsString]
  · simp [h2, UserStore.setToken, hat, Api.dispatch, truthy_some_toJsString]

/-- Instance of C10 as amended: the sample session refreshed with the answer
`access_token: "T2", refresh_token: "R2"`. -/
theorem refreshToken_success_stores_tokens_witness :
    (AuthService.refreshRequest sampleSession).body
      = [("refresh_token", toJsString sampleSession.store.refreshToken)] ∧
    some (toJsString sampleSession.store.refreshToken) = sampleSession.store.refreshToken ∧
    (AuthService.refreshToken (backendRefreshing ⟨some "T2", some "R2"⟩) sampleSession).2.requests
      = sampleSession.requests ++ [AuthService.refreshRequest sampleSession] ∧
    (AuthService.refreshToken (backendRefreshing ⟨some "T2", some "R2"⟩) sampleSession).1
      = .ok (some "T2") ∧
    (AuthService.refreshToken (backendRefreshing ⟨some "T2", some "R2"⟩) sampleSession).2.store.token
      = some "T2" ∧
    (AuthService.refreshToken (backendRefreshing ⟨some "T2", some "R2"⟩)
      sampleSession).2.localStorage.token = some "T2" ∧
    (AuthService.refreshToken (backendRefreshing ⟨some "T2", some "R2"⟩)
      sampleSession).2.store.refreshToken
      = (if truthy (some "R2") then some "R2" else sampleSession.store.refreshToken) ∧
    (AuthService.refreshToken (backendRefreshing ⟨some "T2", some "R2"⟩)
      sampleSession).2.localStorage.refreshToken
      = (if truthy (some "R2") then some "R2" else sampleSession.localStorage.refreshToken) :=
  refreshToken_success_stores_tokens (backendRefreshing ⟨some "T2", some "R2"⟩) sampleSession
    ⟨some "T2", some "R2"⟩ (by decide) rfl (by decide)

/-- Claim C10 fails as stated: a 2xx answer without an access token resolves
`refreshToken()` to that absent token while the store and durable storage keep
the old token `"T1"`. -/
theorem refreshToken_empty_access_token_counterexample :
    (backendRefreshing ⟨none, none⟩).authRefresh (AuthService.refreshRequest sampleSession)
      = .ok ⟨none, none⟩ ∧
    (AuthService.refreshToken (backendRefreshing ⟨none, none⟩) sampleSession).1 = .ok none ∧
    (AuthService.refreshToken (backendRefreshing ⟨none, none⟩) sampleSession).2.store.token
      = some "T1" ∧
    (AuthService.refreshToken (backendRefreshing ⟨none, none⟩)
      sampleSession).2.localStorage.token = some "T1" :=
  ⟨rfl, rfl, rfl, rfl⟩

/-! ## The refresh slot -/

/-- Claim C11: after the calls of `refreshToken()` that shared a refresh have
settled, for every backend answer, the slot `refreshTokenPromise` is null again
and the next call of `refreshToken()` starts `_performRefresh` anew, on a new
promise, instead of returning the finished one. -/
theorem refreshToken_slot_cleared (be : Backend) (w : World) (n : Nat) :
    (Sys.settle be (Sys.calls be (n + 1) (Sys.start w))).refreshTokenPromise = none ∧
    (Sys.settle be (Sys.calls be (n + 1) (Sys.start w))).suspended = none ∧
    (Sys.call be (Sys.settle be (Sys.calls be (n + 1) (Sys.start w)))).refreshTokenPromise
      = some 1 ∧
    (Sys.call be (Sys.settle be (Sys.calls be (n + 1) (Sys.start w)))).returned
      = List.replicate (n + 1) 0 ++ [1] ∧
    (Sys.call be (Sys.settle be (Sys.calls be (n + 1) (Sys.start w)))).suspended
      = some (AuthService.performRefreshStart be (AuthService.refreshToken be w).2).1 ∧
    (Sys.call be (Sys.settle be (Sys.calls be (n + 1) (Sys.start w)))).world
      = (AuthService.performRefreshStart be (AuthService.refreshToken be w).2).2 := by
  rw [settle_calls]
  simp [Sys.call, AuthService.refreshToken]

/-! ## Token expiry -/

/-- The computation of `isTokenExpired`, run at the clock reading `now`, gives
true exactly when no token is stored, or the stored token cannot be decoded, or
its decoded expiry is earlier than `now`. -/
theorem isTokenExpired_iff (dec : Decoder) (now : Nat) (s : UserStore) :
    s.isTokenExpired dec now = true ↔
      (truthy s.token = false ∨
       (∃ t, s.token = some t ∧ dec t = none) ∨
       (∃ t e, s.token = some t ∧ dec t = some { exp := some e } ∧ e * 1000 < (now : Int))) := by
  unfold UserStore.isTokenExpired
  cases ht : s.token with
  | none => simp [truthy]
  | some t =>
    by_cases h0 : t = ""
    · simp [h0, truthy]
    · cases hd : dec t with
      | none => simp [h0, truthy, hd]
      | some p =>
        cases p with
        | mk exp =>
          cases exp with
          | none => simp [h0, truthy, hd]
          | some e => simp [h0, truthy, hd]

/-- Minutes on the millisecond clock: the integer quotient used by the
embedding is the floor of the quotient in seconds. -/
theorem floor_minutes (e : Int) (now : Nat) :
    (e * 1000 - (now : Int)) / 60000 = ⌊((e : ℚ) - (now : ℚ) / 1000) / 60⌋ := by
  have h : ((e : ℚ) - (now : ℚ) / 1000) / 60
      = (((e * 1000 - (now : Int) : Int) : ℚ)) / ((60000 : ℕ) : ℚ) := by
    push_cast
    ring
  rw [h, Rat.floor_intCast_div_natCast]
  rfl

/-- The comparison on the millisecond clock is the comparison in seconds. -/
theorem expired_iff_seconds (e : Int) (now : Nat) :
    e * 1000 < (now : Int) ↔ (e : ℚ) < (now : ℚ) / 1000 := by
  rw [lt_div_iff₀ (by norm_num : (0 : ℚ) < 1000)]
  exact_mod_cast Iff.rfl

/-- In doubles, `Math.floor((exp - Date.now() / 1000) / 60)` is the integer
quotient of `exp * 1000 - now` by `60000`, for an expiry below `2 ^ 32` s in
absolute value and a clock below `2 ^ 42` ms: three roundings move the quotient
by less than `1 / 60000`, and a quotient that is an integer is computed without
any rounding. -/
theorem floor_of_doubles (rd : ℚ → ℚ) (hrd : DoubleRounding rd)
    (e : Int) (now : Nat) (he : |e| < 2 ^ 32) (hnow : now < 2 ^ 42) :
    ⌊rd (rd ((e : ℚ) - rd ((now : ℚ) / 1000)) / 60)⌋ = (e * 1000 - (now : Int)) / 60000 := by
  obtain ⟨herr, hint⟩ := hrd
  have he1 := (abs_lt.mp he).1
  have he2 := (abs_lt.mp he).2
  have heq1 : (-(2:ℚ)^32) < (e : ℚ) := by exact_mod_cast he1
  have heq2 : (e : ℚ) < (2:ℚ)^32 := by exact_mod_cast he2
  have hnq : (now : ℚ) < (2:ℚ)^42 := by exact_mod_cast hnow
  have hn0 : (0 : ℚ) ≤ (now : ℚ) := Nat.cast_nonneg now
  have tiny : (1 : ℚ) / 2 ^ 1075 ≤ 1 / 2 ^ 60 := by
    apply one_div_le_one_div_of_le (by positivity)
    exact pow_le_pow_right₀ (by norm_num) (by norm_num)
  have big : (2 : ℚ) ^ 36 ≤ 2 ^ 1023 := pow_le_pow_right₀ (by norm_num) (by norm_num)
  have herr2 : ∀ x : ℚ, |x| ≤ 2 ^ 36 → |rd x - x| ≤ |x| / 2 ^ 53 + 1 / 2 ^ 60 :=
    fun x hx => le_trans (herr x (le_trans hx big)) (add_le_add_left tiny _)
  clear herr tiny big
  by_cases hdiv : (e * 1000 - (now : Int)) % 60000 = 0
  · -- everything is an integer and exact
    obtain ⟨k, hk⟩ : ∃ k : Int, e * 1000 - (now : Int) = 60000 * k :=
      ⟨(e * 1000 - (now : Int)) / 60000, by omega⟩
    obtain ⟨m, hm⟩ : ∃ m : Int, (now : Int) = 1000 * m := ⟨(now : Int) / 1000, by omega⟩
    have hq : (now : ℚ) / 1000 = ((m : Int) : ℚ) := by
      have : ((now : Int) : ℚ) = ((1000 * m : Int) : ℚ) := by rw [hm]
      push_cast at this
      rw [this]; ring
    have hmb : |m| ≤ 2 ^ 53 := by
      rw [abs_le]; constructor <;> omega
    rw [hq, hint m hmb]
    have hr : (e : ℚ) - (m : ℚ) = ((e - m : Int) : ℚ) := by push_cast; ring
    have hrb : |e - m| ≤ 2 ^ 53 := by
      rw [abs_le]; constructor <;> omega
    rw [hr, hint (e - m) hrb]
    have hs : ((e - m : Int) : ℚ) / 60 = ((k : Int) : ℚ) := by
      have : e - m = 60 * k := by omega
      rw [this]; push_cast; ring
    have hkb : |k| ≤ 2 ^ 53 := by
      rw [abs_le]; constructor <;> omega
    rw [hs, hint k hkb, Int.floor_intCast, hk]
    omega
  · -- the quotient is at least 1/60000 away from the integers next to it
    have hk : e * 1000 - (now : Int)
        = 60000 * ((e * 1000 - (now : Int)) / 60000) + (e * 1000 - (now : Int)) % 60000 := by
      omega
    have hρ1 : 1 ≤ (e * 1000 - (now : Int)) % 60000 := by omega
    have hρ2 : (e * 1000 - (now : Int)) % 60000 ≤ 59999 := by omega
    generalize (e * 1000 - (now : Int)) / 60000 = k at hk ⊢
    generalize (e * 1000 - (now : Int)) % 60000 = ρ at hk hρ1 hρ2
    have hkq : (e : ℚ) * 1000 - (now : ℚ) = 60000 * (k : ℚ) + (ρ : ℚ) := by
      exact_mod_cast hk
    have hρq1 : (1 : ℚ) ≤ (ρ : ℚ) := by exact_mod_cast hρ1
    have hρq2 : (ρ : ℚ) ≤ 59999 := by exact_mod_cast hρ2
    -- first rounding
    have hq0 : (0 : ℚ) ≤ (now : ℚ) / 1000 := by positivity
    have hqb : (now : ℚ) / 1000 ≤ 2 ^ 33 := by
      rw [div_le_iff₀ (by norm_num)]
      have : (2:ℚ) ^ 42 ≤ 2 ^ 33 * 1000 := by norm_num
      linarith
    have h1 := herr2 ((now : ℚ) / 1000) (by
      rw [abs_of_nonneg hq0]
      have : (2:ℚ) ^ 33 ≤ 2 ^ 36 := by norm_num
      linarith)
    rw [abs_of_nonneg hq0, abs_le] at h1
    obtain ⟨h1a, h1b⟩ := h1
    generalize rd ((now : ℚ) / 1000) = a at h1a h1b ⊢
    -- second rounding
    have hr0 : |(e : ℚ) - a| ≤ 2 ^ 35 := by
      rw [abs_le]
      constructor <;> norm_num at * <;> linarith
    have h2 := herr2 ((e : ℚ) - a) (by
      have : (2:ℚ) ^ 35 ≤ 2 ^ 36 := by norm_num
      linarith)
    have h2c : |(e : ℚ) - a| / 2 ^ 53 + 1 / 2 ^ 60 ≤ 1 / 2 ^ 17 := by
      have : |(e : ℚ) - a| / 2 ^ 53 ≤ 2 ^ 35 / 2 ^ 53 :=
        div_le_div_of_nonneg_right hr0 (by positivity)
      norm_num at this ⊢
      linarith
    have h2d := le_trans h2 h2c
    rw [abs_le] at h2d hr0
    obtain ⟨h2a, h2b⟩ := h2d
    generalize rd ((e : ℚ) - a) = r at h2a h2b ⊢
    -- third rounding
    have hs0 : |r / 60| ≤ 2 ^ 30 := by
      rw [abs_le]
      constructor <;> norm_num at * <;> linarith
    have h3 := herr2 (r / 60) (by
      have : (2:ℚ) ^ 30 ≤ 2 ^ 36 := by norm_num
      linarith)
    have h3c : |r / 60| / 2 ^ 53 + 1 / 2 ^ 60 ≤ 1 / 2 ^ 22 := by
      have : |r / 60| / 2 ^ 53 ≤ 2 ^ 30 / 2 ^ 53 :=
        div_le_div_of_nonneg_right hs0 (by positivity)
      norm_num at this ⊢
      linarith
    have h3d := le_trans h3 h3c
    rw [abs_le] at h3d
    obtain ⟨h3a, h3b⟩ := h3d
    generalize rd (r / 60) = s at h3a h3b ⊢
    rw [Int.floor_eq_iff]
    constructor <;> norm_num at * <;> linarith

/-- In doubles, `exp < Date.now() / 1000` is the comparison
`exp * 1000 < now`, for a clock below `2 ^ 42` ms. -/
theorem compare_of_doubles (rd : ℚ → ℚ) (hrd : DoubleRounding rd)
    (e : Int) (now : Nat) (hnow : now < 2 ^ 42) :
    (e : ℚ) < rd ((now : ℚ) / 1000) ↔ e * 1000 < (now : Int) := by
  obtain ⟨herr, hint⟩ := hrd
  have hnq : (now : ℚ) < (2:ℚ)^42 := by exact_mod_cast hnow
  have tiny : (1 : ℚ) / 2 ^ 1075 ≤ 1 / 2 ^ 60 := by
    apply one_div_le_one_div_of_le (by positivity)
    exact pow_le_pow_right₀ (by norm_num) (by norm_num)
  have big : (2 : ℚ) ^ 36 ≤ 2 ^ 1023 := pow_le_pow_right₀ (by norm_num) (by norm_num)
  have herr2 : ∀ x : ℚ, |x| ≤ 2 ^ 36 → |rd x - x| ≤ |x| / 2 ^ 53 + 1 / 2 ^ 60 :=
    fun x hx => le_trans (herr x (le_trans hx big)) (add_le_add_left tiny _)
  clear herr tiny big
  by_cases hdiv : (now : Int) % 1000 = 0
  · obtain ⟨m, hm⟩ : ∃ m : Int, (now : Int) = 1000 * m := ⟨(now : Int) / 1000, by omega⟩
    have hq : (now : ℚ) / 1000 = ((m : Int) : ℚ) := by
      have : ((now : Int) : ℚ) = ((1000 * m : Int) : ℚ) := by rw [hm]
      push_cast at this
      rw [this]; ring
    have hmb : |m| ≤ 2 ^ 53 := by
      rw [abs_le]; constructor <;> omega
    rw [hq, hint m hmb, Int.cast_lt]
    omega
  · have hk : (now : Int) = 1000 * ((now : Int) / 1000) + (now : Int) % 1000 := by omega
    have hρ1 : 1 ≤ (now : Int) % 1000 := by omega
    have hρ2 : (now : Int) % 1000 ≤ 999 := by omega
    have hiff : e * 1000 < (now : Int) ↔ e ≤ (now : Int) / 1000 := by omega
    rw [hiff]
    generalize (now : Int) / 1000 = m at hk ⊢
    generalize (now : Int) % 1000 = ρ at hk hρ1 hρ2
    have hkq : (now : ℚ) = 1000 * (m : ℚ) + (ρ : ℚ) := by exact_mod_cast hk
    have hρq1 : (1 : ℚ) ≤ (ρ : ℚ) := by exact_mod_cast hρ1
    have hρq2 : (ρ : ℚ) ≤ 999 := by exact_mod_cast hρ2
    have hq0 : (0 : ℚ) ≤ (now : ℚ) / 1000 := by positivity
    have hqb : (now : ℚ) / 1000 ≤ 2 ^ 33 := by
      rw [div_le_iff₀ (by norm_num)]
      have : (2:ℚ) ^ 42 ≤ 2 ^ 33 * 1000 := by norm_num
      linarith
    have h1 := herr2 ((now : ℚ) / 1000) (by
      rw [abs_of_nonneg hq0]
      have : (2:ℚ) ^ 33 ≤ 2 ^ 36 := by norm_num
      linarith)
    rw [abs_of_nonneg hq0, abs_le] at h1
    obtain ⟨h1a, h1b⟩ := h1
    generalize rd ((now : ℚ) / 1000) = a at h1a h1b ⊢
    constructor
    · intro h
      by_contra hlt
      have h2 : m + 1 ≤ e := by omega
      have h3 : (m : ℚ) + 1 ≤ (e : ℚ) := by exact_mod_cast h2
      norm_num at h1a h1b hqb
      linarith
    · intro h
      have h3 : (e : ℚ) ≤ (m : ℚ) := by exact_mod_cast h
      norm_num at h1a h1b hqb
      linarith

/-- The two computations follow the doubles of the code: for a stored token
that decodes to an expiry below `2 ^ 32` s in absolute value, at a clock below
`2 ^ 42` ms, the values of the embedding are those of
`decoded.exp < Date.now() / 1000` and of
`Math.max(0, Math.floor((decoded.exp - Date.now() / 1000) / 60))` with every
division and subtraction rounded to a double. -/
theorem getters_follow_doubles (rd : ℚ → ℚ) (hrd : DoubleRounding rd) (dec : Decoder)
    (now : Nat) (s : UserStore) (t : String) (e : Int) (ht : s.token = some t)
    (hne : t ≠ "") (hd : dec t = some { exp := some e })
    (he : |e| < 2 ^ 32) (hnow : now < 2 ^ 42) :
    (s.isTokenExpired dec now = true ↔ (e : ℚ) < rd ((now : ℚ) / 1000)) ∧
    s.tokenExpiresIn dec now
      = some (max 0 ⌊rd (rd ((e : ℚ) - rd ((now : ℚ) / 1000)) / 60)⌋) := by
  constructor
  · rw [compare_of_doubles rd hrd e now hnow]
    simp [UserStore.isTokenExpired, ht, hne, hd]
  · rw [floor_of_doubles rd hrd e now he hnow]
    simp [UserStore.tokenExpiresIn, ht, hne, hd]

/-- The guarantees asked of the rounding can be met: the rounding that changes
nothing meets them. -/
theorem doubleRounding_id : DoubleRounding id :=
  ⟨fun x _ => by
    simp only [id, sub_self, abs_zero]
    exact add_nonneg (div_nonneg (abs_nonneg x) (pow_nonneg zero_le_two 53))
      (div_nonneg zero_le_one (pow_nonneg zero_le_two 1075)), fun _ _ => rfl⟩

/-- Claim C12 fails on the code: the getter `isTokenExpired` returns the value
of its first evaluation for as long as the token stays the same, whatever the
time of the read.  The sample store holds the token `T1`, whose expiry is
second 2000.  Read at millisecond 1000 the getter is false; read again at
millisecond 5000000, nothing having been written to the store, it is still
false, while the token is decodable and its expiry lies 3000 s in the past: at
that time the computation of the getter gives true. -/
theorem isTokenExpired_stale_after_expiry :
    sampleSession.store.token = some "T1" ∧
    sampleDecoder "T1" = some { exp := some 2000 } ∧
    (2000 : Int) * 1000 < ((5000000 : Nat) : Int) ∧
    (sampleSession.store.readIsTokenExpired sampleDecoder 1000 GetterCache.dirty).1
      = false ∧
    (sampleSession.store.readIsTokenExpired sampleDecoder 5000000
      (GetterCache.afterWrite sampleSession.store sampleSession.store
        (sampleSession.store.readIsTokenExpired sampleDecoder 1000
          GetterCache.dirty).2)).1 = false ∧
    sampleSession.store.isTokenExpired sampleDecoder 5000000 = true := by
  decide

/-- Claim C13, as amended: for a stored token that decodes to the expiry `e`
(seconds), the getter `isTokenExpired` evaluated at the time `now / 1000`
(seconds, from the millisecond clock), that is read for the first time since
the token was stored, is true exactly when the time is later than `e`; at the
instant the time equals `e` it is false.  Nothing is said of a later read,
which returns the value kept from this one. -/
theorem isTokenExpired_strict (dec : Decoder) (now : Nat) (s : UserStore) (t : String)
    (e : Int) (ht : s.token = some t) (hne : t ≠ "") (hd : dec t = some { exp := some e }) :
    ((s.readIsTokenExpired dec now GetterCache.dirty).1 = true ↔
      (e : ℚ) < (now : ℚ) / 1000) ∧
    ((now : ℚ) / 1000 = (e : ℚ) →
      (s.readIsTokenExpired dec now GetterCache.dirty).1 = false) := by
  have h : (s.readIsTokenExpired dec now GetterCache.dirty).1
      = decide (e * 1000 < (now : Int)) := by
    simp [UserStore.readIsTokenExpired, GetterCache.dirty, UserStore.isTokenExpired, ht, hne, hd]
  constructor
  · rw [h, decide_eq_true_iff, expired_iff_seconds]
  · intro heq
    rw [h, decide_eq_false_iff_not, expired_iff_seconds, heq]
    exact lt_irrefl _

/-- Instance of C13 as amended: the sample token, expiring at second 2000, read
for the first time one millisecond after its expiry. -/
theorem isTokenExpired_strict_witness :
    ((sampleSession.store.readIsTokenExpired sampleDecoder 2000001 GetterCache.dirty).1 = true ↔
      ((2000 : Int) : ℚ) < ((2000001 : Nat) : ℚ) / 1000) ∧
    (((2000001 : Nat) : ℚ) / 1000 = ((2000 : Int) : ℚ) →
      (sampleSession.store.readIsTokenExpired sampleDecoder 2000001 GetterCache.dirty).1
        = false) :=
  isTokenExpired_strict sampleDecoder 2000001 sampleSession.store "T1" 2000 rfl (by decide) rfl

/-- Claim C13 fails as stated: evaluated at millisecond 2000000, the very
instant of the expiry 2000 s of the sample token, `isTokenExpired` is false. -/
theorem isTokenExpired_at_expiry_counterexample :
    sampleSession.store.token = some "T1" ∧
    sampleDecoder "T1" = some { exp := some 2000 } ∧
    ((2000000 : Nat) : Int) = 2000 * 1000 ∧
    (sampleSession.store.readIsTokenExpired sampleDecoder 2000000 GetterCache.dirty).1
      = false := by
  decide

/-- The computations of the two getters, run at the same clock reading `now` in
exact arithmetic: `tokenExpiresIn` gives 0 whenever `isTokenExpired` gives true
(no token, undecodable token, expiry before `now`); for a token that decodes to
the expiry `e`, not before `now`, it gives the floor of `(e - now / 1000) / 60`;
and whenever it gives a number, the number is not negative. -/
theorem tokenExpiresIn_spec (dec : Decoder) (now : Nat) (s : UserStore) :
    (s.isTokenExpired dec now = true → s.tokenExpiresIn dec now = some 0) ∧
    (∀ t e, s.token = some t → dec t = some { exp := some e } →
      s.isTokenExpired dec now = false →
      s.tokenExpiresIn dec now = some ⌊((e : ℚ) - (now : ℚ) / 1000) / 60⌋) ∧
    (∀ v, s.tokenExpiresIn dec now = some v → 0 ≤ v) := by
  cases ht : s.token with
  | none => simp [UserStore.isTokenExpired, UserStore.tokenExpiresIn, ht]
  | some t =>
    by_cases h0 : t = ""
    · simp [UserStore.isTokenExpired, UserStore.tokenExpiresIn, ht, h0]
    · cases hd : dec t with
      | none => simp [UserStore.isTokenExpired, UserStore.tokenExpiresIn, ht, h0, hd]
      | some p =>
        cases p with
        | mk exp =>
          cases exp with
          | none =>
            simp [UserStore.isTokenExpired, UserStore.tokenExpiresIn, ht, h0, hd]
            intro t2 e2 ht2
            subst ht2
            simp [hd]
          | some e =>
            have hx : s.isTokenExpired dec now = decide (e * 1000 < (now : Int)) := by
              simp [UserStore.isTokenExpired, ht, h0, hd]
            have hm : s.tokenExpiresIn dec now
                = some (max 0 ((e * 1000 - (now : Int)) / 60000)) := by
              simp [UserStore.tokenExpiresIn, ht, h0, hd]
            rw [hx, hm]
            refine ⟨?_, ?_, ?_⟩
            · intro hlt
              have hlt2 : e * 1000 < (now : Int) := of_decide_eq_true hlt
              have : (e * 1000 - (now : Int)) / 60000 ≤ 0 := by omega
              rw [max_eq_left this]
            · intro t2 e2 ht2 he2 hnlt
              have htt : t = t2 := Option.some.inj ht2
              subst htt
              rw [hd] at he2
              have hee : e = e2 := by
                injection he2 with he2
                injection he2 with he2
                injection he2
              subst hee
              have hge : ¬ e * 1000 < (now : Int) := of_decide_eq_false hnlt
              have : 0 ≤ (e * 1000 - (now : Int)) / 60000 := by omega
              rw [max_eq_right this, floor_minutes]
            · intro v hv
              have hv2 := Option.some.inj hv
              rw [← hv2]
              exact le_max_left _ _

/-! ## Setting an empty token -/

/-- Claim C15, as amended: for every store state, `setToken(token)` called with
an empty or absent token raises nothing: it returns normally and leaves the
store and durable storage as they were. -/
theorem setToken_empty_is_ignored (token : Option String) (w : World)
    (h : truthy token = false) :
    UserStore.setTokenCall token w = (.ok (), w) ∧ UserStore.setToken token w = w := by
  simp [UserStore.setTokenCall, UserStore.setToken, h]

/-- Instance of C15 as amended: the empty string on the sample session. -/
theorem setToken_empty_is_ignored_witness :
    UserStore.setTokenCall (some "") sampleSession = (.ok (), sampleSession) ∧
    UserStore.setToken (some "") sampleSession = sampleSession :=
  setToken_empty_is_ignored (some "") sampleSession (by decide)

/-- Claim C15 fails as stated: `setToken(null)` and `setToken("")` return
normally, no error reaches the caller. -/
theorem setToken_empty_no_error_counterexample :
    (UserStore.setTokenCall none sampleSession).1 = .ok () ∧
    (UserStore.setTokenCall (some "") sampleSession).1 = .ok () :=
  ⟨rfl, rfl⟩

/-! ## Login -/

/-- Claim C16: for every credentials value, prior state and backend answer,
the store's `loading` flag is false when `authService.login` finishes. -/
theorem login_clears_loading (be : Backend) (credentials : List (String × String)) (w : World) :
    (AuthService.login be credentials w).2.store.loading = false := by
  unfold AuthService.login
  simp only []
  split
  · split
    · rfl
    · split
      · rfl
      · split <;> rfl
  · rfl

/-- The sample token at millisecond 1000 has 33 minutes left. -/
theorem tokenExpiresIn_sample :
    sampleSession.store.tokenExpiresIn sampleDecoder 1000 = some 33 := by
  decide

/-- Claim C14 fails on the code: the getter `tokenExpiresIn` returns the value
of its first evaluation for as long as the token stays the same.  The sample
store holds the token `T1`, whose expiry is second 2000.  Read at millisecond
1000 the getter is 33; read again at millisecond 5000000, nothing having been
written to the store, it is still 33, while the token is expired at that time
and the computation of the getter gives 0.  For a token whose payload has no
`exp` the getter is `NaN` (`none`), not a number of minutes. -/
theorem tokenExpiresIn_stale_after_expiry :
    sampleSession.store.token = some "T1" ∧
    sampleDecoder "T1" = some { exp := some 2000 } ∧
    (2000 : Int) * 1000 < ((5000000 : Nat) : Int) ∧
    (sampleSession.store.readTokenExpiresIn sampleDecoder 1000 GetterCache.dirty).1
      = some 33 ∧
    (sampleSession.store.readTokenExpiresIn sampleDecoder 5000000
      (GetterCache.afterWrite sampleSession.store sampleSession.store
        (sampleSession.store.readTokenExpiresIn sampleDecoder 1000
          GetterCache.dirty).2)).1 = some 33 ∧
    sampleSession.store.isTokenExpired sampleDecoder 5000000 = true ∧
    sampleSession.store.tokenExpiresIn sampleDecoder 5000000 = some 0 ∧
    (sampleSession.store.readTokenExpiresIn noExpiryDecoder 1000 GetterCache.dirty).1
      = none := by
  decide

/-- The value thrown by the `catch` block of `login`. -/
theorem loginFailed_fst (status : Option Nat) (details : Option ErrorBody) (w : World) :
    (AuthService.loginFailed status details w).1 =
      .error (.structured
        (orElse (details.bind (fun body => body.message)) "Error al iniciar sesión")
        status details) := rfl

/-- The store after the `catch` and `finally` blocks of `login`. -/
theorem loginFailed_store (status : Option Nat) (details : Option ErrorBody) (w : World) :
    (AuthService.loginFailed status details w).2.store =
      { w.store with
        error := some (orElse (details.bind (fun body => body.message))
          "Error al iniciar sesión")
        loading := false } := rfl

/-- Claim C17, as amended: whenever `authService.login` raises, the value
raised is `{ message, status, details }` with `status` and `details` those of
the backend's error response (absent when there was no error response: no
answer at all, or a 2xx answer without user or access token) and `message` the
error response's message, or `'Error al iniciar sesión'` without one; the same
message is in the store's `error` field; the store's user and token are as
before the call, except that a 401 answer met while no redirect is under way
clears them. -/
theorem login_failure_structured (be : Backend) (credentials : List (String × String))
    (w : World) (err : JsError)
    (hfail : (AuthService.login be credentials w).1 = .error err) :
    err = .structured
        (orElse (be.authLogin (AuthService.loginRequest credentials w)).errorMessage
          "Error al iniciar sesión")
        (be.authLogin (AuthService.loginRequest credentials w)).errorStatus
        (be.authLogin (AuthService.loginRequest credentials w)).errorBody ∧
    (AuthService.login be credentials w).2.store.error =
      some (orElse (be.authLogin (AuthService.loginRequest credentials w)).errorMessage
        "Error al iniciar sesión") ∧
    (AuthService.login be credentials w).2.store.user =
      (if (be.authLogin (AuthService.loginRequest credentials w)).errorStatus = some 401
          ∧ w.isRedirecting = false then none else w.store.user) ∧
    (AuthService.login be credentials w).2.store.token =
      (if (be.authLogin (AuthService.loginRequest credentials w)).errorStatus = some 401
          ∧ w.isRedirecting = false then none else w.store.token) := by
  unfold AuthService.loginRequest at *
  unfold AuthService.login at *
  simp only [Api.call] at *
  cases hr : be.authLogin (Api.dispatch "post" "/auth/login" credentials
      (UserStore.clearError (UserStore.setLoading true w))).1 with
  | ok data =>
    rw [hr] at hfail
    simp only [Api.receive] at hfail ⊢
    cases hu : data.user with
    | none =>
      simp only [hu, loginFailed_fst] at hfail
      injection hfail with hfail
      subst hfail
      simp [Reply.errorMessage, Reply.errorStatus, Reply.errorBody, hu, loginFailed_store,
        Api.dispatch, UserStore.clearError, UserStore.setLoading]
    | some user =>
      by_cases hat : truthy data.access_token = true
      · simp [hu, hat, UserStore.login] at hfail
      · simp only [Bool.not_eq_true] at hat
        simp only [hu, hat, Bool.not_false, if_true, loginFailed_fst] at hfail
        injection hfail with hfail
        subst hfail
        simp [Reply.errorMessage, Reply.errorStatus, Reply.errorBody, hu, hat,
          loginFailed_store, Api.dispatch, UserStore.clearError, UserStore.setLoading]
  | failed status message =>
    rw [hr] at hfail
    simp only [Api.receive, loginFailed_fst] at hfail ⊢
    injection hfail with hfail
    subst hfail
    by_cases h401 : status = 401
    · by_cases hre : w.isRedirecting = true
      · simp [Reply.errorMessage, Reply.errorStatus, Reply.errorBody, loginFailed_store,
          AxiosError.data, Api.responseInterceptor, Api.dispatch, UserStore.clearError,
          UserStore.setLoading, h401, hre]
      · simp [Reply.errorMessage, Reply.errorStatus, Reply.errorBody, loginFailed_store,
          AxiosError.data, Api.responseInterceptor, Api.dispatch, UserStore.clearError,
          UserStore.setLoading, UserStore.logout, h401, hre]
    · simp [Reply.errorMessage, Reply.errorStatus, Reply.errorBody, loginFailed_store,
        AxiosError.data, Api.responseInterceptor, Api.dispatch, UserStore.clearError,
        UserStore.setLoading, h401]
  | noResponse message =>
    rw [hr] at hfail
    simp only [Api.receive, loginFailed_fst] at hfail ⊢
    injection hfail with hfail
    subst hfail
    simp [Reply.errorMessage, Reply.errorStatus, Reply.errorBody, loginFailed_store,
      AxiosError.data, Api.responseInterceptor, Api.dispatch, UserStore.clearError,
      UserStore.setLoading]

/-- Instance of C17 as amended: the sample session against an unreachable
backend. -/
theorem login_failure_structured_witness :
    (AuthService.login backendDown [("email", "a@b.com"), ("password", "x")]
      sampleSession).1 = .error (.structured "Error al iniciar sesión" none none) ∧
    (JsError.structured "Error al iniciar sesión" none none = .structured
        (orElse (backendDown.authLogin (AuthService.loginRequest
          [("email", "a@b.com"), ("password", "x")] sampleSession)).errorMessage
          "Error al iniciar sesión")
        (backendDown.authLogin (AuthService.loginRequest
          [("email", "a@b.com"), ("password", "x")] sampleSession)).errorStatus
        (backendDown.authLogin (AuthService.loginRequest
          [("email", "a@b.com"), ("password", "x")] sampleSession)).errorBody ∧
    (AuthService.login backendDown [("email", "a@b.com"), ("password", "x")]
      sampleSession).2.store.error =
      some (orElse (backendDown.authLogin (AuthService.loginRequest
        [("email", "a@b.com"), ("password", "x")] sampleSession)).errorMessage
        "Error al iniciar sesión") ∧
    (AuthService.login backendDown [("email", "a@b.com"), ("password", "x")]
      sampleSession).2.store.user =
      (if (backendDown.authLogin (AuthService.loginRequest
          [("email", "a@b.com"), ("password", "x")] sampleSession)).errorStatus = some 401
          ∧ sampleSession.isRedirecting = false then none else sampleSession.store.user) ∧
    (AuthService.login backendDown [("email", "a@b.com"), ("password", "x")]
      sampleSession).2.store.token =
      (if (backendDown.authLogin (AuthService.loginRequest
          [("email", "a@b.com"), ("password", "x")] sampleSession)).errorStatus = some 401
          ∧ sampleSession.isRedirecting = false then none else sampleSession.store.token)) :=
  ⟨rfl, login_failure_structured backendDown [("email", "a@b.com"), ("password", "x")]
    sampleSession (.structured "Error al iniciar sesión" none none) rfl⟩

/-- Claim C17 fails as stated: a login answered with 401 on the signed-in sample
session raises the structured error and leaves the store without the user and
the token it held before the call. -/
theorem login_unauthorized_clears_session_counterexample :
    (AuthService.login backendBadCredentials [("email", "a@b.com"), ("password", "x")]
      sampleSession).1 = .error (.structured "Credenciales inválidas" (some 401)
        (some { message := some "Credenciales inválidas" })) ∧
    sampleSession.store.user = some [("id", .num 1), ("email", .str "a@b.com")] ∧
    sampleSession.store.token = some "T1" ∧
    (AuthService.login backendBadCredentials [("email", "a@b.com"), ("password", "x")]
      sampleSession).2.store.user = none ∧
    (AuthService.login backendBadCredentials [("email", "a@b.com"), ("password", "x")]
      sampleSession).2.store.token = none :=
  ⟨rfl, rfl, rfl, rfl, rfl⟩

/-- Claim C18, as amended: for every login answered with a user, a non-empty
access token and a non-empty refresh token, `authService.login` returns the
user, the store holds user and tokens and durable storage holds both tokens;
if moreover the access token decodes to an expiry at least 60 seconds after
the current time, `isAuthenticated()` is true and `tokenExpiresIn` is greater
than 0. -/
theorem login_success_session (be : Backend) (credentials : List (String × String))
    (w : World) (dec : Decoder) (now : Nat) (user : User) (tok rtok : String)
    (hok : be.authLogin (AuthService.loginRequest credentials w)
      = .ok { user := some user, access_token := some tok, refresh_token := some rtok })
    (htok : tok ≠ "") (hrtok : rtok ≠ "") :
    (AuthService.login be credentials w).1 = .ok user ∧
    (AuthService.login be credentials w).2.localStorage.token = some tok ∧
    (AuthService.login be credentials w).2.localStorage.refreshToken = some rtok ∧
    (AuthService.login be credentials w).2.store.user = some user ∧
    (AuthService.login be credentials w).2.store.token = some tok ∧
    (AuthService.login be credentials w).2.store.refreshToken = some rtok ∧
    (∀ e, dec tok = some { exp := some e } → (now : Int) + 60000 ≤ e * 1000 →
      (AuthService.isAuthenticated dec now (AuthService.login be credentials w).2).1 = true ∧
      ∃ v, (AuthService.login be credentials w).2.store.tokenExpiresIn dec now = some v ∧
        0 < v) := by
  unfold AuthService.loginRequest at hok
  have hw : AuthService.login be credentials w =
      (.ok user, UserStore.setLoading false
        (UserStore.login (some user) (some tok) (some rtok)
          (Api.dispatch "post" "/auth/login" credentials
            (UserStore.clearError (UserStore.setLoading true w))).2).2) := by
    simp [AuthService.login, Api.call, hok, Api.receive, truthy, htok, UserStore.login]
  rw [hw]
  have hs : (UserStore.setLoading false
        (UserStore.login (some user) (some tok) (some rtok)
          (Api.dispatch "post" "/auth/login" credentials
            (UserStore.clearError (UserStore.setLoading true w))).2).2).store =
      { user := some user, token := some tok, refreshToken := some rtok,
        isAuthenticated := true, loading := false, error := none } := by
    simp [UserStore.login, UserStore.setUser, UserStore.setToken, UserStore.setRefreshToken,
      UserStore.setLoading, truthy, htok, hrtok, toJsString]
  refine ⟨rfl, ?_, ?_, ?_, ?_, ?_, ?_⟩
  · simp [UserStore.login, UserStore.setUser, UserStore.setToken, UserStore.setRefreshToken,
      UserStore.setLoading, truthy, htok, hrtok, toJsString]
  · simp [UserStore.login, UserStore.setUser, UserStore.setToken, UserStore.setRefreshToken,
      UserStore.setLoading, truthy, htok, hrtok, toJsString]
  · rw [hs]
  · rw [hs]
  · rw [hs]
  · intro e hd hexp
    simp only [AuthService.isAuthenticated, hs, UserStore.isLoggedIn, UserStore.isTokenExpired,
      UserStore.tokenExpiresIn, truthy, htok, hd, if_false]
    have h1 : ¬ e * 1000 < (now : Int) := by omega
    have h2 : 0 < (e * 1000 - (now : Int)) / 60000 := by omega
    refine ⟨by simp [h1, htok], _, rfl, ?_⟩
    exact lt_max_of_lt_right h2

/-- Instance of C18 as amended: the scenario's login on a fresh page, read at
millisecond 1000 with a decoder that gives `"T1"` the expiry 2000 s. -/
theorem login_success_session_witness :
    (AuthService.login (backendLogin sampleLoginData) [("email", "a@b.com"), ("password", "x")]
      (World.fresh ⟨none, none⟩)).1 = .ok [("id", .num 1), ("email", .str "a@b.com")] ∧
    (AuthService.login (backendLogin sampleLoginData) [("email", "a@b.com"), ("password", "x")]
      (World.fresh ⟨none, none⟩)).2.localStorage.token = some "T1" ∧
    (AuthService.login (backendLogin sampleLoginData) [("email", "a@b.com"), ("password", "x")]
      (World.fresh ⟨none, none⟩)).2.localStorage.refreshToken = some "R1" ∧
    (AuthService.isAuthenticated sampleDecoder 1000
      (AuthService.login (backendLogin sampleLoginData)
        [("email", "a@b.com"), ("password", "x")] (World.fresh ⟨none, none⟩)).2).1 = true ∧
    ∃ v, (AuthService.login (backendLogin sampleLoginData)
        [("email", "a@b.com"), ("password", "x")]
        (World.fresh ⟨none, none⟩)).2.store.tokenExpiresIn sampleDecoder 1000 = some v ∧
      0 < v :=
  have h := login_success_session (backendLogin sampleLoginData)
    [("email", "a@b.com"), ("password", "x")] (World.fresh ⟨none, none⟩) sampleDecoder 1000
    [("id", .num 1), ("email", .str "a@b.com")] "T1" "R1" rfl (by decide) (by decide)
  ⟨h.1, h.2.1, h.2.2.1, h.2.2.2.2.2.2 2000 rfl (by decide)⟩

/-- Claim C18 fails as stated: after the scenario's login, `isAuthenticated()`
is false and `tokenExpiresIn` is 0 when the access token is not a decodable
token; and with a decodable token that has less than a minute left,
`tokenExpiresIn` is 0 although `isAuthenticated()` is true. -/
theorem login_success_not_authenticated_counterexample :
    (AuthService.login (backendLogin sampleLoginData) [("email", "a@b.com"), ("password", "x")]
      (World.fresh ⟨none, none⟩)).1 = .ok [("id", .num 1), ("email", .str "a@b.com")] ∧
    (AuthService.isAuthenticated opaqueTokenDecoder 1000
      (AuthService.login (backendLogin sampleLoginData)
        [("email", "a@b.com"), ("password", "x")] (World.fresh ⟨none, none⟩)).2).1 = false ∧
    (AuthService.login (backendLogin sampleLoginData)
      [("email", "a@b.com"), ("password", "x")]
      (World.fresh ⟨none, none⟩)).2.store.tokenExpiresIn opaqueTokenDecoder 1000 = some 0 ∧
    (AuthService.isAuthenticated sampleDecoder 1990000
      (AuthService.login (backendLogin sampleLoginData)
        [("email", "a@b.com"), ("password", "x")] (World.fresh ⟨none, none⟩)).2).1 = true ∧
    (AuthService.login (backendLogin sampleLoginData)
      [("email", "a@b.com"), ("password", "x")]
      (World.fresh ⟨none, none⟩)).2.store.tokenExpiresIn sampleDecoder 1990000 = some 0 := by
  refine ⟨rfl, ?_, ?_, ?_, ?_⟩ <;> decide

/-! ## The interceptors of the gateway -/

/-- Claim C19: for every request and state, the request interceptor sets the
header `Authorization` to `'Bearer '` followed by the stored token when one is
stored and returns the request as it is otherwise; method, url and body are
never changed; the result depends on the state through the access token only,
in particular not on the refresh token. -/
theorem requestInterceptor_frame (w : World) (req : Request) :
    (∀ t, w.store.token = some t → t ≠ "" →
      Api.requestInterceptor w req = { req with authorization := some ("Bearer " ++ t) }) ∧
    (truthy w.store.token = false → Api.requestInterceptor w req = req) ∧
    (Api.requestInterceptor w req).method = req.method ∧
    (Api.requestInterceptor w req).url = req.url ∧
    (Api.requestInterceptor w req).body = req.body ∧
    (∀ w2 : World, w2.store.token = w.store.token →
      Api.requestInterceptor w2 req = Api.requestInterceptor w req) ∧
    (∀ rt, Api.requestInterceptor
        { w with store := { w.store with refreshToken := rt } } req
      = Api.requestInterceptor w req) := by
  refine ⟨?_, ?_, ?_, ?_, ?_, ?_, ?_⟩
  · intro t ht hne
    simp [Api.requestInterceptor, ht, truthy, hne, toJsString]
  · intro h
    simp [Api.requestInterceptor, h]
  · unfold Api.requestInterceptor; split <;> rfl
  · unfold Api.requestInterceptor; split <;> rfl
  · unfold Api.requestInterceptor; split <;> rfl
  · intro w2 h
    simp [Api.requestInterceptor, h]
  · intro rt
    simp [Api.requestInterceptor]

/-- Once `isRedirecting` is set the response interceptor changes nothing. -/
theorem responseInterceptor_redirecting (e : AxiosError) (w : World)
    (h : w.isRedirecting = true) : Api.responseInterceptor e w = w := by
  simp [Api.responseInterceptor, h]

/-- No store action writes `isRedirecting`. -/
theorem apply_isRedirecting (dec : Decoder) (a : StoreAction) (w : World) :
    (a.apply dec w).isRedirecting = w.isRedirecting := by
  cases a with
  | setUser userData => rfl
  | setToken token =>
    simp only [StoreAction.apply, UserStore.setToken]
    split <;> rfl
  | setRefreshToken refreshToken => rfl
  | login userData token refreshToken =>
    simp only [StoreAction.apply, UserStore.login, UserStore.setToken]
    split <;> split <;> rfl
  | logout => rfl
  | updateUser updates =>
    simp only [StoreAction.apply, UserStore.updateUser]
    split <;> rfl
  | initializeAuth now =>
    simp only [StoreAction.apply, UserStore.initializeAuth]
    split
    · rfl
    · split
      · rfl
      · split <;> rfl

/-- A sequence of rejections met with `isRedirecting` set changes nothing. -/
theorem handleErrors_redirecting (errors : List AxiosError) (w : World)
    (h : w.isRedirecting = true) : Api.handleErrors errors w = w := by
  induction errors with
  | nil => rfl
  | cons e rest ih =>
    simp only [Api.handleErrors, List.foldl_cons] at ih ⊢
    rw [responseInterceptor_redirecting e w h]
    exact ih

/-- With `isRedirecting` set, rejections drop out of every sequence of events. -/
theorem runEvents_redirecting (dec : Decoder) (events : List GatewayEvent) (w : World)
    (h : w.isRedirecting = true) :
    (runEvents dec events w).isRedirecting = true ∧
    runEvents dec events w = runActions dec (storeActions events) w := by
  induction events generalizing w with
  | nil => exact ⟨h, rfl⟩
  | cons ev rest ih =>
    cases ev with
    | rejected e =>
      have := ih w h
      simpa [runEvents, GatewayEvent.apply, responseInterceptor_redirecting e w h,
        storeActions] using this
    | action a =>
      have := ih (a.apply dec w) (by rw [apply_isRedirecting]; exact h)
      simpa [runEvents, GatewayEvent.apply, storeActions, runActions] using this

/-- Claim C20: for every sequence of rejections handled by the response
interceptor, the logout and the redirect to `/login` happen at the first 401
met with `isRedirecting` unset and nothing happens afterwards; once
`isRedirecting` is set, it stays set along every sequence of rejections and
store actions, and the rejections of such a sequence have no effect: the state
is the one the store actions alone produce. -/
theorem redirect_once (dec : Decoder) (errors : List AxiosError) (events : List GatewayEvent)
    (w : World) :
    Api.handleErrors errors w =
      (if w.isRedirecting = false ∧ errors.any AxiosError.is401 = true then
        { UserStore.logout w with isRedirecting := true, location := some "/login" }
      else w) ∧
    (w.isRedirecting = true →
      (runEvents dec events w).isRedirecting = true ∧
      runEvents dec events w = runActions dec (storeActions events) w) := by
  refine ⟨?_, runEvents_redirecting dec events w⟩
  by_cases hre : w.isRedirecting = true
  · simp [handleErrors_redirecting errors w hre, hre]
  · simp only [Bool.not_eq_true] at hre
    induction errors with
    | nil => simp [Api.handleErrors]
    | cons e rest ih =>
      by_cases h401 : e.status = some 401
      · have hstep : Api.responseInterceptor e w =
            { UserStore.logout w with isRedirecting := true, location := some "/login" } := by
          simp [Api.responseInterceptor, h401, hre, UserStore.logout]
        have : Api.handleErrors (e :: rest) w
            = Api.handleErrors rest (Api.responseInterceptor e w) := rfl
        rw [this, hstep, handleErrors_redirecting rest _ rfl]
        simp [hre, AxiosError.is401, h401]
      · have hstep : Api.responseInterceptor e w = w := by
          simp [Api.responseInterceptor, h401]
        have : Api.handleErrors (e :: rest) w
            = Api.handleErrors rest (Api.responseInterceptor e w) := rfl
        rw [this, hstep, ih]
        simp [hre, AxiosError.is401, h401]

/-! ## Errors raised by the gateway -/

/-- Claim C21, as amended: for every request that is not answered 2xx, a call
through `apiRequest` raises `{ message, status, details, url }` with `message`
the backend's message, else the transport error's message, else
`'Error desconocido'`, with `status` and `details` those of the error response
(absent without a response) and `url` the URL requested; the same request made
on the axios instance directly is rejected with the axios error itself, whose
`message` is the transport error's message. -/
theorem apiRequest_normalizes {α : Type} (backend : Request → Reply α) (method url : String)
    (data : List (String × String)) (w : World)
    (hfail : (backend (Api.dispatch method url data w).1).isOk = false) :
    (Api.apiRequest backend method url data w).1 = .error
      { message := orElse (backend (Api.dispatch method url data w).1).errorMessage
          (orElse (some (backend (Api.dispatch method url data w).1).transportMessage)
            "Error desconocido")
        status := (backend (Api.dispatch method url data w).1).errorStatus
        details := (backend (Api.dispatch method url data w).1).errorBody
        url := some url } ∧
    (Api.call backend method url data w).1 = .error
      { status := (backend (Api.dispatch method url data w).1).errorStatus
        dataMessage := (backend (Api.dispatch method url data w).1).errorMessage
        message := (backend (Api.dispatch method url data w).1).transportMessage } := by
  unfold Api.apiRequest Api.call
  cases hr : backend (Api.dispatch method url data w).1 with
  | ok body => simp [hr, Reply.isOk] at hfail
  | failed status message =>
    simp [hr, Api.receive, Reply.errorMessage, Reply.errorStatus, Reply.errorBody,
      Reply.transportMessage, AxiosError.data]
  | noResponse message =>
    simp [hr, Api.receive, Reply.errorMessage, Reply.errorStatus, Reply.errorBody,
      Reply.transportMessage, AxiosError.data]

/-- Instance of C21 as amended: a 404 with a message. -/
theorem apiRequest_normalizes_witness :
    (Api.apiRequest backendNotFound.resource "get" "/roles/9" [] sampleSession).1 = .error
      { message := "No existe", status := some 404,
        details := some { message := some "No existe" }, url := some "/roles/9" } :=
  (apiRequest_normalizes backendNotFound.resource "get" "/roles/9" [] sampleSession rfl).1

/-- Claim C21 fails as stated: a call on the axios instance, which passes the
response interceptor only, rejects a 404 carrying the message `No existe` with
the axios error, whose own message is the transport text. -/
theorem direct_call_not_normalized_counterexample :
    (Api.call backendNotFound.resource "get" "/roles/9" [] sampleSession).1 = .error
      { status := some 404, dataMessage := some "No existe",
        message := "Request failed with status code 404" } ∧
    "Request failed with status code 404" ≠ "No existe" :=
  ⟨rfl, by decide⟩

/-! ## The role cache -/

theorem lookup_replace (key : String) (entry : CacheEntry) (c : Cache)
    (h : (List.lookup key c).isSome = true) :
    List.lookup key (c.map (fun kv => if kv.1 = key then (key, entry) else kv))
      = some entry := by
  induction c with
  | nil => simp at h
  | cons kv rest ih =>
    obtain ⟨k, v⟩ := kv
    rw [List.map_cons]
    by_cases hk : k = key
    · simp only [hk, if_true, List.lookup_cons, beq_self_eq_true]
    · have hk2 : (key == k) = false := by
        rw [beq_eq_false_iff_ne]
        exact fun h' => hk h'.symm
      have hrest : (List.lookup key rest).isSome = true := by
        simpa [List.lookup_cons, hk2] using h
      simp only [hk, if_false, List.lookup_cons, hk2]
      exact ih hrest

theorem lookup_append_new (key : String) (entry : CacheEntry) (c : Cache)
    (h : List.lookup key c = none) :
    List.lookup key (c ++ [(key, entry)]) = some entry := by
  induction c with
  | nil => simp [List.lookup_cons]
  | cons kv rest ih =>
    obtain ⟨k, v⟩ := kv
    by_cases hk : (key == k) = true
    · simp [List.lookup_cons, hk] at h
    · simp only [Bool.not_eq_true] at hk
      have hrest : List.lookup key rest = none := by
        simpa [List.lookup_cons, hk] using h
      simp only [List.cons_append, List.lookup_cons, hk]
      exact ih hrest

/-- After `cache.set(key, entry)` the key holds the entry. -/
theorem cache_set_lookup (c : Cache) (key : String) (entry : CacheEntry) :
    (c.set key entry).lookup key = some entry := by
  unfold Cache.set
  cases h : List.lookup key c with
  | none => simpa using lookup_append_new key entry c h
  | some e => simpa using lookup_replace key entry c (by simp [h])

theorem lookup_replace_other (key other : String) (entry : CacheEntry) (c : Cache)
    (hne : other ≠ key) :
    List.lookup other (c.map (fun kv => if kv.1 = key then (key, entry) else kv))
      = List.lookup other c := by
  have hbeq : (other == key) = false := by
    rw [beq_eq_false_iff_ne]
    exact hne
  induction c with
  | nil => rfl
  | cons kv rest ih =>
    obtain ⟨k, v⟩ := kv
    rw [List.map_cons]
    by_cases hk : k = key
    · simp only [hk, if_true, List.lookup_cons, hbeq]
      exact ih
    · simp only [hk, if_false, List.lookup_cons, ih]

theorem lookup_append_other (key other : String) (entry : CacheEntry) (c : Cache)
    (hne : other ≠ key) :
    List.lookup other (c ++ [(key, entry)]) = List.lookup other c := by
  have hbeq : (other == key) = false := by
    rw [beq_eq_false_iff_ne]
    exact hne
  induction c with
  | nil => simp [List.lookup_cons, hbeq]
  | cons kv rest ih =>
    obtain ⟨k, v⟩ := kv
    simp only [List.cons_append, List.lookup_cons, ih]

/-- The method `cache.set(key, entry)` leaves every other key as it was. -/
theorem cache_set_lookup_other (c : Cache) (key other : String) (entry : CacheEntry)
    (hne : other ≠ key) : (c.set key entry).lookup other = c.lookup other := by
  unfold Cache.set
  split
  · exact lookup_replace_other key other entry c hne
  · exact lookup_append_other key other entry c hne

/-- The cache check answers with an entry exactly when `forceRefresh` is not
set, the key holds that entry and its age is below ten minutes. -/
theorem cached_iff (svc : RolesService) (now : Nat) (force : Bool) (key : String)
    (entry : CacheEntry) :
    svc.cached now force key = some entry ↔
      (force = false ∧ svc.cache.lookup key = some entry ∧
        (now : Int) - (entry.timestamp : Int) < 600000) := by
  unfold RolesService.cached
  cases force with
  | true => simp
  | false =>
    cases hl : List.lookup key svc.cache with
    | none => simp
    | some e =>
      by_cases hage : (now : Int) - (e.timestamp : Int) < (RolesService.cacheDuration : Int)
      · simp only [Bool.false_eq_true, if_false, hage, if_true, Option.some.injEq, true_and]
        constructor
        · intro h
          subst h
          exact ⟨rfl, by simpa [RolesService.cacheDuration] using hage⟩
        · intro h
          exact h.1
      · simp only [Bool.false_eq_true, if_false, hage, Option.some.injEq, true_and]
        constructor
        · intro h
          cases h
        · intro h
          obtain ⟨h1, h2⟩ := h
          subst h1
          exact absurd (by simpa [RolesService.cacheDuration] using h2) hage

/-- The cache check finds nothing exactly when `forceRefresh` is set, or the
key holds no entry, or the entry it holds is ten minutes old or older. -/
theorem cached_none_iff (svc : RolesService) (now : Nat) (force : Bool) (key : String) :
    svc.cached now force key = none ↔
      (force = true ∨ svc.cache.lookup key = none ∨
        ∃ entry, svc.cache.lookup key = some entry ∧
          600000 ≤ (now : Int) - (entry.timestamp : Int)) := by
  unfold RolesService.cached
  cases force with
  | true => simp
  | false =>
    cases hl : List.lookup key svc.cache with
    | none => simp
    | some e =>
      by_cases hage : (now : Int) - (e.timestamp : Int) < (RolesService.cacheDuration : Int)
      · have h2 : ¬ (600000 : Int) ≤ (now : Int) - (e.timestamp : Int) := by
          simp only [RolesService.cacheDuration] at hage
          omega
        simp [hage, h2]
      · have h2 : (600000 : Int) ≤ (now : Int) - (e.timestamp : Int) := by
          simp only [RolesService.cacheDuration] at hage
          omega
        simp [hage, h2]

/-- A fetch sends exactly one request. -/
theorem fetch_requests (be : Backend) (later : Nat) (url : String)
    (params : List (String × String)) (key defaultMsg : String) (svc : RolesService)
    (w : World) :
    (RolesService.fetch be later url params key defaultMsg svc w).2.2.requests
      = w.requests ++ [(Api.dispatch "get" url params w).1] := by
  simp only [RolesService.fetch, Api.call]
  cases hr : be.resource (Api.dispatch "get" url params w).1 with
  | ok data =>
    cases data <;> simp [Api.receive, Api.dispatch]
  | failed status message =>
    simp [Api.receive, responseInterceptor_requests, Api.dispatch]
  | noResponse message =>
    simp [Api.receive, responseInterceptor_requests, Api.dispatch]

/-- A fetch answered 2xx with a body other than `null` returns the body and
writes it into the cache under the key, with the time of the answer. -/
theorem fetch_ok (be : Backend) (later : Nat) (url : String)
    (params : List (String × String)) (key defaultMsg : String) (svc : RolesService)
    (w : World) (data : JsData)
    (hok : be.resource (Api.dispatch "get" url params w).1 = .ok data)
    (hdata : data ≠ .null) :
    (RolesService.fetch be later url params key defaultMsg svc w).1 = .ok data ∧
    (RolesService.fetch be later url params key defaultMsg svc w).2.1.cache
      = svc.cache.set key ⟨data, later⟩ := by
  simp only [RolesService.fetch, Api.call, hok, Api.receive]
  cases data with
  | null => exact absurd rfl hdata
  | object o => simp
  | list xs => simp

/-- The digit characters have their values. -/
theorem digitValue_digitChar (k : Nat) (h : k < 10) : digitValue (Nat.digitChar k) = k := by
  interval_cases k <;> rfl

/-- Reading back the digits written for `n` continues the value `n`. -/
theorem decimalValue_toDigitsCore (fuel : Nat) :
    ∀ (n : Nat) (ds : List Char), n < fuel →
      decimalValue 0 (Nat.toDigitsCore 10 fuel n ds) = decimalValue n ds := by
  induction fuel with
  | zero => intro n ds h; omega
  | succ fuel ih =>
    intro n ds h
    unfold Nat.toDigitsCore
    simp only
    by_cases h0 : n / 10 = 0
    · simp only [h0, if_true]
      have hn : n < 10 := by omega
      simp only [decimalValue, List.foldl_cons, Nat.mod_eq_of_lt hn,
        digitValue_digitChar n hn, Nat.mul_zero, Nat.zero_add]
    · simp only [h0, if_false]
      rw [ih (n / 10) _ (by omega)]
      simp only [decimalValue, List.foldl_cons,
        digitValue_digitChar _ (Nat.mod_lt n (by norm_num))]
      congr 1
      omega

/-- Different numbers are written differently in a template literal. -/
theorem toString_nat_injective (a b : Nat) (h : toString a = toString b) : a = b := by
  have h1 : (Nat.toDigits 10 a) = (Nat.toDigits 10 b) := by
    have := congrArg String.data h
    simpa [toString, Nat.repr] using this
  have ha := decimalValue_toDigitsCore (a + 1) a [] (by omega)
  have hb := decimalValue_toDigitsCore (b + 1) b [] (by omega)
  unfold Nat.toDigits at h1
  rw [h1, hb] at ha
  simpa [decimalValue] using ha.symm

/-- The two hexadecimal digits of a control character give its code back. -/
theorem hexValue_hex2 : ∀ n, n < 32 →
    ∀ a b, hex2 n = [a, b] → hexValue a * 16 + hexValue b = n := by
  intro n hn a b h
  interval_cases n <;> (simp [hex2] at h; obtain ⟨rfl, rfl⟩ := h; rfl)

/-- A character is determined by its code. -/
theorem char_eq_of_val (c : Char) (n : Nat) (h : c.val = n.toUInt32) (hn : n < 32) :
    c = Char.ofNat n := by
  apply Char.ext
  rw [h]
  interval_cases n <;> rfl

/-- The escape of a character, followed by any text, is read back as that
character and that text. -/
theorem jsonUnescapeHead_escape (c : Char) (X : List Char) :
    jsonUnescapeHead (jsonEscapeChar c ++ X) = some (c, X) := by
  unfold jsonEscapeChar
  split_ifs with h1 h2 h3 h4 h5 h6 h7 h8
  · subst h1; rfl
  · subst h2; rfl
  · rw [char_eq_of_val c 8 h3 (by norm_num)]; rfl
  · rw [char_eq_of_val c 12 h4 (by norm_num)]; rfl
  · rw [char_eq_of_val c 10 h5 (by norm_num)]; rfl
  · rw [char_eq_of_val c 13 h6 (by norm_num)]; rfl
  · rw [char_eq_of_val c 9 h7 (by norm_num)]; rfl
  · have hn : c.val.toNat < 32 := h8
    obtain ⟨a, b, hab⟩ : ∃ a b, hex2 c.val.toNat = [a, b] := ⟨_, _, rfl⟩
    have hv := hexValue_hex2 _ hn a b hab
    rw [hab]
    have hc : Char.ofNat c.val.toNat = c := Char.ofNat_toNat c
    show jsonUnescapeHead ('\\' :: 'u' :: '0' :: '0' :: a :: b :: X) = _
    simp [jsonUnescapeHead, hv, hc]
  · cases X with
    | nil => rfl
    | cons e r => simp [jsonUnescapeHead, h2]

/-- Different strings have different escaped bodies. -/
theorem jsonEscape_injective : ∀ s1 s2 : List Char,
    s1.flatMap jsonEscapeChar = s2.flatMap jsonEscapeChar → s1 = s2 := by
  intro s1
  induction s1 with
  | nil =>
    intro s2 h
    cases s2 with
    | nil => rfl
    | cons d ds =>
      have := congrArg jsonUnescapeHead h
      rw [List.flatMap_cons, jsonUnescapeHead_escape] at this
      cases this
  | cons c cs ih =>
    intro s2 h
    cases s2 with
    | nil =>
      have := congrArg jsonUnescapeHead h
      rw [List.flatMap_cons, jsonUnescapeHead_escape] at this
      cases this
    | cons d ds =>
      have := congrArg jsonUnescapeHead h
      rw [List.flatMap_cons, List.flatMap_cons, jsonUnescapeHead_escape,
        jsonUnescapeHead_escape] at this
      injection this with this
      injection this with h1 h2
      rw [h1, ih ds h2]

/-- `JSON.stringify` gives different texts for different values. -/
theorem jsonStringify_injective (a b : Option String)
    (h : jsonStringify a = jsonStringify b) : a = b := by
  cases a with
  | none =>
    cases b with
    | none => rfl
    | some t =>
      have := congrArg String.data h
      simp [jsonStringify] at this
  | some s =>
    cases b with
    | none =>
      have := congrArg String.data h
      simp [jsonStringify] at this
    | some t =>
      have h1 := congrArg String.data h
      simp only [jsonStringify, List.cons_append, List.nil_append, List.cons.injEq,
        true_and] at h1
      have h2 := jsonEscape_injective _ _ (List.append_cancel_right h1)
      exact congrArg some (String.ext h2)

/-- A text that starts with the text of a boolean determines the boolean. -/
theorem bool_text_prefix (b c : Bool) (X Y : List Char)
    (h : (toString b).data ++ X = (toString c).data ++ Y) : b = c ∧ X = Y := by
  cases b <;> cases c <;> simp_all [toString]

/-- A text that ends with `_` and the text of a boolean determines the boolean
and what stands before. -/
theorem bool_text_suffix (b c : Bool) (X Y : List Char)
    (h : X ++ ['_'] ++ (toString b).data = Y ++ ['_'] ++ (toString c).data) :
    X = Y ∧ b = c := by
  have hr := congrArg List.reverse h
  cases b <;> cases c
  · simpa [toString] using h
  · simp [toString] at hr
  · simp [toString] at hr
  · simpa [toString] using h

/-- The cache key of `getById` determines the id and the two flags. -/
theorem getByIdKey_injective (id1 id2 : Nat) (o1 o2 : ReadOptions)
    (h : RolesService.getByIdKey id1 o1 = RolesService.getByIdKey id2 o2) :
    id1 = id2 ∧ o1.includePermissions = o2.includePermissions ∧
      o1.includeUsers = o2.includeUsers := by
  have h1 := congrArg String.data h
  simp only [RolesService.getByIdKey, String.data_append] at h1
  obtain ⟨h2, hu⟩ := bool_text_suffix _ _ _ _ h1
  obtain ⟨h3, hp⟩ := bool_text_suffix _ _ _ _ h2
  have h4 := List.append_cancel_left h3
  exact ⟨toString_nat_injective _ _ (String.ext h4), hp, hu⟩

/-- The cache key of `getAll` determines the option set. -/
theorem getAllKey_injective (o1 o2 : ReadOptions)
    (h : RolesService.getAllKey o1 = RolesService.getAllKey o2) :
    o1.includePermissions = o2.includePermissions ∧
      o1.includeUsers = o2.includeUsers ∧ o1.status = o2.status := by
  have h1 := congrArg String.data h
  simp only [RolesService.getAllKey, String.data_append, List.append_assoc] at h1
  have h2 := List.append_cancel_left h1
  obtain ⟨hp, h3⟩ := bool_text_prefix _ _ _ _ h2
  have h4 := List.append_cancel_left h3
  obtain ⟨hu, h5⟩ := bool_text_prefix _ _ _ _ h4
  have h6 := List.append_cancel_left h5
  have h7 := List.append_cancel_right h6
  exact ⟨hp, hu, jsonStringify_injective _ _ (String.ext h7)⟩

/-- A key of `getAll` is never a key of `getById`. -/
theorem getAllKey_ne_getByIdKey (o1 o2 : ReadOptions) (id : Nat) :
    RolesService.getAllKey o1 ≠ RolesService.getByIdKey id o2 := by
  intro h
  have h1 := congrArg String.data h
  simp [RolesService.getAllKey, RolesService.getByIdKey, String.data_append] at h1

/-- The keys and the request URLs of some reads. -/
theorem read_keys_and_urls :
    RolesService.getAllKey sampleOptions
      = "roles_\x7b\"includePermissions\":true,\"includeUsers\":false,\"status\":null\x7d" ∧
    RolesService.getAllKey { sampleOptions with status := some "a\"b" }
      = "roles_\x7b\"includePermissions\":true,\"includeUsers\":false,\"status\":\"a\\\"b\"\x7d" ∧
    RolesService.getByIdKey 10 sampleOptions = "role_10_true_false" ∧
    RolesService.getAllUrl sampleOptions = "/roles?include_permissions=true" ∧
    RolesService.getAllUrl
        { forceRefresh := false, includePermissions := false, includeUsers := false,
          status := none } = "/roles?" ∧
    RolesService.getAllUrl
        { forceRefresh := true, includePermissions := true, includeUsers := true,
          status := some "en curso & ñ" }
      = "/roles?include_permissions=true&include_users=true&status=en+curso+%26+%C3%B1" ∧
    RolesService.getByIdUrl 10 sampleOptions = "/roles/10?include_permissions=true" := by
  decide

/-- Claim C22: `getAll(options)` answers from the cache, sending nothing and
changing nothing, exactly when `forceRefresh` is not set and the cache holds,
under the key of the option set, an entry younger than ten minutes; in every
other case it sends one `GET /roles?<query>` request and, when that is answered
with a body, returns the body and writes it under that key with the time of
the answer, leaving the other keys alone.  The key stands for the option set:
two calls of `getAll` use the same key exactly when they agree on
`includePermissions`, `includeUsers` and `status`.  The same holds for
`getById` with `GET /roles/<id>?<query>` and the key of
`(id, includePermissions, includeUsers)`, which two calls share exactly when
they agree on the id and the two flags, and which is never a key of `getAll`. -/
theorem roles_read_cache_policy (be : Backend) (now later id : Nat) (o : ReadOptions)
    (svc : RolesService) (w : World) :
    (∀ entry, svc.cached now o.forceRefresh (RolesService.getAllKey o) = some entry →
      RolesService.getAll be now later o svc w = (.ok entry.data, svc, w)) ∧
    (svc.cached now o.forceRefresh (RolesService.getAllKey o) = none →
      (RolesService.getAll be now later o svc w).2.2.requests
        = w.requests ++ [(Api.dispatch "get" (RolesService.getAllUrl o) [] w).1] ∧
      ∀ data, be.resource (Api.dispatch "get" (RolesService.getAllUrl o) [] w).1
          = .ok data → data ≠ .null →
        (RolesService.getAll be now later o svc w).1 = .ok data ∧
        (RolesService.getAll be now later o svc w).2.1.cache.lookup (RolesService.getAllKey o)
          = some ⟨data, later⟩ ∧
        ∀ other, other ≠ RolesService.getAllKey o →
          (RolesService.getAll be now later o svc w).2.1.cache.lookup other
            = svc.cache.lookup other) ∧
    (∀ entry, svc.cached now o.forceRefresh (RolesService.getByIdKey id o) = some entry →
      RolesService.getById be now later id o svc w = (.ok entry.data, svc, w)) ∧
    (svc.cached now o.forceRefresh (RolesService.getByIdKey id o) = none →
      (RolesService.getById be now later id o svc w).2.2.requests
        = w.requests ++
          [(Api.dispatch "get" (RolesService.getByIdUrl id o) [] w).1] ∧
      ∀ data, be.resource (Api.dispatch "get" (RolesService.getByIdUrl id o) [] w).1
          = .ok data → data ≠ .null →
        (RolesService.getById be now later id o svc w).1 = .ok data ∧
        (RolesService.getById be now later id o svc w).2.1.cache.lookup
            (RolesService.getByIdKey id o) = some ⟨data, later⟩ ∧
        ∀ other, other ≠ RolesService.getByIdKey id o →
          (RolesService.getById be now later id o svc w).2.1.cache.lookup other
            = svc.cache.lookup other) ∧
    (∀ key entry, svc.cached now o.forceRefresh key = some entry ↔
      (o.forceRefresh = false ∧ svc.cache.lookup key = some entry ∧
        (now : Int) - (entry.timestamp : Int) < 600000)) ∧
    (∀ key, svc.cached now o.forceRefresh key = none ↔
      (o.forceRefresh = true ∨ svc.cache.lookup key = none ∨
        ∃ entry, svc.cache.lookup key = some entry ∧
          600000 ≤ (now : Int) - (entry.timestamp : Int))) ∧
    (∀ o2 : ReadOptions, RolesService.getAllKey o2 = RolesService.getAllKey o ↔
      (o2.includePermissions = o.includePermissions ∧ o2.includeUsers = o.includeUsers ∧
        o2.status = o.status)) ∧
    (∀ (id2 : Nat) (o2 : ReadOptions),
      RolesService.getByIdKey id2 o2 = RolesService.getByIdKey id o ↔
      (id2 = id ∧ o2.includePermissions = o.includePermissions ∧
        o2.includeUsers = o.includeUsers)) ∧
    (∀ (id2 : Nat) (o2 : ReadOptions),
      RolesService.getAllKey o ≠ RolesService.getByIdKey id2 o2 ∧
      RolesService.getAllKey o2 ≠ RolesService.getByIdKey id o) := by
  refine ⟨?_, ?_, ?_, ?_, fun key entry => cached_iff svc now _ key entry,
    fun key => cached_none_iff svc now _ key,
    fun o2 => ⟨getAllKey_injective o2 o, fun h => by
      simp only [RolesService.getAllKey, h.1, h.2.1, h.2.2]⟩,
    fun id2 o2 => ⟨getByIdKey_injective id2 id o2 o, fun h => by
      simp only [RolesService.getByIdKey, h.1, h.2.1, h.2.2]⟩,
    fun id2 o2 => ⟨getAllKey_ne_getByIdKey o o2 id2, getAllKey_ne_getByIdKey o2 o id⟩⟩
  · intro entry h
    simp [RolesService.getAll, h]
  · intro h
    simp only [RolesService.getAll, h]
    refine ⟨fetch_requests _ _ _ _ _ _ _ _, ?_⟩
    intro data hok hdata
    obtain ⟨h1, h2⟩ := fetch_ok be later (RolesService.getAllUrl o) []
      (RolesService.getAllKey o) "Error al obtener roles" svc w data hok hdata
    refine ⟨h1, ?_, ?_⟩
    · rw [h2]
      exact cache_set_lookup _ _ _
    · intro other hne
      rw [h2]
      exact cache_set_lookup_other _ _ _ _ hne
  · intro entry h
    simp [RolesService.getById, h]
  · intro h
    simp only [RolesService.getById, h]
    refine ⟨fetch_requests _ _ _ _ _ _ _ _, ?_⟩
    intro data hok hdata
    obtain ⟨h1, h2⟩ := fetch_ok be later (RolesService.getByIdUrl id o) []
      (RolesService.getByIdKey id o)
      "Error al obtener el rol" svc w data hok hdata
    refine ⟨h1, ?_, ?_⟩
    · rw [h2]
      exact cache_set_lookup _ _ _
    · intro other hne
      rw [h2]
      exact cache_set_lookup_other _ _ _ _ hne

/-- Two reads in a row.  A `getAll` for the option set `o` has fetched `data`;
less than ten minutes after the answer `getAll` is called for `o2` without
`forceRefresh`.  When `o2` agrees with `o` on `includePermissions`,
`includeUsers` and `status`, the second call returns `data` and sends nothing;
when it does not, and nothing was cached for `o2` before, it sends a request. -/
theorem getAll_then_getAll (be be2 : Backend) (now later now2 later2 : Nat)
    (o o2 : ReadOptions) (svc : RolesService) (w : World) (data : JsData)
    (hmiss : svc.cached now o.forceRefresh (RolesService.getAllKey o) = none)
    (hok : be.resource (Api.dispatch "get" (RolesService.getAllUrl o) [] w).1 = .ok data)
    (hdata : data ≠ .null) (hforce : o2.forceRefresh = false)
    (hage : (now2 : Int) - (later : Int) < 600000) :
    ((o2.includePermissions = o.includePermissions ∧ o2.includeUsers = o.includeUsers ∧
        o2.status = o.status) →
      RolesService.getAll be2 now2 later2 o2 (RolesService.getAll be now later o svc w).2.1
          (RolesService.getAll be now later o svc w).2.2
        = (.ok data, (RolesService.getAll be now later o svc w).2.1,
            (RolesService.getAll be now later o svc w).2.2)) ∧
    (¬ (o2.includePermissions = o.includePermissions ∧ o2.includeUsers = o.includeUsers ∧
        o2.status = o.status) →
      svc.cache.lookup (RolesService.getAllKey o2) = none →
      (RolesService.getAll be2 now2 later2 o2 (RolesService.getAll be now later o svc w).2.1
          (RolesService.getAll be now later o svc w).2.2).2.2.requests
        = (RolesService.getAll be now later o svc w).2.2.requests ++
          [(Api.dispatch "get" (RolesService.getAllUrl o2) []
            (RolesService.getAll be now later o svc w).2.2).1]) := by
  have hget : RolesService.getAll be now later o svc w
      = RolesService.fetch be later (RolesService.getAllUrl o) []
          (RolesService.getAllKey o) "Error al obtener roles" svc w := by
    simp only [RolesService.getAll, hmiss]
  obtain ⟨-, hcache⟩ := fetch_ok be later (RolesService.getAllUrl o) []
    (RolesService.getAllKey o) "Error al obtener roles" svc w data hok hdata
  rw [← hget] at hcache
  clear hget
  generalize RolesService.getAll be now later o svc w = r at hcache ⊢
  constructor
  · intro hsame
    have hkey : RolesService.getAllKey o2 = RolesService.getAllKey o := by
      simp only [RolesService.getAllKey, hsame.1, hsame.2.1, hsame.2.2]
    have hhit : r.2.1.cached now2 o2.forceRefresh (RolesService.getAllKey o2)
        = some ⟨data, later⟩ := by
      rw [cached_iff]
      refine ⟨hforce, ?_, hage⟩
      rw [hcache, hkey]
      exact cache_set_lookup _ _ _
    simp only [RolesService.getAll, hhit]
  · intro hdiff hnone
    have hkey : RolesService.getAllKey o2 ≠ RolesService.getAllKey o :=
      fun h => hdiff (getAllKey_injective o2 o h)
    have hmiss2 : r.2.1.cached now2 o2.forceRefresh (RolesService.getAllKey o2) = none := by
      rw [cached_none_iff]
      right; left
      rw [hcache, cache_set_lookup_other _ _ _ _ hkey]
      exact hnone
    simp only [RolesService.getAll, hmiss2]
    exact fetch_requests _ _ _ _ _ _ _ _

/-- Two reads of single roles in a row: a `getById` for `(id, o)` has fetched
`data`; less than ten minutes after the answer `getById` is called for
`(id2, o2)` without `forceRefresh`.  With the same id and flags the second call
returns `data` and sends nothing; otherwise, nothing having been cached for
`(id2, o2)` before, it sends a request. -/
theorem getById_then_getById (be be2 : Backend) (now later now2 later2 id id2 : Nat)
    (o o2 : ReadOptions) (svc : RolesService) (w : World) (data : JsData)
    (hmiss : svc.cached now o.forceRefresh (RolesService.getByIdKey id o) = none)
    (hok : be.resource (Api.dispatch "get" (RolesService.getByIdUrl id o) [] w).1 = .ok data)
    (hdata : data ≠ .null) (hforce : o2.forceRefresh = false)
    (hage : (now2 : Int) - (later : Int) < 600000) :
    ((id2 = id ∧ o2.includePermissions = o.includePermissions ∧
        o2.includeUsers = o.includeUsers) →
      RolesService.getById be2 now2 later2 id2 o2
          (RolesService.getById be now later id o svc w).2.1
          (RolesService.getById be now later id o svc w).2.2
        = (.ok data, (RolesService.getById be now later id o svc w).2.1,
            (RolesService.getById be now later id o svc w).2.2)) ∧
    (¬ (id2 = id ∧ o2.includePermissions = o.includePermissions ∧
        o2.includeUsers = o.includeUsers) →
      svc.cache.lookup (RolesService.getByIdKey id2 o2) = none →
      (RolesService.getById be2 now2 later2 id2 o2
          (RolesService.getById be now later id o svc w).2.1
          (RolesService.getById be now later id o svc w).2.2).2.2.requests
        = (RolesService.getById be now later id o svc w).2.2.requests ++
          [(Api.dispatch "get" (RolesService.getByIdUrl id2 o2) []
            (RolesService.getById be now later id o svc w).2.2).1]) := by
  have hget : RolesService.getById be now later id o svc w
      = RolesService.fetch be later (RolesService.getByIdUrl id o) []
          (RolesService.getByIdKey id o) "Error al obtener el rol" svc w := by
    simp only [RolesService.getById, hmiss]
  obtain ⟨-, hcache⟩ := fetch_ok be later (RolesService.getByIdUrl id o) []
    (RolesService.getByIdKey id o) "Error al obtener el rol" svc w data hok hdata
  rw [← hget] at hcache
  clear hget
  generalize RolesService.getById be now later id o svc w = r at hcache ⊢
  constructor
  · intro hsame
    have hkey : RolesService.getByIdKey id2 o2 = RolesService.getByIdKey id o := by
      simp only [RolesService.getByIdKey, hsame.1, hsame.2.1, hsame.2.2]
    have hhit : r.2.1.cached now2 o2.forceRefresh (RolesService.getByIdKey id2 o2)
        = some ⟨data, later⟩ := by
      rw [cached_iff]
      refine ⟨hforce, ?_, hage⟩
      rw [hcache, hkey]
      exact cache_set_lookup _ _ _
    simp only [RolesService.getById, hhit]
  · intro hdiff hnone
    have hkey : RolesService.getByIdKey id2 o2 ≠ RolesService.getByIdKey id o :=
      fun h => hdiff (getByIdKey_injective id2 id o2 o h)
    have hmiss2 : r.2.1.cached now2 o2.forceRefresh (RolesService.getByIdKey id2 o2)
        = none := by
      rw [cached_none_iff]
      right; left
      rw [hcache, cache_set_lookup_other _ _ _ _ hkey]
      exact hnone
    simp only [RolesService.getById, hmiss2]
    exact fetch_requests _ _ _ _ _ _ _ _

/-- A mutating method that returns has emptied the cache; one that raises has
left the cache as it was. -/
theorem mutate_cache (be : Backend) (m : Mutation) (svc : RolesService) (w : World) :
    (RolesService.mutate be m svc w).2.1.cache =
      (match (RolesService.mutate be m svc w).1 with
        | .ok _ => []
        | .error _ => svc.cache) := by
  unfold RolesService.mutate
  cases hv : m.validate with
  | error message => rfl
  | ok u =>
    simp only []
    cases hr : Api.call be.resource m.method m.url m.body w with
    | mk res w1 =>
      cases res with
      | error e => rfl
      | ok data =>
        simp only []
        by_cases hl : m.logThrows data = true
        · simp [hl]
        · simp [hl, RolesService.clearCache]

/-- Claim C23: for every cache content, when any of `create`, `update`,
`delete`, `restore`, `duplicate`, `assignToUser`, `assignMultipleToUser`,
`removeFromUser`, `syncUserRoles`, `setPermissions`, `addPermissions` and
`removePermissions` returns, the cache is empty (`getCacheSize()` is 0) and the
next `getAll()`, at any time and with any options, sends a request. -/
theorem mutation_success_empties_cache (be : Backend) (m : Mutation) (svc : RolesService)
    (w : World) (data : JsData)
    (hok : (RolesService.mutate be m svc w).1 = .ok data)
    (be2 : Backend) (now later : Nat) (o : ReadOptions) :
    (RolesService.mutate be m svc w).2.1.getCacheSize = 0 ∧
    (RolesService.mutate be m svc w).2.1.cache = [] ∧
    (RolesService.getAll be2 now later o (RolesService.mutate be m svc w).2.1
        (RolesService.mutate be m svc w).2.2).2.2.requests
      = (RolesService.mutate be m svc w).2.2.requests ++
        [(Api.dispatch "get" (RolesService.getAllUrl o) []
          (RolesService.mutate be m svc w).2.2).1] := by
  have hc : (RolesService.mutate be m svc w).2.1.cache = [] := by
    rw [mutate_cache, hok]
  refine ⟨by simp [RolesService.getCacheSize, hc], hc, ?_⟩
  have hmiss : (RolesService.mutate be m svc w).2.1.cached now o.forceRefresh
      (RolesService.getAllKey o) = none := by
    rw [cached_none_iff]
    right; left
    rw [hc]
    rfl
  simp only [RolesService.getAll, hmiss]
  exact fetch_requests _ _ _ _ _ _ _ _

/-- Instance of C23: `update(1, ...)` answered 2xx on the sample cache, filled
at time 0, followed by `getAll()` one second later. -/
theorem mutation_success_empties_cache_witness :
    (RolesService.update (backendServing (.object adminRole) none) 1 [("color", "red")]
      ⟨sampleCache⟩ sampleSession).2.1.getCacheSize = 0 ∧
    (RolesService.getAll backendDown 1000 1001 sampleOptions
      (RolesService.update (backendServing (.object adminRole) none) 1 [("color", "red")]
        ⟨sampleCache⟩ sampleSession).2.1
      (RolesService.update (backendServing (.object adminRole) none) 1 [("color", "red")]
        ⟨sampleCache⟩ sampleSession).2.2).2.2.requests.length = 2 :=
  have h := mutation_success_empties_cache (backendServing (.object adminRole) none)
    (.update 1 [("color", "red")]) ⟨sampleCache⟩ sampleSession (.object adminRole) rfl
    backendDown 1000 1001 sampleOptions
  ⟨h.1, by
    have h3 := h.2.2
    simp only [RolesService.update]
    rw [h3]
    rfl⟩

/-- Claim C24, as amended: every invocation of a mutating method leaves the
cache empty when it returns, and leaves the cache as it was when it raises,
whether after a failed validation, an error response, a timeout, or a log line
that throws after the backend answered. -/
theorem mutation_cache_outcome (be : Backend) (m : Mutation) (svc : RolesService)
    (w : World) :
    (∀ data, (RolesService.mutate be m svc w).1 = .ok data →
      (RolesService.mutate be m svc w).2.1.cache = []) ∧
    (∀ err, (RolesService.mutate be m svc w).1 = .error err →
      (RolesService.mutate be m svc w).2.1.cache = svc.cache) ∧
    ((be.resource (Api.dispatch m.method m.url m.body w).1).isOk = false →
      (RolesService.mutate be m svc w).2.1.cache = svc.cache) := by
  refine ⟨?_, ?_, ?_⟩
  · intro data h
    rw [mutate_cache, h]
  · intro err h
    rw [mutate_cache, h]
  · intro hfail
    unfold RolesService.mutate
    cases hv : m.validate with
    | error message => rfl
    | ok u =>
      simp only [Api.call]
      cases hr : be.resource (Api.dispatch m.method m.url m.body w).1 with
      | ok data => simp [hr, Reply.isOk] at hfail
      | failed status message => simp [Api.receive]
      | noResponse message => simp [Api.receive]

/-- Claim C24 fails as stated: `update(1, ...)` against a backend that does not
answer leaves all three entries of the sample cache in place. -/
theorem mutation_failure_keeps_cache_counterexample :
    (RolesService.update backendDown 1 [("color", "red")] ⟨sampleCache⟩
      sampleSession).1 = .error (.object "Network Error" none) ∧
    (RolesService.update backendDown 1 [("color", "red")] ⟨sampleCache⟩
      sampleSession).2.1.cache = sampleCache ∧
    (RolesService.update backendDown 1 [("color", "red")] ⟨sampleCache⟩
      sampleSession).2.1.getCacheSize = 3 :=
  ⟨rfl, rfl, rfl⟩

/-! ## Role predicates -/

/-- The roles of the current user as read for the predicates: the answer of
the backend when the user has an id. -/
theorem getCurrentUserRoles_ok (be : Backend) (w : World) (u : User)
    (roles : Option (List JsObject)) (hu : w.store.user = some u)
    (hid : (u.get "id").truthy = true) (hroles : ∀ req, be.userRoles req = .ok roles) :
    (RolesService.getCurrentUserRoles be w).1 = .ok roles := by
  simp [RolesService.getCurrentUserRoles, hu, hid, Api.call, hroles, Api.receive]

/-- Without a user, or with a user that has no id, reading the roles fails. -/
theorem getCurrentUserRoles_no_user (be : Backend) (w : World)
    (hu : ∀ u, w.store.user = some u → (u.get "id").truthy = false) :
    ∃ err, (RolesService.getCurrentUserRoles be w).1 = .error err := by
  unfold RolesService.getCurrentUserRoles
  cases hw : w.store.user with
  | none => exact ⟨_, rfl⟩
  | some u => simp [hu u hw]

/-- When the backend does not answer 2xx, reading the roles fails. -/
theorem getCurrentUserRoles_failed (be : Backend) (w : World)
    (hfail : ∀ req, (be.userRoles req).isOk = false) :
    ∃ err, (RolesService.getCurrentUserRoles be w).1 = .error err := by
  unfold RolesService.getCurrentUserRoles
  cases hw : w.store.user with
  | none => exact ⟨_, rfl⟩
  | some u =>
    by_cases hid : (u.get "id").truthy = true
    · simp only [hid, Bool.not_true, Bool.false_eq_true, if_false, Api.call]
      have h := hfail (Api.dispatch "get"
        ("/usuarios/" ++ (u.get "id").toJsString ++ "/roles") [] w).1
      cases hr : be.userRoles (Api.dispatch "get"
          ("/usuarios/" ++ (u.get "id").toJsString ++ "/roles") [] w).1 with
      | ok data => simp [hr, Reply.isOk] at h
      | failed status message => simp [Api.receive]
      | noResponse message => simp [Api.receive]
    · simp [hid]

/-- The test `names.includes(v)` holds exactly when `v` is one of the names. -/
theorem includes_iff (names : List String) (v : JsVal) :
    includes names v = true ↔ ∃ n, n ∈ names ∧ v = .str n := by
  cases v with
  | str s => simp [includes]
  | null => simp [includes]
  | num n => simp [includes]
  | arr xs => simp [includes]

/-- Claim C25: for every list of names and every list of roles the backend
returns for the current user, `currentUserHasAnyRole(names)` is true exactly
when some returned role has its `nombre` or its `slug` among the names; it is
false when there is no current user and when the roles fetch fails. -/
theorem currentUserHasAnyRole_spec (be : Backend) (names : List String) (w : World) :
    (∀ u roles, w.store.user = some u → (u.get "id").truthy = true →
      (∀ req, be.userRoles req = .ok (some roles)) →
      ((RolesService.currentUserHasAnyRole be names w).1 = true ↔
        ∃ role, role ∈ roles ∧ ∃ n, n ∈ names ∧
          (role.get "nombre" = .str n ∨ role.get "slug" = .str n))) ∧
    ((∀ u, w.store.user = some u → (u.get "id").truthy = false) →
      (RolesService.currentUserHasAnyRole be names w).1 = false) ∧
    ((∀ req, (be.userRoles req).isOk = false) →
      (RolesService.currentUserHasAnyRole be names w).1 = false) := by
  refine ⟨?_, ?_, ?_⟩
  · intro u roles hu hid hroles
    have h := getCurrentUserRoles_ok be w u (some roles) hu hid hroles
    unfold RolesService.currentUserHasAnyRole
    cases hr : RolesService.getCurrentUserRoles be w with
    | mk res w1 =>
      rw [hr] at h
      simp only at h
      subst h
      simp only [List.any_eq_true, Bool.or_eq_true, includes_iff]
      constructor
      · rintro ⟨role, hmem, h1 | h1⟩
        · obtain ⟨n, hn, hv⟩ := h1
          exact ⟨role, hmem, n, hn, Or.inl hv⟩
        · obtain ⟨n, hn, hv⟩ := h1
          exact ⟨role, hmem, n, hn, Or.inr hv⟩
      · rintro ⟨role, hmem, n, hn, h1 | h1⟩
        · exact ⟨role, hmem, Or.inl ⟨n, hn, h1⟩⟩
        · exact ⟨role, hmem, Or.inr ⟨n, hn, h1⟩⟩
  · intro hu
    obtain ⟨err, h⟩ := getCurrentUserRoles_no_user be w hu
    unfold RolesService.currentUserHasAnyRole
    cases hr : RolesService.getCurrentUserRoles be w with
    | mk res w1 =>
      rw [hr] at h
      simp only at h
      subst h
      rfl
  · intro hfail
    obtain ⟨err, h⟩ := getCurrentUserRoles_failed be w hfail
    unfold RolesService.currentUserHasAnyRole
    cases hr : RolesService.getCurrentUserRoles be w with
    | mk res w1 =>
      rw [hr] at h
      simp only at h
      subst h
      rfl

/-- The scenario of C25: names `['admin']` against the administrator role,
matched by its slug. -/
theorem currentUserHasAnyRole_admin :
    (RolesService.currentUserHasAnyRole (backendServing .null (some [adminRole])) ["admin"]
      sampleSession).1 = true ∧
    (RolesService.currentUserHasAnyRole (backendServing .null (some [adminRole])) ["editor"]
      sampleSession).1 = false ∧
    (RolesService.currentUserHasAnyRole backendDown ["admin"] sampleSession).1 = false := by
  decide

/-- Claim C26 fails on the code: with the administrator role, whose `nombre` is
`Administrador` and whose `slug` is `admin`, `currentUserHasAllRoles(['admin'])`
is false although the name is the slug of a returned role and
`currentUserHasRole('admin')` is true. -/
theorem currentUserHasAllRoles_misses_slug :
    adminRole.get "slug" = .str "admin" ∧
    (RolesService.currentUserHasRole (backendServing .null (some [adminRole])) "admin"
      sampleSession).1 = true ∧
    (RolesService.currentUserHasAllRoles (backendServing .null (some [adminRole])) ["admin"]
      sampleSession).1 = false := by
  decide

/-- The three role predicates answer false when reading the roles fails. -/
theorem role_predicates_of_error (be : Backend) (w : World) (roleName : String)
    (roleNames : List String) (err : JsError)
    (h : (RolesService.getCurrentUserRoles be w).1 = .error err) :
    (RolesService.currentUserHasRole be roleName w).1 = false ∧
    (RolesService.currentUserHasAnyRole be roleNames w).1 = false ∧
    (RolesService.currentUserHasAllRoles be roleNames w).1 = false := by
  unfold RolesService.currentUserHasRole RolesService.currentUserHasAnyRole
    RolesService.currentUserHasAllRoles
  cases hr : RolesService.getCurrentUserRoles be w with
  | mk res w1 =>
    rw [hr] at h
    simp only at h
    subst h
    exact ⟨rfl, rfl, rfl⟩

/-- The three role predicates answer false when the roles read are not a list. -/
theorem role_predicates_of_not_list (be : Backend) (w : World) (roleName : String)
    (roleNames : List String)
    (h : (RolesService.getCurrentUserRoles be w).1 = .ok none) :
    (RolesService.currentUserHasRole be roleName w).1 = false ∧
    (RolesService.currentUserHasAnyRole be roleNames w).1 = false ∧
    (RolesService.currentUserHasAllRoles be roleNames w).1 = false := by
  unfold RolesService.currentUserHasRole RolesService.currentUserHasAnyRole
    RolesService.currentUserHasAllRoles
  cases hr : RolesService.getCurrentUserRoles be w with
  | mk res w1 =>
    rw [hr] at h
    simp only at h
    subst h
    exact ⟨rfl, rfl, rfl⟩

/-- When the roles endpoint answers with something that is not a list, reading
the roles fails or yields that answer. -/
theorem getCurrentUserRoles_not_list (be : Backend) (w : World)
    (hnone : ∀ req, be.userRoles req = .ok none) :
    (∃ err, (RolesService.getCurrentUserRoles be w).1 = .error err) ∨
    (RolesService.getCurrentUserRoles be w).1 = .ok none := by
  unfold RolesService.getCurrentUserRoles
  cases hw : w.store.user with
  | none => exact Or.inl ⟨_, rfl⟩
  | some u =>
    by_cases hid : (u.get "id").truthy = true
    · right
      simp [hid, Api.call, hnone, Api.receive]
    · left
      simp [hid]

/-- The permission predicate answers false when the permissions endpoint does
not answer 2xx. -/
theorem hasPermission_of_failed (be : Backend) (w : World) (permission : String)
    (hfail : ∀ req, (be.effectivePermissions req).isOk = false) :
    (RolesService.currentUserHasPermission be permission w).1 = false := by
  unfold RolesService.currentUserHasPermission
  cases hw : w.store.user with
  | none => rfl
  | some u =>
    simp only [RolesService.getUserEffectivePermissions, Api.call]
    have h := hfail (Api.dispatch "get"
      ("/usuarios/" ++ (u.get "id").toJsString ++ "/permisos/efectivos") [] w).1
    cases hr : be.effectivePermissions (Api.dispatch "get"
        ("/usuarios/" ++ (u.get "id").toJsString ++ "/permisos/efectivos") [] w).1 with
    | ok data => simp [hr, Reply.isOk] at h
    | failed status message => simp [Api.receive]
    | noResponse message => simp [Api.receive]

/-- The permission predicate answers false when the permissions endpoint
answers with something that is not a list. -/
theorem hasPermission_of_not_list (be : Backend) (w : World) (permission : String)
    (hnone : ∀ req, be.effectivePermissions req = .ok none) :
    (RolesService.currentUserHasPermission be permission w).1 = false := by
  unfold RolesService.currentUserHasPermission
  cases hw : w.store.user with
  | none => rfl
  | some u =>
    simp [RolesService.getUserEffectivePermissions, Api.call, hnone, Api.receive]

/-- When the request for the roles of the current user is not answered 2xx,
reading the roles fails. -/
theorem getCurrentUserRoles_of_request_failed (be : Backend) (w : World)
    (hfail : ∀ u, w.store.user = some u →
      (be.userRoles (Api.dispatch "get"
        ("/usuarios/" ++ (u.get "id").toJsString ++ "/roles") [] w).1).isOk = false) :
    ∃ err, (RolesService.getCurrentUserRoles be w).1 = .error err := by
  unfold RolesService.getCurrentUserRoles
  cases hw : w.store.user with
  | none => exact ⟨_, rfl⟩
  | some u =>
    by_cases hid : (u.get "id").truthy = true
    · simp only [hid, Bool.not_true, Bool.false_eq_true, if_false, Api.call]
      have h := hfail u hw
      cases hr : be.userRoles (Api.dispatch "get"
          ("/usuarios/" ++ (u.get "id").toJsString ++ "/roles") [] w).1 with
      | ok data => simp [hr, Reply.isOk] at h
      | failed status message => simp [Api.receive]
      | noResponse message => simp [Api.receive]
    · simp [hid]

/-- When the request for the roles of the current user is answered with
something that is not a list, reading the roles fails or yields that answer. -/
theorem getCurrentUserRoles_of_request_not_list (be : Backend) (w : World)
    (hnone : ∀ u, w.store.user = some u →
      be.userRoles (Api.dispatch "get"
        ("/usuarios/" ++ (u.get "id").toJsString ++ "/roles") [] w).1 = .ok none) :
    (∃ err, (RolesService.getCurrentUserRoles be w).1 = .error err) ∨
    (RolesService.getCurrentUserRoles be w).1 = .ok none := by
  unfold RolesService.getCurrentUserRoles
  cases hw : w.store.user with
  | none => exact Or.inl ⟨_, rfl⟩
  | some u =>
    by_cases hid : (u.get "id").truthy = true
    · right
      simp [hid, Api.call, hnone u hw, Api.receive]
    · left
      simp [hid]

/-- The permission predicate answers false when its request is not answered
2xx. -/
theorem hasPermission_of_request_failed (be : Backend) (w : World) (permission : String)
    (hfail : ∀ u, w.store.user = some u →
      (be.effectivePermissions (Api.dispatch "get"
        ("/usuarios/" ++ (u.get "id").toJsString ++ "/permisos/efectivos") [] w).1).isOk
        = false) :
    (RolesService.currentUserHasPermission be permission w).1 = false := by
  unfold RolesService.currentUserHasPermission
  cases hw : w.store.user with
  | none => rfl
  | some u =>
    simp only [RolesService.getUserEffectivePermissions, Api.call]
    have h := hfail u hw
    cases hr : be.effectivePermissions (Api.dispatch "get"
        ("/usuarios/" ++ (u.get "id").toJsString ++ "/permisos/efectivos") [] w).1 with
    | ok data => simp [hr, Reply.isOk] at h
    | failed status message => simp [Api.receive]
    | noResponse message => simp [Api.receive]

/-- The permission predicate answers false when its request is answered with
something that is not a list. -/
theorem hasPermission_of_request_not_list (be : Backend) (w : World) (permission : String)
    (hnone : ∀ u, w.store.user = some u →
      be.effectivePermissions (Api.dispatch "get"
        ("/usuarios/" ++ (u.get "id").toJsString ++ "/permisos/efectivos") [] w).1
        = .ok none) :
    (RolesService.currentUserHasPermission be permission w).1 = false := by
  unfold RolesService.currentUserHasPermission
  cases hw : w.store.user with
  | none => rfl
  | some u =>
    simp [RolesService.getUserEffectivePermissions, Api.call, hnone u hw, Api.receive]

/-- Claim C27: each of `currentUserHasRole`, `currentUserHasAnyRole`,
`currentUserHasAllRoles` and `currentUserHasPermission` returns a boolean for
every argument and state (none of them can reject), and that boolean is false
in each of these cases, whatever the rest of the backend does: there is no
current user (all four); the current user has no id (the three role
predicates); the request of the predicate is not answered 2xx; the request of
the predicate is answered with something that is not a list.  The role
predicates send the request for the roles of the user, the permission
predicate sends the request for the effective permissions, and the case of each
depends on its own request only. -/
theorem predicates_fail_closed (be : Backend) (w : World) (roleName permission : String)
    (roleNames : List String) :
    (w.store.user = none →
      (RolesService.currentUserHasRole be roleName w).1 = false ∧
      (RolesService.currentUserHasAnyRole be roleNames w).1 = false ∧
      (RolesService.currentUserHasAllRoles be roleNames w).1 = false ∧
      (RolesService.currentUserHasPermission be permission w).1 = false) ∧
    ((∀ u, w.store.user = some u → (u.get "id").truthy = false) →
      (RolesService.currentUserHasRole be roleName w).1 = false ∧
      (RolesService.currentUserHasAnyRole be roleNames w).1 = false ∧
      (RolesService.currentUserHasAllRoles be roleNames w).1 = false) ∧
    ((∀ u, w.store.user = some u →
        (be.userRoles (Api.dispatch "get"
          ("/usuarios/" ++ (u.get "id").toJsString ++ "/roles") [] w).1).isOk = false) →
      (RolesService.currentUserHasRole be roleName w).1 = false ∧
      (RolesService.currentUserHasAnyRole be roleNames w).1 = false ∧
      (RolesService.currentUserHasAllRoles be roleNames w).1 = false) ∧
    ((∀ u, w.store.user = some u →
        (be.effectivePermissions (Api.dispatch "get"
          ("/usuarios/" ++ (u.get "id").toJsString ++ "/permisos/efectivos") [] w).1).isOk
          = false) →
      (RolesService.currentUserHasPermission be permission w).1 = false) ∧
    ((∀ u, w.store.user = some u →
        be.userRoles (Api.dispatch "get"
          ("/usuarios/" ++ (u.get "id").toJsString ++ "/roles") [] w).1 = .ok none) →
      (RolesService.currentUserHasRole be roleName w).1 = false ∧
      (RolesService.currentUserHasAnyRole be roleNames w).1 = false ∧
      (RolesService.currentUserHasAllRoles be roleNames w).1 = false) ∧
    ((∀ u, w.store.user = some u →
        be.effectivePermissions (Api.dispatch "get"
          ("/usuarios/" ++ (u.get "id").toJsString ++ "/permisos/efectivos") [] w).1
          = .ok none) →
      (RolesService.currentUserHasPermission be permission w).1 = false) := by
  refine ⟨?_, ?_, ?_, ?_, ?_, ?_⟩
  · intro hu
    obtain ⟨err, h⟩ := getCurrentUserRoles_no_user be w (by
      intro u hsome
      rw [hu] at hsome
      cases hsome)
    obtain ⟨h1, h2, h3⟩ := role_predicates_of_error be w roleName roleNames err h
    refine ⟨h1, h2, h3, ?_⟩
    simp [RolesService.currentUserHasPermission, hu]
  · intro hu
    obtain ⟨err, h⟩ := getCurrentUserRoles_no_user be w hu
    exact role_predicates_of_error be w roleName roleNames err h
  · intro hroles
    obtain ⟨err, h⟩ := getCurrentUserRoles_of_request_failed be w hroles
    exact role_predicates_of_error be w roleName roleNames err h
  · intro hperms
    exact hasPermission_of_request_failed be w permission hperms
  · intro hroles
    rcases getCurrentUserRoles_of_request_not_list be w hroles with ⟨err, h⟩ | h
    · exact role_predicates_of_error be w roleName roleNames err h
    · exact role_predicates_of_not_list be w roleName roleNames h
  · intro hperms
    exact hasPermission_of_request_not_list be w permission hperms

/-- The cases of C27 do not depend on each other: with the roles endpoint
down and the permissions endpoint serving the permission asked for, the role
predicates are false and the permission predicate is true, and the other way
round. -/
theorem predicates_fail_closed_independent :
    (RolesService.currentUserHasRole
      { backendDown with effectivePermissions := fun _ => .ok (some [adminRole]) }
      "admin" sampleSession).1 = false ∧
    (RolesService.currentUserHasPermission
      { backendDown with effectivePermissions := fun _ => .ok (some [adminRole]) }
      "admin" sampleSession).1 = true ∧
    (RolesService.currentUserHasRole
      { backendDown with userRoles := fun _ => .ok (some [adminRole]) }
      "admin" sampleSession).1 = true ∧
    (RolesService.currentUserHasPermission
      { backendDown with userRoles := fun _ => .ok (some [adminRole]) }
      "admin" sampleSession).1 = false := by
  decide

/-! ## Client-side validation -/

/-- The check `_validateRoleData` throws exactly when `nombre` is missing,
empty, made of white space only, shorter than 3 or longer than 50. -/
theorem validateRoleData_error_iff (nombre : Option String) :
    (∃ message, RolesService._validateRoleData nombre = .error message) ↔
      (nombre = none ∨ ∃ n, nombre = some n ∧
        (n = "" ∨ trimIsEmpty n = true ∨ jsLength n < 3 ∨ 50 < jsLength n)) := by
  unfold RolesService._validateRoleData
  cases nombre with
  | none => simp
  | some n =>
    by_cases h1 : n = ""
    · simp [h1]
    · by_cases h2 : trimIsEmpty n = true
      · simp [h2]
      · by_cases h3 : jsLength n < 3
        · simp [h1, h2, h3]
        · by_cases h4 : 50 < jsLength n
          · simp [h1, h2, h3, h4]
          · simp [h1, h2, h3, h4]

/-- The check `_validateUserData` throws when `email` or `nombre` is missing
and when `email` does not match the pattern. -/
theorem validateUserData_error (userData : JsObject)
    (h : (userData.get "email").truthy = false ∨ (userData.get "nombre").truthy = false ∨
      regexMatch emailRegex (userData.get "email").toJsString.toList = false) :
    ∃ message, UserService._validateUserData userData = .error message := by
  unfold UserService._validateUserData
  by_cases he : (userData.get "email").truthy = true
  · by_cases hn : (userData.get "nombre").truthy = true
    · have hr : regexMatch emailRegex (userData.get "email").toJsString.toList = false := by
        rcases h with h | h | h
        · rw [he] at h; cases h
        · rw [hn] at h; cases h
        · exact h
      simp only [String.toList] at hr
      simp [List.filter, he, hn, hr]
    · simp [List.filter, he, hn]
  · simp [List.filter, he]

/-- Claim C28: `rolesService.create(data)` sends nothing, changes nothing and
raises the validation message whenever `data.nombre` is missing, empty, made of
white space only, shorter than 3 or longer than 50 characters, and sends the
`POST /roles` request otherwise; `userService.create(userData)` sends nothing
and raises whenever `email` or `nombre` is missing or `email` does not match
the email pattern. -/
theorem validation_precedes_network (be : Backend) (nombre : Option String)
    (fields : List (String × String)) (svc : RolesService) (userData : JsObject)
    (usvc : UserService) (w : World) :
    ((nombre = none ∨ ∃ n, nombre = some n ∧
        (n = "" ∨ trimIsEmpty n = true ∨ jsLength n < 3 ∨ 50 < jsLength n)) →
      ∃ message, RolesService._validateRoleData nombre = .error message ∧
        RolesService.create be nombre fields svc w = (.error (.object message none), svc, w)) ∧
    (¬ (nombre = none ∨ ∃ n, nombre = some n ∧
        (n = "" ∨ trimIsEmpty n = true ∨ jsLength n < 3 ∨ 50 < jsLength n)) →
      (RolesService.create be nombre fields svc w).2.2.requests
        = w.requests ++ [(Api.dispatch "post" "/roles"
            (Mutation.body (.create nombre fields)) w).1] ∧
      (Api.dispatch "post" "/roles" (Mutation.body (.create nombre fields)) w).1.method
        = "post" ∧
      (Api.dispatch "post" "/roles" (Mutation.body (.create nombre fields)) w).1.url
        = "/roles") ∧
    (((userData.get "email").truthy = false ∨ (userData.get "nombre").truthy = false ∨
        regexMatch emailRegex (userData.get "email").toJsString.toList = false) →
      ∃ message, UserService._validateUserData userData = .error message ∧
        UserService.create be userData usvc w
          = (.error (UserService.formatLocalError message), usvc, w)) := by
  refine ⟨?_, ?_, ?_⟩
  · intro h
    obtain ⟨message, hm⟩ := (validateRoleData_error_iff nombre).mpr h
    refine ⟨message, hm, ?_⟩
    simp [RolesService.create, RolesService.mutate, Mutation.validate, hm,
      RolesService.handleLocalError]
  · intro h
    have hv : RolesService._validateRoleData nombre = .ok () := by
      cases hr : RolesService._validateRoleData nombre with
      | error message => exact absurd ((validateRoleData_error_iff nombre).mp ⟨message, hr⟩) h
      | ok u => rfl
    refine ⟨?_, ?_, ?_⟩
    · simp only [RolesService.create, RolesService.mutate, Mutation.validate, hv,
        Mutation.method, Mutation.url, Api.call]
      cases hr : be.resource (Api.dispatch "post" "/roles"
          (Mutation.body (.create nombre fields)) w).1 with
      | ok data =>
        by_cases hl : Mutation.logThrows (.create nombre fields) data = true
        · simp [Api.receive, hl, Api.dispatch]
        · simp [Api.receive, hl, Api.dispatch, Mutation.userId]
      | failed status message =>
        simp [Api.receive, responseInterceptor_requests, Api.dispatch]
      | noResponse message =>
        simp [Api.receive, responseInterceptor_requests, Api.dispatch]
    · unfold Api.dispatch Api.requestInterceptor
      split <;> rfl
    · unfold Api.dispatch Api.requestInterceptor
      split <;> rfl
  · intro h
    obtain ⟨message, hm⟩ := validateUserData_error userData h
    refine ⟨message, hm, ?_⟩
    simp [UserService.create, hm]

/-- Instances of C28: a two-letter role name and an email without a dot after
the `@` are stopped before the network; the role name `Editor` goes out. -/
theorem validation_samples :
    (RolesService.create backendDown (some "ab") [] ⟨sampleCache⟩ sampleSession).1
      = .error (.object "El nombre del rol debe tener al menos 3 caracteres" none) ∧
    (RolesService.create backendDown (some "ab") [] ⟨sampleCache⟩
      sampleSession).2.2.requests = [] ∧
    (RolesService.create backendDown (some "Editor") [] ⟨sampleCache⟩
      sampleSession).2.2.requests
      = [{ method := "post", url := "/roles", body := [("nombre", "Editor")],
           authorization := some "Bearer T1" }] ∧
    (UserService.create backendDown [("email", .str "a@b"), ("nombre", .str "Ana")] ⟨[]⟩
      sampleSession).1 = .error (.structured "Email inválido" (some 500) none) ∧
    (UserService.create backendDown [("email", .str "a@b"), ("nombre", .str "Ana")] ⟨[]⟩
      sampleSession).2.2.requests = [] := by
  refine ⟨rfl, rfl, rfl, rfl, rfl⟩

/-! ## Clearing the cache of one role -/

/-- Claim C29 fails on the code: on a cache holding role 1, role 10 and a role
listing, `clearRoleCache(1)` deletes the entry of role 10 as well, because its
key `role_10_true_false` contains the text `role_1`; only the listing is left. -/
theorem clearRoleCache_hits_other_roles :
    sampleCache.map (fun kv => kv.1)
      = ["role_1_true_false", "role_10_true_false",
         RolesService.getAllKey sampleOptions] ∧
    (RolesService.clearRoleCache 1 ⟨sampleCache⟩).cache.map (fun kv => kv.1)
      = [RolesService.getAllKey sampleOptions] ∧
    (RolesService.clearRoleCache 1 ⟨sampleCache⟩).cache.lookup
      (RolesService.getByIdKey 10 sampleOptions) = none := by
  refine ⟨by decide, by decide, by decide⟩

/-! ## Tokens without an expiry -/

/-- Claim C30: for every stored token that decodes to a payload without `exp`,
at every time, `isTokenExpired` is false, and with a user loaded
`authService.isAuthenticated()` is true. -/
theorem token_without_exp_never_expires (dec : Decoder) (now : Nat) (w : World) (t : String)
    (ht : w.store.token = some t) (hne : t ≠ "") (hd : dec t = some { exp := none }) :
    w.store.isTokenExpired dec now = false ∧
    (w.store.user.isSome = true → (AuthService.isAuthenticated dec now w).1 = true) := by
  have hx : w.store.isTokenExpired dec now = false := by
    simp [UserStore.isTokenExpired, ht, hne, hd]
  refine ⟨hx, ?_⟩
  intro hu
  simp [AuthService.isAuthenticated, UserStore.isLoggedIn, ht, truthy, hne, hu, hx]

/-- Instance of C30: the sample session under a decoder that yields no `exp`,
read at a time far in the future. -/
theorem token_without_exp_never_expires_witness :
    sampleSession.store.isTokenExpired noExpiryDecoder 4102444800000 = false ∧
    (sampleSession.store.user.isSome = true →
      (AuthService.isAuthenticated noExpiryDecoder 4102444800000 sampleSession).1 = true) :=
  token_without_exp_never_expires noExpiryDecoder 4102444800000 sampleSession "T1" rfl
    (by decide) rfl

end Jey2
